import Mathlib

/-!
# Verification of the GIM year-step transition engine

Shallow embedding, over `ℚ`, of the numeric core of the GIM world simulator
(packages `gim_11_1` / `GIM_12.gim_11_1` / `v10_3_prod`): the sovereign
interest-rate model, the carbon-pool integrator, the credit-rating
combination, sanction resolution, the war exhaustion state machine, the
debt-crisis detector and the resource-stock update.  Python floats are
modelled as exact rationals; calls to `math.exp` are modelled by an abstract
function parameter constrained by the properties of the real exponential
that the surrounding code relies on.
-/

namespace GIM

/-- `clamp01` from `gim_11_1/core.py`: `max(0.0, min(1.0, value))`. -/
def clamp01 (x : ℚ) : ℚ := max 0 (min 1 x)

theorem clamp01_nonneg (x : ℚ) : 0 ≤ clamp01 x := le_max_left 0 _

theorem clamp01_le_one (x : ℚ) : clamp01 x ≤ 1 := by
  unfold clamp01
  rcases le_total x 1 with h | h
  · simp [min_eq_left h]
  · simp [min_eq_right h]

theorem clamp01_mono : Monotone clamp01 := fun a b hab => by
  unfold clamp01
  exact max_le_max le_rfl (min_le_min le_rfl hab)

theorem clamp01_mem (x : ℚ) : 0 ≤ clamp01 x ∧ clamp01 x ≤ 1 :=
  ⟨clamp01_nonneg x, clamp01_le_one x⟩

theorem clamp01_of_mem {x : ℚ} (h0 : 0 ≤ x) (h1 : x ≤ 1) : clamp01 x = x := by
  unfold clamp01
  rw [min_eq_right h1, max_eq_right h0]

/-- `effective_trade_intensity` from `gim_11_1/core.py`:
`max(0.0, trade_intensity * (1.0 - clamp01(trade_barrier)))`. -/
def effective_trade_intensity (trade_intensity trade_barrier : ℚ) : ℚ :=
  max 0 (trade_intensity * (1 - clamp01 trade_barrier))

/-! ## Sovereign interest-rate model (`gim_11_1/economy.py`)

`compute_effective_interest_rate(agent, world)` reads, from the agent, its
gdp, public debt, regime stability and debt-crisis proneness, and from the
world the debt stress of each trade partner.  We embed the agent inputs and
one record per relation partner. -/

/-- The agent fields read by `compute_effective_interest_rate`. -/
structure RateAgent where
  gdp : ℚ
  public_debt : ℚ
  regime_stability : ℚ
  debt_crisis_prone : ℚ

/-- The per-partner fields read by the contagion loop of
`compute_effective_interest_rate`: the partner's gdp, debt and
debt-crisis proneness, and the relation's trade intensity and barrier. -/
structure RatePartner where
  gdp : ℚ
  public_debt : ℚ
  debt_crisis_prone : ℚ
  trade_intensity : ℚ
  trade_barrier : ℚ

/-- Debt spread before the cap: `0.03*excess + 0.10*excess**2` scaled by
crisis-proneness and regime fragility, with `excess = max(0, debt/gdp - 0.6)`
(`economy.py` lines 77-84). -/
def rate_spread (a : RateAgent) : ℚ :=
  let gdp := max a.gdp (1/1000000)
  let debt_gdp := a.public_debt / gdp
  let excess := max 0 (debt_gdp - 0.6)
  let spread_raw := 0.03 * excess + 0.10 * excess ^ 2
  let fragility := 1 - a.regime_stability
  spread_raw * (0.5 + 0.5 * a.debt_crisis_prone) * (0.7 + 0.6 * fragility)

/-- One partner's weighted stress contribution: weight and weighted stress
(`economy.py` lines 90-100). -/
def partner_stress_term (p : RatePartner) : ℚ × ℚ :=
  let partner_gdp := max p.gdp (1/1000000)
  let partner_debt_gdp := p.public_debt / partner_gdp
  let partner_excess := max 0 (partner_debt_gdp - 0.9)
  let stress := partner_excess * p.debt_crisis_prone
  let weight := max 0 (effective_trade_intensity p.trade_intensity p.trade_barrier)
  (weight, weight * stress)

/-- Contagion spread: trade-weighted average of partners' debt stress, scaled
by 0.02 and capped at 0.05 (`economy.py` lines 86-103). -/
def rate_contagion (partners : List RatePartner) : ℚ :=
  let total_weight := (partners.map fun p => (partner_stress_term p).1).sum
  let stress_sum := (partners.map fun p => (partner_stress_term p).2).sum
  if 0 < total_weight then min 0.05 (0.02 * (stress_sum / total_weight)) else 0

/-- `compute_effective_interest_rate` from `gim_11_1/economy.py`:
`max(0.0, min(base + min(spread, 0.25) + contagion, 0.35))` with base 0.02. -/
def compute_effective_interest_rate (a : RateAgent) (partners : List RatePartner) : ℚ :=
  max 0 (min (0.02 + min (rate_spread a) 0.25 + rate_contagion partners) 0.35)

theorem rate_spread_nonneg (a : RateAgent)
    (hdcp : 0 ≤ a.debt_crisis_prone) (hstab : a.regime_stability ≤ 1) :
    0 ≤ rate_spread a := by
  unfold rate_spread
  have hexcess : (0:ℚ) ≤ max 0 (a.public_debt / max a.gdp (1/1000000) - 0.6) :=
    le_max_left _ _
  have h1 : (0:ℚ) ≤ 0.03 * max 0 (a.public_debt / max a.gdp (1/1000000) - 0.6)
      + 0.10 * (max 0 (a.public_debt / max a.gdp (1/1000000) - 0.6)) ^ 2 := by
    have := sq_nonneg (max 0 (a.public_debt / max a.gdp (1/1000000) - 0.6))
    nlinarith
  have h2 : (0:ℚ) ≤ 0.5 + 0.5 * a.debt_crisis_prone := by linarith
  have h3 : (0:ℚ) ≤ 0.7 + 0.6 * (1 - a.regime_stability) := by linarith
  positivity

theorem rate_contagion_nonneg (partners : List RatePartner)
    (hdcp : ∀ p ∈ partners, 0 ≤ p.debt_crisis_prone) :
    0 ≤ rate_contagion partners := by
  unfold rate_contagion
  by_cases hpos : 0 < (partners.map fun p => (partner_stress_term p).1).sum
  · simp only [hpos, if_true]
    have hstress : 0 ≤ (partners.map fun p => (partner_stress_term p).2).sum := by
      apply List.sum_nonneg
      intro x hx
      obtain ⟨p, hp, rfl⟩ := List.mem_map.mp hx
      unfold partner_stress_term
      have hw : (0:ℚ) ≤ max 0 (effective_trade_intensity p.trade_intensity p.trade_barrier) :=
        le_max_left _ _
      have hs : (0:ℚ) ≤ max 0 (p.public_debt / max p.gdp (1/1000000) - 0.9)
          * p.debt_crisis_prone :=
        mul_nonneg (le_max_left _ _) (hdcp p hp)
      exact mul_nonneg hw hs
    have : (0:ℚ) ≤ 0.02 * ((partners.map fun p => (partner_stress_term p).2).sum
        / (partners.map fun p => (partner_stress_term p).1).sum) := by
      apply mul_nonneg (by norm_num)
      exact div_nonneg hstress hpos.le
    exact le_min (by norm_num) this
  · simp only [hpos, if_false]
    norm_num

theorem rate_contagion_le (partners : List RatePartner) :
    rate_contagion partners ≤ 0.05 := by
  unfold rate_contagion
  by_cases hpos : 0 < (partners.map fun p => (partner_stress_term p).1).sum
  · simp only [hpos, if_true]
    exact min_le_left _ _
  · simp only [hpos, if_false]; norm_num

/-- C9: for every agent whose regime stability and debt-crisis proneness lie in
their documented `[0,1]` ranges and whose partners have non-negative
debt-crisis proneness, the effective interest rate is the base rate `0.02`
plus a debt spread capped at `0.25` plus a contagion spread capped at `0.05`,
the spread and contagion are non-negative, and the returned value lies in
`[0.02, 0.35]`. -/
theorem effective_interest_rate_bounds (a : RateAgent) (partners : List RatePartner)
    (hdcp0 : 0 ≤ a.debt_crisis_prone)
    (hstab1 : a.regime_stability ≤ 1)
    (hpart : ∀ p ∈ partners, 0 ≤ p.debt_crisis_prone) :
    0 ≤ rate_spread a ∧
    0 ≤ rate_contagion partners ∧
    rate_contagion partners ≤ 0.05 ∧
    compute_effective_interest_rate a partners
      = 0.02 + min (rate_spread a) 0.25 + rate_contagion partners ∧
    0.02 ≤ compute_effective_interest_rate a partners ∧
    compute_effective_interest_rate a partners ≤ 0.35 := by
  have hs := rate_spread_nonneg a hdcp0 hstab1
  have hc0 := rate_contagion_nonneg partners hpart
  have hc5 := rate_contagion_le partners
  have hmin0 : 0 ≤ min (rate_spread a) 0.25 := le_min hs (by norm_num)
  have hmin25 : min (rate_spread a) 0.25 ≤ 0.25 := min_le_right _ _
  have hrate_lo : (0.02:ℚ) ≤ 0.02 + min (rate_spread a) 0.25 + rate_contagion partners := by
    linarith
  have hrate_hi : 0.02 + min (rate_spread a) 0.25 + rate_contagion partners ≤ (0.35:ℚ) := by
    linarith
  have heq : compute_effective_interest_rate a partners
      = 0.02 + min (rate_spread a) 0.25 + rate_contagion partners := by
    unfold compute_effective_interest_rate
    rw [min_eq_left hrate_hi]
    rw [max_eq_right (by linarith)]
  refine ⟨hs, hc0, hc5, heq, ?_, ?_⟩
  · rw [heq]; exact hrate_lo
  · rw [heq]; exact hrate_hi

/-- Witness for `effective_interest_rate_bounds` at a concrete agent with one
partner. -/
theorem effective_interest_rate_bounds_witness :
    0 ≤ (1:ℚ) ∧
    compute_effective_interest_rate
      ⟨1, 1.3, 0.5, 1⟩ [⟨1, 1.3, 1, 1, 0⟩]
      = 0.02 + min (rate_spread ⟨1, 1.3, 0.5, 1⟩) 0.25
        + rate_contagion [⟨1, 1.3, 1, 1, 0⟩] := by
  have h := effective_interest_rate_bounds ⟨1, 1.3, 0.5, 1⟩ [⟨1, 1.3, 1, 1, 0⟩]
    (by norm_num) (by norm_num)
    (by intro p hp; simp at hp; subst hp; norm_num)
  exact ⟨by norm_num, h.2.2.2.1⟩

/-! ## Resource stocks (`v10_3_prod/resources.py`)

The food branch of `update_resource_stocks` (lines 93-104): food production is
clamped to be non-negative but is *not* subtracted from the reserve; the
reserve changes only by the regeneration and technology-expansion terms
(`regen_params["food"] = 0.02`, `tech_expansion_params["food"] = 0.0` by
default), each proportional to `max(own_reserve, 0)`. -/

/-- `ResourceSubState` from `core.py`. -/
structure ResourceSubState where
  own_reserve : ℚ
  production : ℚ
  consumption : ℚ
  efficiency : ℚ

/-- The food-resource body of `update_resource_stocks`: production clamped at
zero, reserve updated by `reserve + regen + tech_expansion` and floored at
zero (no production subtraction in the food branch). -/
def update_food_stock (r : ResourceSubState) (regen_food tech_food : ℚ) : ResourceSubState :=
  { r with
    production := max 0 r.production
    own_reserve := max 0 (r.own_reserve
      + regen_food * max r.own_reserve 0
      + tech_food * max r.own_reserve 0) }

/-- C10: with non-negative regeneration and technology-expansion parameters
(the defaults are `0.02` and `0.0`), the food reserve changes only by those
non-negative terms, so it never decreases across `update_resource_stocks`. -/
theorem food_reserve_never_decreases (r : ResourceSubState) (regen_food tech_food : ℚ)
    (hregen : 0 ≤ regen_food) (htech : 0 ≤ tech_food) :
    (update_food_stock r regen_food tech_food).own_reserve
      = max 0 (r.own_reserve
        + regen_food * max r.own_reserve 0
        + tech_food * max r.own_reserve 0) ∧
    r.own_reserve ≤ (update_food_stock r regen_food tech_food).own_reserve := by
  refine ⟨rfl, ?_⟩
  show r.own_reserve ≤ max 0 (r.own_reserve
      + regen_food * max r.own_reserve 0 + tech_food * max r.own_reserve 0)
  rcases le_total 0 r.own_reserve with h | h
  · rw [max_eq_left h]
    have : r.own_reserve ≤ r.own_reserve
        + regen_food * r.own_reserve + tech_food * r.own_reserve := by nlinarith
    exact le_trans this (le_max_right _ _)
  · exact le_trans h (le_max_left _ _)

/-- Witness for `food_reserve_never_decreases` at the default parameters. -/
theorem food_reserve_never_decreases_witness :
    (0:ℚ) ≤ 0.02 ∧
    (3:ℚ) ≤ (update_food_stock ⟨3, 5, 4, 1⟩ 0.02 0).own_reserve :=
  ⟨by norm_num, (food_reserve_never_decreases ⟨3, 5, 4, 1⟩ 0.02 0
    (by norm_num) (by norm_num)).2⟩

/-! ## Carbon-pool integrator (`GIM_12/gim_11_1/climate.py`)

`update_global_climate` (lines 96-121): each carbon pool decays by
`exp(-dt/tau)` (decay `1.0` for the non-finite or non-positive time-constant)
and gains its fixed fraction of the year's total emissions; the co2 stock is
then `max(baseline + sum(pools), baseline)`.  The call to `math.exp` is
modelled by an abstract parameter `exp'` constrained to be positive, and the
infinite time-constant `math.inf` by `Option.none`. -/

/-- `CO2_PREINDUSTRIAL_GT` from `core.py`. -/
def CO2_PREINDUSTRIAL_GT : ℚ := 2184.0

/-- `CARBON_POOL_FRACTIONS` from `climate.py` (they sum to exactly 1, so
`_normalize_fractions` leaves them unchanged). -/
def CARBON_POOL_FRACTIONS : List ℚ := [0.2173, 0.2240, 0.2824, 0.2763]

/-- `CARBON_POOL_TIMESCALES` from `climate.py`; `Option.none` stands for
`math.inf`. -/
def CARBON_POOL_TIMESCALES : List (Option ℚ) :=
  [Option.none, some 394.4, some 36.54, some 4.304]

/-- `_normalize_fractions` from `climate.py`. -/
def normalize_fractions (fractions : List ℚ) : List ℚ :=
  if fractions.sum ≤ 0 then [1] else fractions.map (· / fractions.sum)

/-- The per-pool decay factor of `update_global_climate`: `1.0` when the
time-constant is not finite or not positive, else `exp(-dt/tau)`. -/
def carbon_decay (exp' : ℚ → ℚ) (dt : ℚ) : Option ℚ → ℚ
  | Option.none => 1
  | some tau => if tau ≤ 0 then 1 else exp' (-(dt / tau))

/-- The carbon-pool update of `update_global_climate` (lines 110-117):
`new_pool = pool * decay + frac * total_emissions`, pools zipped with their
fractions and time-constants. -/
def carbon_pools_step (exp' : ℚ → ℚ) (dt em : ℚ)
    (pools fracs : List ℚ) (taus : List (Option ℚ)) : List ℚ :=
  (pools.zip (fracs.zip taus)).map fun x =>
    x.1 * carbon_decay exp' dt x.2.2 + x.2.1 * em

/-- The co2 stock written by `update_global_climate` (lines 118-121):
`max(baseline + sum(new_pools), baseline)`. -/
def co2_after (pools : List ℚ) : ℚ :=
  max (CO2_PREINDUSTRIAL_GT + pools.sum) CO2_PREINDUSTRIAL_GT

theorem normalize_fractions_default :
    normalize_fractions CARBON_POOL_FRACTIONS = CARBON_POOL_FRACTIONS := by
  unfold normalize_fractions CARBON_POOL_FRACTIONS
  norm_num

/-- One default-configuration step on the four pools, written explicitly. -/
theorem carbon_pools_step_default (exp' : ℚ → ℚ) (dt em : ℚ) (p0 p1 p2 p3 : ℚ) :
    carbon_pools_step exp' dt em [p0, p1, p2, p3]
        CARBON_POOL_FRACTIONS CARBON_POOL_TIMESCALES
      = [p0 * 1 + 0.2173 * em,
         p1 * carbon_decay exp' dt (some 394.4) + 0.2240 * em,
         p2 * carbon_decay exp' dt (some 36.54) + 0.2824 * em,
         p3 * carbon_decay exp' dt (some 4.304) + 0.2763 * em] := by
  simp [carbon_pools_step, CARBON_POOL_FRACTIONS, CARBON_POOL_TIMESCALES, carbon_decay]

/-- C2: with zero total emissions every pool decays geometrically at its own
time-constant — after `n` zero-emission steps pool `i` holds its initial
value times `decay_i ^ n`, where `decay_i = exp(-dt/tau_i)` (and `1` for the
infinite-time-constant pool); and after every call (any emissions) the co2
stock equals the pre-industrial baseline plus the sum of the pools whenever
pools and emissions are non-negative, and never drops below the baseline. -/
theorem carbon_pools_zero_emission_decay (exp' : ℚ → ℚ) (dt : ℚ)
    (hexp : ∀ x, 0 < exp' x) (p0 p1 p2 p3 em : ℚ)
    (hp0 : 0 ≤ p0) (hp1 : 0 ≤ p1) (hp2 : 0 ≤ p2) (hp3 : 0 ≤ p3) (hem : 0 ≤ em) :
    (∀ n : ℕ,
      (fun pools => carbon_pools_step exp' dt 0 pools
          CARBON_POOL_FRACTIONS CARBON_POOL_TIMESCALES)^[n] [p0, p1, p2, p3]
        = [p0 * (carbon_decay exp' dt Option.none) ^ n,
           p1 * (carbon_decay exp' dt (some 394.4)) ^ n,
           p2 * (carbon_decay exp' dt (some 36.54)) ^ n,
           p3 * (carbon_decay exp' dt (some 4.304)) ^ n]) ∧
    co2_after (carbon_pools_step exp' dt em [p0, p1, p2, p3]
        CARBON_POOL_FRACTIONS CARBON_POOL_TIMESCALES)
      = CO2_PREINDUSTRIAL_GT
        + (carbon_pools_step exp' dt em [p0, p1, p2, p3]
            CARBON_POOL_FRACTIONS CARBON_POOL_TIMESCALES).sum ∧
    CO2_PREINDUSTRIAL_GT
      ≤ co2_after (carbon_pools_step exp' dt em [p0, p1, p2, p3]
          CARBON_POOL_FRACTIONS CARBON_POOL_TIMESCALES) := by
  have hdecay : ∀ o : Option ℚ, 0 ≤ carbon_decay exp' dt o := by
    intro o
    cases o with
    | none => norm_num [carbon_decay]
    | some tau =>
        by_cases htau : tau ≤ 0
        · simp [carbon_decay, htau]
        · simp only [carbon_decay, htau, if_false]
          exact (hexp _).le
  refine ⟨?_, ?_, ?_⟩
  · intro n
    induction n with
    | zero => simp
    | succ k ih =>
        rw [Function.iterate_succ_apply', ih, carbon_pools_step_default]
        simp only [carbon_decay]
        ring_nf
  · have hsum : 0 ≤ (carbon_pools_step exp' dt em [p0, p1, p2, p3]
        CARBON_POOL_FRACTIONS CARBON_POOL_TIMESCALES).sum := by
      rw [carbon_pools_step_default]
      have d1 := hdecay (some 394.4)
      have d2 := hdecay (some 36.54)
      have d3 := hdecay (some 4.304)
      simp only [List.sum_cons, List.sum_nil]
      nlinarith [mul_nonneg hp1 d1, mul_nonneg hp2 d2, mul_nonneg hp3 d3]
    unfold co2_after
    rw [max_eq_left (by linarith)]
  · exact le_max_right _ _

/-- Witness for `carbon_pools_zero_emission_decay` with a concrete positive
stand-in for the exponential. -/
theorem carbon_pools_zero_emission_decay_witness :
    (∀ x : ℚ, 0 < (fun _ : ℚ => (1:ℚ)/2) x) ∧
    CO2_PREINDUSTRIAL_GT
      ≤ co2_after (carbon_pools_step (fun _ => (1:ℚ)/2) 1 5 [10, 20, 30, 40]
          CARBON_POOL_FRACTIONS CARBON_POOL_TIMESCALES) := by
  have h := carbon_pools_zero_emission_decay (fun _ => (1:ℚ)/2) 1
    (fun _ => by norm_num) 10 20 30 40 5
    (by norm_num) (by norm_num) (by norm_num) (by norm_num) (by norm_num)
  exact ⟨fun _ => by norm_num, h.2.2⟩

/-! ## Credit-rating engine (`GIM_12/gim_11_1/credit_rating.py`)

The total-score combination of `_credit_risk_components` (lines 192-198), the
score-to-rating map `_risk_to_rating` (lines 226-228, Python's `round` is
round-half-to-even) and `rating_zone` (lines 28-33). -/

/-- Python 3's `round` to the nearest integer, halves to even. -/
def py_round (q : ℚ) : ℤ :=
  if q - ⌊q⌋ < 1/2 then ⌊q⌋
  else if 1/2 < q - ⌊q⌋ then ⌊q⌋ + 1
  else if 2 ∣ ⌊q⌋ then ⌊q⌋ else ⌊q⌋ + 1

theorem py_round_ge_floor (q : ℚ) : ⌊q⌋ ≤ py_round q := by
  unfold py_round; split_ifs <;> omega

theorem py_round_le_floor_add_one (q : ℚ) : py_round q ≤ ⌊q⌋ + 1 := by
  unfold py_round; split_ifs <;> omega

theorem py_round_mono {a b : ℚ} (hab : a ≤ b) : py_round a ≤ py_round b := by
  have hf : ⌊a⌋ ≤ ⌊b⌋ := Int.floor_mono hab
  rcases lt_or_eq_of_le hf with hlt | heq
  · calc py_round a ≤ ⌊a⌋ + 1 := py_round_le_floor_add_one a
      _ ≤ ⌊b⌋ := by omega
      _ ≤ py_round b := py_round_ge_floor b
  · have hr : a - (⌊a⌋:ℚ) ≤ b - (⌊a⌋:ℚ) := by linarith
    unfold py_round
    rw [← heq]
    split_ifs <;> first | omega | linarith

/-- The weighted combination producing `total_risk_score` in
`_credit_risk_components`. -/
def total_risk_score (financial war social sanc mac : ℚ) : ℚ :=
  clamp01 (0.25 * financial + 0.20 * war + 0.22 * social + 0.13 * sanc + 0.20 * mac)

/-- `_risk_to_rating`: `max(1, min(26, int(round(1 + clamp01(score) * 25))))`. -/
def risk_to_rating (risk_score : ℚ) : ℤ :=
  max 1 (min 26 (py_round (1 + clamp01 risk_score * (26 - 1))))

/-- `rating_zone`: green for rating ≤ 12, yellow for ≤ 20, red otherwise. -/
def rating_zone (rating : ℤ) : String :=
  if rating ≤ 12 then "green" else if rating ≤ 20 then "yellow" else "red"

/-- C3: the total credit risk score is monotone non-decreasing in each of the
five component risks with the others fixed; it is exactly the clamped
`0.25/0.20/0.22/0.13/0.20`-weighted sum; the score-to-rating map is
non-decreasing with values in `[1, 26]`; and the zone is green for rating
≤ 12, yellow for rating ≤ 20, red otherwise. -/
theorem credit_rating_monotone :
    (∀ f f' w s sa m : ℚ, f ≤ f' →
      total_risk_score f w s sa m ≤ total_risk_score f' w s sa m) ∧
    (∀ f w w' s sa m : ℚ, w ≤ w' →
      total_risk_score f w s sa m ≤ total_risk_score f w' s sa m) ∧
    (∀ f w s s' sa m : ℚ, s ≤ s' →
      total_risk_score f w s sa m ≤ total_risk_score f w s' sa m) ∧
    (∀ f w s sa sa' m : ℚ, sa ≤ sa' →
      total_risk_score f w s sa m ≤ total_risk_score f w s sa' m) ∧
    (∀ f w s sa m m' : ℚ, m ≤ m' →
      total_risk_score f w s sa m ≤ total_risk_score f w s sa m') ∧
    (∀ f w s sa m : ℚ, total_risk_score f w s sa m
      = clamp01 (0.25 * f + 0.20 * w + 0.22 * s + 0.13 * sa + 0.20 * m)) ∧
    (∀ r r' : ℚ, r ≤ r' → risk_to_rating r ≤ risk_to_rating r') ∧
    (∀ r : ℚ, 1 ≤ risk_to_rating r ∧ risk_to_rating r ≤ 26) ∧
    (∀ g : ℤ, (g ≤ 12 → rating_zone g = "green")
      ∧ (12 < g → g ≤ 20 → rating_zone g = "yellow")
      ∧ (20 < g → rating_zone g = "red")) := by
  refine ⟨?_, ?_, ?_, ?_, ?_, fun _ _ _ _ _ => rfl, ?_, ?_, ?_⟩
  · intro f f' w s sa m h
    exact clamp01_mono (by linarith)
  · intro f w w' s sa m h
    exact clamp01_mono (by linarith)
  · intro f w s s' sa m h
    exact clamp01_mono (by linarith)
  · intro f w s sa sa' m h
    exact clamp01_mono (by linarith)
  · intro f w s sa m m' h
    exact clamp01_mono (by linarith)
  · intro r r' h
    unfold risk_to_rating
    have hc := clamp01_mono h
    have : (1:ℚ) + clamp01 r * (26 - 1) ≤ 1 + clamp01 r' * (26 - 1) := by linarith
    exact max_le_max le_rfl (min_le_min le_rfl (py_round_mono this))
  · intro r
    unfold risk_to_rating
    constructor
    · exact le_max_left _ _
    · exact max_le (by norm_num) (le_trans (min_le_left _ _) (by norm_num))
  · intro g
    refine ⟨fun h => ?_, fun h1 h2 => ?_, fun h => ?_⟩
    · simp [rating_zone, h]
    · simp [rating_zone, h2]
      omega
    · have h1 : ¬ g ≤ 12 := by omega
      have h2 : ¬ g ≤ 20 := by omega
      simp [rating_zone, h1, h2]

/-- Witness for `credit_rating_monotone`: its conditional conjuncts applied at
concrete scores. -/
theorem credit_rating_monotone_witness :
    total_risk_score 0.1 0.2 0.3 0.4 0.5 ≤ total_risk_score 0.9 0.2 0.3 0.4 0.5 ∧
    risk_to_rating 0.2 ≤ risk_to_rating 0.6 ∧
    rating_zone 13 = "yellow" :=
  ⟨credit_rating_monotone.1 0.1 0.9 0.2 0.3 0.4 0.5 (by norm_num),
   (credit_rating_monotone.2.2.2.2.2.2.1) 0.2 0.6 (by norm_num),
   (credit_rating_monotone.2.2.2.2.2.2.2.2 13).2.1 (by norm_num) (by norm_num)⟩

/-! ## Sanction resolution (`GIM_12/gim_11_1/political_dynamics.py`)

`resolve_sanctions` (lines 165-206) rebuilds each actor's `active_sanctions`
and `sanction_years` dicts.  Dicts are modelled as total functions with
`Option`/`0` for absent keys (the two dicts are always written together by
this function, so the encodings stay synchronized). -/

/-- `SanctionType` from `core.py`. -/
inductive SanctionType where
  | none
  | mild
  | strong
deriving DecidableEq, Repr

/-- The `severity` table of `resolve_sanctions`. -/
def severity : SanctionType → ℕ
  | SanctionType.none => 0
  | SanctionType.mild => 1
  | SanctionType.strong => 2

/-- `_sanction_support` (lines 138-154): propensity/conflict/mistrust blend,
intent bump, alliance-block adjustment, clamped to `[0,1]`. -/
def sanction_support (propensity conflict_level trust : ℚ) (intent : SanctionType)
    (actor_block target_block : String) : ℚ :=
  let base := 0.4 * propensity + 0.3 * conflict_level + 0.3 * (1 - trust)
  let base := base + (match intent with
    | SanctionType.strong => 0.10
    | SanctionType.mild => 0.05
    | SanctionType.none => 0)
  let base := if actor_block ≠ "NonAligned" ∧ actor_block = target_block then base * 0.6
    else if actor_block ≠ target_block then base + 0.05
    else base
  clamp01 base

/-- `_desired_sanction_type` (lines 157-162). -/
def desired_sanction_type (support : ℚ) : SanctionType :=
  if support < 0.35 then SanctionType.none
  else if support < 0.65 then SanctionType.mild
  else SanctionType.strong

/-- The intent-free hysteresis branch of `resolve_sanctions` (lines 201-203):
an existing sanction with a positive remaining-years counter is kept, the
counter decremented by one; otherwise the entry is dropped. -/
def sanction_keep (existing : Option SanctionType) (years : ℕ) :
    Option (SanctionType × ℕ) :=
  match existing with
  | some e => if 0 < years then some (e, years - 1) else Option.none
  | Option.none => Option.none

/-- The per-target loop body of `resolve_sanctions` (lines 180-203) for a
valid target: `rel` is the actor→target relation's `(conflict_level, trust)`
(`Option.none` when the relation is missing, in which case the loop
`continue`s and no entry is written); `min_duration = 2`. -/
def resolve_sanction_target (propensity : ℚ) (actor_block target_block : String)
    (rel : Option (ℚ × ℚ)) (intent : SanctionType)
    (existing : Option SanctionType) (years : ℕ) : Option (SanctionType × ℕ) :=
  if intent ≠ SanctionType.none then
    match rel with
    | Option.none => Option.none
    | some ct =>
      let support := sanction_support propensity ct.1 ct.2 intent actor_block target_block
      let desired := if 0.35 ≤ support then desired_sanction_type support
        else SanctionType.none
      let desired := if desired ≠ SanctionType.none then
          (let d := if intent ≠ SanctionType.strong ∧ desired = SanctionType.strong
            then SanctionType.mild else desired
           if severity d < severity intent then intent else d)
        else desired
      if desired ≠ SanctionType.none then some (desired, max years 2)
      else sanction_keep existing years
  else sanction_keep existing years

/-- One actor's `active_sanctions`/`sanction_years` state. -/
structure ActorSanctionState where
  active : String → Option SanctionType
  years : String → ℕ

/-- One actor's pass of `resolve_sanctions` (lines 168-206): every target
equal to the actor or outside the agent roster is skipped (entry dropped);
all others go through the per-target body. -/
def resolve_sanctions_actor (actor_id : String) (agent_ids : List String)
    (propensity : ℚ) (actor_block : String) (block_of : String → String)
    (rel_of : String → Option (ℚ × ℚ)) (intents : String → SanctionType)
    (st : ActorSanctionState) : ActorSanctionState where
  active := fun t =>
    if t = actor_id ∨ t ∉ agent_ids then Option.none
    else (resolve_sanction_target propensity actor_block (block_of t) (rel_of t)
      (intents t) (st.active t) (st.years t)).map Prod.fst
  years := fun t =>
    if t = actor_id ∨ t ∉ agent_ids then 0
    else ((resolve_sanction_target propensity actor_block (block_of t) (rel_of t)
      (intents t) (st.active t) (st.years t)).map Prod.snd).getD 0

/-- C5: once an active sanction holds a remaining-years counter `y ≥ 2`
(`min_duration = 2`), it survives every one of the next `y` intent-free calls
to `resolve_sanctions` — in particular at least `min_duration` of them — with
the counter decreasing by exactly one per call, and is dropped on the call
after the counter reaches zero. -/
theorem sanction_hysteresis (actor_id t : String) (agent_ids : List String)
    (propensity : ℚ) (actor_block : String) (block_of : String → String)
    (rel_of : String → Option (ℚ × ℚ)) (st : ActorSanctionState)
    (s : SanctionType) (y : ℕ)
    (ht : t ≠ actor_id) (hmem : t ∈ agent_ids)
    (hactive : st.active t = some s) (hyears : st.years t = y) (_hy : 2 ≤ y) :
    (∀ k ≤ y,
      ((resolve_sanctions_actor actor_id agent_ids propensity actor_block block_of
          rel_of (fun _ => SanctionType.none))^[k] st).active t = some s ∧
      ((resolve_sanctions_actor actor_id agent_ids propensity actor_block block_of
          rel_of (fun _ => SanctionType.none))^[k] st).years t = y - k) ∧
    ((resolve_sanctions_actor actor_id agent_ids propensity actor_block block_of
        rel_of (fun _ => SanctionType.none))^[y + 1] st).active t = Option.none := by
  set f := resolve_sanctions_actor actor_id agent_ids propensity actor_block block_of
    rel_of (fun _ => SanctionType.none) with hf
  have hguard : ¬ (t = actor_id ∨ t ∉ agent_ids) := by
    push_neg
    exact ⟨ht, hmem⟩
  have hstep : ∀ st' : ActorSanctionState, st'.active t = some s →
      (f st').active t = (if 0 < st'.years t then some s else Option.none) ∧
      (f st').years t = st'.years t - 1 := by
    intro st' ha
    constructor
    · show (if t = actor_id ∨ t ∉ agent_ids then Option.none
        else (resolve_sanction_target propensity actor_block (block_of t) (rel_of t)
          SanctionType.none (st'.active t) (st'.years t)).map Prod.fst)
        = (if 0 < st'.years t then some s else Option.none)
      rw [if_neg hguard, ha]
      by_cases hpos : 0 < st'.years t
      · simp [resolve_sanction_target, sanction_keep, hpos]
      · simp [resolve_sanction_target, sanction_keep, hpos]
    · show (if t = actor_id ∨ t ∉ agent_ids then 0
        else ((resolve_sanction_target propensity actor_block (block_of t) (rel_of t)
          SanctionType.none (st'.active t) (st'.years t)).map Prod.snd).getD 0)
        = st'.years t - 1
      rw [if_neg hguard, ha]
      by_cases hpos : 0 < st'.years t
      · simp [resolve_sanction_target, sanction_keep, hpos]
      · simp [resolve_sanction_target, sanction_keep, hpos]
        omega
  have hiter : ∀ k ≤ y, (f^[k] st).active t = some s ∧ (f^[k] st).years t = y - k := by
    intro k
    induction k with
    | zero => intro _; simp [hactive, hyears]
    | succ n ih =>
        intro hn
        have hny : n ≤ y := Nat.le_of_succ_le hn
        obtain ⟨ha, hy'⟩ := ih hny
        have hpos : 0 < (f^[n] st).years t := by
          rw [hy']
          omega
        obtain ⟨ha2, hy2⟩ := hstep (f^[n] st) ha
        rw [Function.iterate_succ_apply']
        constructor
        · rw [ha2, if_pos hpos]
        · rw [hy2, hy']
          omega
  refine ⟨hiter, ?_⟩
  obtain ⟨ha, hy'⟩ := hiter y le_rfl
  have hzero : (f^[y] st).years t = 0 := by
    rw [hy']
    omega
  obtain ⟨ha2, _⟩ := hstep (f^[y] st) ha
  rw [Function.iterate_succ_apply', ha2, if_neg (by omega)]

/-- Witness for `sanction_hysteresis` at a concrete two-agent roster. -/
theorem sanction_hysteresis_witness :
    ((resolve_sanctions_actor "A" ["A", "B"] 0.4 "NonAligned" (fun _ => "NonAligned")
        (fun _ => some (0.1, 0.6)) (fun _ => SanctionType.none))^[2]
      ⟨fun t => if t = "B" then some SanctionType.mild else Option.none,
       fun t => if t = "B" then 2 else 0⟩).active "B" = some SanctionType.mild := by
  have h := sanction_hysteresis "A" "B" ["A", "B"] 0.4 "NonAligned"
    (fun _ => "NonAligned") (fun _ => some (0.1, 0.6))
    ⟨fun t => if t = "B" then some SanctionType.mild else Option.none,
     fun t => if t = "B" then 2 else 0⟩
    SanctionType.mild 2 (by simp) (by simp) (by simp) (by simp) le_rfl
  exact (h.1 2 le_rfl).1

/-- C6 counterexample: a mild sanction intent whose support score stays below
the `0.35` threshold (propensity `0`, no conflict, full trust, both agents
non-aligned) records no sanction at all — the recorded severity drops below
the intended severity, contrary to the claim. -/
theorem mild_intent_can_record_nothing :
    resolve_sanction_target 0 "NonAligned" "NonAligned" (some (0, 1))
      SanctionType.mild Option.none 0 = Option.none ∧
    severity SanctionType.none < severity SanctionType.mild := by
  constructor
  · show (if SanctionType.mild ≠ SanctionType.none then _ else _) = Option.none
    rw [if_pos (by simp)]
    have hsupp : sanction_support 0 0 1 SanctionType.mild "NonAligned" "NonAligned"
        = 0.05 := by
      unfold sanction_support
      norm_num [clamp01]
    simp only [hsupp]
    norm_num [sanction_keep]
  · simp [severity]

/-- C6 amended: for a mild or strong intent against a valid target, whenever
the support score reaches the `0.35` threshold the recorded sanction is
exactly the intended type (so never of lower severity, and a strong intent
yields a strong sanction) with the counter set to at least `min_duration`;
below the threshold no new sanction is recorded and only the hysteresis
branch applies. -/
theorem sanction_severity_floor (propensity conflict_level trust : ℚ)
    (actor_block target_block : String) (intent : SanctionType)
    (existing : Option SanctionType) (years : ℕ)
    (hintent : intent ≠ SanctionType.none) :
    (0.35 ≤ sanction_support propensity conflict_level trust intent
        actor_block target_block →
      resolve_sanction_target propensity actor_block target_block
          (some (conflict_level, trust)) intent existing years
        = some (intent, max years 2)) ∧
    (sanction_support propensity conflict_level trust intent
        actor_block target_block < 0.35 →
      resolve_sanction_target propensity actor_block target_block
          (some (conflict_level, trust)) intent existing years
        = sanction_keep existing years) := by
  constructor
  · intro hsupp
    unfold resolve_sanction_target
    rw [if_pos hintent]
    simp only
    rw [if_pos hsupp]
    by_cases hmild : sanction_support propensity conflict_level trust intent
        actor_block target_block < 0.65
    · have hdes : desired_sanction_type (sanction_support propensity conflict_level trust
          intent actor_block target_block) = SanctionType.mild := by
        unfold desired_sanction_type
        rw [if_neg (by linarith), if_pos hmild]
      rw [hdes]
      cases intent with
      | none => exact absurd rfl hintent
      | mild => simp [severity]
      | strong => simp [severity]
    · have hdes : desired_sanction_type (sanction_support propensity conflict_level trust
          intent actor_block target_block) = SanctionType.strong := by
        unfold desired_sanction_type
        rw [if_neg (by linarith), if_neg hmild]
      rw [hdes]
      cases intent with
      | none => exact absurd rfl hintent
      | mild => simp [severity]
      | strong => simp [severity]
  · intro hsupp
    unfold resolve_sanction_target
    rw [if_pos hintent]
    simp only
    rw [if_neg (not_le.mpr hsupp)]
    simp

/-- Witness for `sanction_severity_floor`: a concrete above-threshold mild
intent is recorded as mild with the two-year counter. -/
theorem sanction_severity_floor_witness :
    resolve_sanction_target 1 "NonAligned" "NonAligned" (some (1, 0))
        SanctionType.mild Option.none 0
      = some (SanctionType.mild, 2) := by
  have h := (sanction_severity_floor 1 1 0 "NonAligned" "NonAligned" SanctionType.mild
    Option.none 0 (by simp)).1
  have hsupp : (0.35:ℚ)
      ≤ sanction_support 1 1 0 SanctionType.mild "NonAligned" "NonAligned" := by
    unfold sanction_support
    norm_num [clamp01]
  simpa using h hsupp

/-! ## War continuation and termination (`GIM_12/gim_11_1/geopolitics.py`)

`update_active_conflicts` (lines 273-366) processes each unordered pair of
agents at war once.  The per-pair loop body is embedded below; `WarAgent`
holds the agent fields it reads and writes (`trust` is the agent's
`society.trust_gov`, `tension` its `society.social_tension`). -/

/-- Agent fields used by `update_active_conflicts`. -/
structure WarAgent where
  gdp : ℚ
  population : ℚ
  capital : ℚ
  military_power : ℚ
  tension : ℚ
  trust : ℚ
  energy_reserve : Option ℚ
  food_reserve : Option ℚ
  metals_reserve : Option ℚ

/-- `_resource_index` (lines 111-119): weighted own reserves, `0.0` for a
missing resource. -/
def resource_index (a : WarAgent) : ℚ :=
  1.0 * a.energy_reserve.getD 0 + 0.6 * a.food_reserve.getD 0
    + 0.4 * a.metals_reserve.getD 0

/-- `RelationState` fields used by `update_active_conflicts`. -/
structure WarRelation where
  trade_intensity : ℚ
  trust : ℚ
  conflict_level : ℚ
  at_war : Bool
  war_years : ℕ
  war_start_gdp : ℚ
  war_start_pop : ℚ
  war_start_resource : ℚ

/-- `_ensure_war_start` (lines 122-127): snapshot gdp/population/resource
index once, only while the snapshot is unset. -/
def ensure_war_start (rel : WarRelation) (a : WarAgent) : WarRelation :=
  if 0 < rel.war_start_gdp then rel
  else { rel with
    war_start_gdp := max a.gdp (1/1000000)
    war_start_pop := max a.population 1
    war_start_resource := max (resource_index a) (1/1000000) }

/-- `_exhausted` (lines 320-324): gdp below 70% of war-start, or population
below 90%, or resource index below 50%. -/
def war_exhausted (rel : WarRelation) (side : WarAgent) : Prop :=
  ¬(0.7 * rel.war_start_gdp ≤ side.gdp ∧ 0.9 * rel.war_start_pop ≤ side.population
    ∧ 0.5 * rel.war_start_resource ≤ resource_index side)

instance (rel : WarRelation) (side : WarAgent) : Decidable (war_exhausted rel side) := by
  unfold war_exhausted
  infer_instance

/-- The attrition half of the loop body (lines 290-318): set both edges at
war, increment both year counters, take snapshots, apply military-share
weighted capital/gdp losses and trade decay. -/
def war_pair_mid (actor target : WarAgent) (rel_at rel_ta : WarRelation) :
    WarAgent × WarAgent × WarRelation × WarRelation :=
  let rel_at := ensure_war_start
    { rel_at with at_war := true, war_years := rel_at.war_years + 1 } actor
  let rel_ta := ensure_war_start
    { rel_ta with at_war := true, war_years := rel_ta.war_years + 1 } target
  let mil_actor := max actor.military_power (1/1000000)
  let mil_target := max target.military_power (1/1000000)
  let total_power := mil_actor + mil_target
  let share_actor := mil_actor / total_power
  let share_target := mil_target / total_power
  let cap_loss_actor := 0.04 * (0.8 + 0.4 * (1 - share_actor))
  let cap_loss_target := 0.04 * (0.8 + 0.4 * (1 - share_target))
  let gdp_loss_actor := 0.03 * (0.8 + 0.4 * (1 - share_actor))
  let gdp_loss_target := 0.03 * (0.8 + 0.4 * (1 - share_target))
  let actor := { actor with
    capital := actor.capital * max 0 (1 - cap_loss_actor)
    gdp := actor.gdp * max 0 (1 - gdp_loss_actor) }
  let target := { target with
    capital := target.capital * max 0 (1 - cap_loss_target)
    gdp := target.gdp * max 0 (1 - gdp_loss_target) }
  let rel_at := { rel_at with trade_intensity := rel_at.trade_intensity * 0.92 }
  let rel_ta := { rel_ta with trade_intensity := rel_ta.trade_intensity * 0.92 }
  (actor, target, rel_at, rel_ta)

/-- Resetting one edge on war termination (lines 332-341). -/
def war_reset (rel : WarRelation) : WarRelation :=
  { rel with
    at_war := false
    war_years := 0
    war_start_gdp := 0
    war_start_pop := 0
    war_start_resource := 0 }

/-- The termination half of the loop body (lines 326-366): exhaustion check,
mutual-exhaustion demilitarization or winner/loser consequences. -/
def war_pair_resolve (actor target : WarAgent) (rel_at rel_ta : WarRelation) :
    WarAgent × WarAgent × WarRelation × WarRelation :=
  if war_exhausted rel_at actor ∨ war_exhausted rel_ta target then
    let rel_at' := war_reset rel_at
    let rel_ta' := war_reset rel_ta
    if war_exhausted rel_at actor ∧ war_exhausted rel_ta target then
      ({ actor with
          military_power := actor.military_power * 0.9
          tension := min 1 (actor.tension + 0.08)
          trust := max 0 (actor.trust - 0.05) },
       { target with
          military_power := target.military_power * 0.9
          tension := min 1 (target.tension + 0.08)
          trust := max 0 (target.trust - 0.05) },
       { rel_at' with conflict_level := 0.45, trust := rel_at'.trust * 0.9 },
       { rel_ta' with conflict_level := 0.45, trust := rel_ta'.trust * 0.9 })
    else
      let winner_update := fun (w : WarAgent) =>
        { w with
          trust := clamp01 (w.trust + 0.03)
          tension := max 0 (w.tension - 0.03) }
      let loser_update := fun (l : WarAgent) =>
        { l with
          trust := max 0 (l.trust - 0.08)
          tension := min 1 (l.tension + 0.10)
          military_power := l.military_power * 0.85 }
      let actor' := if war_exhausted rel_at actor then loser_update actor
        else winner_update actor
      let target' := if war_exhausted rel_at actor then winner_update target
        else loser_update target
      (actor', target',
       { rel_at' with conflict_level := 0.5, trust := rel_at'.trust * 0.85 },
       { rel_ta' with conflict_level := 0.5, trust := rel_ta'.trust * 0.85 })
  else (actor, target, rel_at, rel_ta)

/-- The full per-pair loop body of `update_active_conflicts`: pairs with
neither edge at war are skipped unchanged. -/
def update_conflict_pair (actor target : WarAgent) (rel_at rel_ta : WarRelation) :
    WarAgent × WarAgent × WarRelation × WarRelation :=
  if rel_at.at_war ∨ rel_ta.at_war then
    let m := war_pair_mid actor target rel_at rel_ta
    war_pair_resolve m.1 m.2.1 m.2.2.1 m.2.2.2
  else (actor, target, rel_at, rel_ta)

/-- C7: for a pair at war, if after the step's attrition either side is
exhausted then the same call ends the war on both directed edges — `at_war`
false, `war_years` and all three war-start snapshots zero on both — and after
the call no edge of the pair is at war with a zero year counter. -/
theorem war_termination_resets_both (actor target : WarAgent)
    (rel_at rel_ta : WarRelation) (hwar : rel_at.at_war ∨ rel_ta.at_war) :
    (war_exhausted (war_pair_mid actor target rel_at rel_ta).2.2.1
        (war_pair_mid actor target rel_at rel_ta).1
      ∨ war_exhausted (war_pair_mid actor target rel_at rel_ta).2.2.2
        (war_pair_mid actor target rel_at rel_ta).2.1 →
      ∀ rel ∈ [(update_conflict_pair actor target rel_at rel_ta).2.2.1,
               (update_conflict_pair actor target rel_at rel_ta).2.2.2],
        rel.at_war = false ∧ rel.war_years = 0 ∧ rel.war_start_gdp = 0
          ∧ rel.war_start_pop = 0 ∧ rel.war_start_resource = 0) ∧
    (∀ rel ∈ [(update_conflict_pair actor target rel_at rel_ta).2.2.1,
              (update_conflict_pair actor target rel_at rel_ta).2.2.2],
      rel.at_war = true → 1 ≤ rel.war_years) := by
  unfold update_conflict_pair
  rw [if_pos hwar]
  set m := war_pair_mid actor target rel_at rel_ta with hm
  constructor
  · intro hex rel hrel
    simp only [List.mem_cons, List.mem_singleton] at hrel
    by_cases hboth : war_exhausted m.2.2.1 m.1 ∧ war_exhausted m.2.2.2 m.2.1
    · rcases hrel with rfl | rfl | h
      · unfold war_pair_resolve
        rw [if_pos hex, if_pos hboth]
        exact ⟨rfl, rfl, rfl, rfl, rfl⟩
      · unfold war_pair_resolve
        rw [if_pos hex, if_pos hboth]
        exact ⟨rfl, rfl, rfl, rfl, rfl⟩
      · cases h
    · rcases hrel with rfl | rfl | h
      · unfold war_pair_resolve
        rw [if_pos hex, if_neg hboth]
        exact ⟨rfl, rfl, rfl, rfl, rfl⟩
      · unfold war_pair_resolve
        rw [if_pos hex, if_neg hboth]
        exact ⟨rfl, rfl, rfl, rfl, rfl⟩
      · cases h
  · intro rel hrel
    unfold war_pair_resolve at hrel
    by_cases hex : war_exhausted m.2.2.1 m.1 ∨ war_exhausted m.2.2.2 m.2.1
    · rw [if_pos hex] at hrel
      by_cases hboth : war_exhausted m.2.2.1 m.1 ∧ war_exhausted m.2.2.2 m.2.1
      · rw [if_pos hboth] at hrel
        simp only [List.mem_cons, List.mem_singleton] at hrel
        rcases hrel with rfl | rfl | h
        · intro hfalse; cases hfalse
        · intro hfalse; cases hfalse
        · cases h
      · rw [if_neg hboth] at hrel
        simp only [List.mem_cons, List.mem_singleton] at hrel
        rcases hrel with rfl | rfl | h
        · intro hfalse; cases hfalse
        · intro hfalse; cases hfalse
        · cases h
    · rw [if_neg hex] at hrel
      simp only [List.mem_cons, List.mem_singleton] at hrel
      have hy1 : m.2.2.1.war_years = rel_at.war_years + 1 := by
        show (war_pair_mid actor target rel_at rel_ta).2.2.1.war_years = _
        unfold war_pair_mid ensure_war_start
        dsimp only
        split_ifs <;> rfl
      have hy2 : m.2.2.2.war_years = rel_ta.war_years + 1 := by
        show (war_pair_mid actor target rel_at rel_ta).2.2.2.war_years = _
        unfold war_pair_mid ensure_war_start
        dsimp only
        split_ifs <;> rfl
      rcases hrel with rfl | rfl | h
      · intro _
        omega
      · intro _
        omega
      · cases h

/-- Witness for `war_termination_resets_both`: a war pair where the actor is
exhausted after attrition (gdp far below the recorded war-start gdp). -/
theorem war_termination_resets_both_witness :
    ((update_conflict_pair
        ⟨1, 10, 5, 1, 0.5, 0.5, some 1, some 1, some 1⟩
        ⟨9, 10, 5, 1, 0.5, 0.5, some 1, some 1, some 1⟩
        ⟨1, 0.5, 0.9, true, 3, 10, 10, 2⟩
        ⟨1, 0.5, 0.9, true, 3, 9, 10, 2⟩).2.2.1).at_war = false := by
  have h := war_termination_resets_both
    ⟨1, 10, 5, 1, 0.5, 0.5, some 1, some 1, some 1⟩
    ⟨9, 10, 5, 1, 0.5, 0.5, some 1, some 1, some 1⟩
    ⟨1, 0.5, 0.9, true, 3, 10, 10, 2⟩
    ⟨1, 0.5, 0.9, true, 3, 9, 10, 2⟩
    (Or.inl rfl)
  have hex : war_exhausted
      (war_pair_mid ⟨1, 10, 5, 1, 0.5, 0.5, some 1, some 1, some 1⟩
        ⟨9, 10, 5, 1, 0.5, 0.5, some 1, some 1, some 1⟩
        ⟨1, 0.5, 0.9, true, 3, 10, 10, 2⟩
        ⟨1, 0.5, 0.9, true, 3, 9, 10, 2⟩).2.2.1
      (war_pair_mid ⟨1, 10, 5, 1, 0.5, 0.5, some 1, some 1, some 1⟩
        ⟨9, 10, 5, 1, 0.5, 0.5, some 1, some 1, some 1⟩
        ⟨1, 0.5, 0.9, true, 3, 10, 10, 2⟩
        ⟨1, 0.5, 0.9, true, 3, 9, 10, 2⟩).1 := by
    unfold war_pair_mid ensure_war_start war_exhausted resource_index
    norm_num [max_def, min_def]
  exact ((h.1 (Or.inl hex)) _ (by simp)).1

/-! ## Debt-crisis detector (`GIM_12/gim_11_1/social.py`)

`check_debt_crisis` (lines 174-195).  The `_debt_crisis_this_step` shadow
attribute (absent before the first check) is modelled as a `Bool` field with
the missing attribute read as `false`; the Python guard
`not hasattr(...) or not flag` is exactly `flag = false`, and the `elif
hasattr(...)` reset leaves a missing attribute missing, which reads as
`false` again. -/

/-- The agent fields read and written by `check_debt_crisis`. -/
structure DebtAgent where
  gdp : ℚ
  public_debt : ℚ
  unemployment : ℚ
  trust_gov : ℚ
  social_tension : ℚ
  regime_stability : ℚ
  debt_crisis_prone : ℚ
  debt_crisis_flag : Bool

/-- The effective interest rate of a `DebtAgent` (the `economy.py` model
applied to its fields). -/
def debt_agent_rate (a : DebtAgent) (partners : List RatePartner) : ℚ :=
  compute_effective_interest_rate
    ⟨a.gdp, a.public_debt, a.regime_stability, a.debt_crisis_prone⟩ partners

/-- The crisis condition of `check_debt_crisis` (line 183):
`debt/gdp > 1.2 and interest_rate > 0.12`. -/
def debt_crisis_cond (a : DebtAgent) (partners : List RatePartner) : Prop :=
  1.2 < a.public_debt / max a.gdp (1/1000000) ∧ 0.12 < debt_agent_rate a partners

instance (a : DebtAgent) (partners : List RatePartner) :
    Decidable (debt_crisis_cond a partners) := by
  unfold debt_crisis_cond
  infer_instance

/-- The debt-crisis shock (lines 185-193): debt cut to 60%, gdp to 90%,
unemployment/trust/tension/stability adjusted, latch set. -/
def debt_shock (a : DebtAgent) : DebtAgent :=
  { a with
    debt_crisis_flag := true
    public_debt := a.public_debt * 0.6
    gdp := a.gdp * 0.9
    unemployment := min 0.3 (a.unemployment + 0.05)
    trust_gov := max 0 (a.trust_gov - 0.15)
    social_tension := min 1 (a.social_tension + 0.15)
    regime_stability := max 0 (a.regime_stability - 0.15) }

/-- `check_debt_crisis` (lines 174-195). -/
def check_debt_crisis (a : DebtAgent) (partners : List RatePartner) : DebtAgent :=
  if debt_crisis_cond a partners then
    if a.debt_crisis_flag then a else debt_shock a
  else { a with debt_crisis_flag := false }

/-- The sequence of states produced by calling `check_debt_crisis` once per
step, with `env n` the step-`n` contagion partners. -/
def debt_traj (env : ℕ → List RatePartner) (a : DebtAgent) : ℕ → DebtAgent
  | 0 => a
  | n + 1 => check_debt_crisis (debt_traj env a n) (env n)

/-- C8: over a contiguous run of steps `n..m` on which the crisis condition
holds at each check and the latch is clear at step `n`, the shock is applied
exactly once — at step `n` — and every later check in the run leaves the
state unchanged; and whenever the condition fails at a step the latch is
cleared, so a later re-entry into the condition fires a fresh shock. -/
theorem debt_crisis_shock_once (env : ℕ → List RatePartner) (a : DebtAgent)
    (n m : ℕ) (hnm : n ≤ m)
    (hflag : (debt_traj env a n).debt_crisis_flag = false)
    (hcond : ∀ i, n ≤ i → i ≤ m → debt_crisis_cond (debt_traj env a i) (env i)) :
    debt_traj env a (n + 1) = debt_shock (debt_traj env a n) ∧
    (∀ i, n < i → i ≤ m → debt_traj env a (i + 1) = debt_traj env a i) ∧
    (∀ j, ¬ debt_crisis_cond (debt_traj env a j) (env j) →
      (debt_traj env a (j + 1)).debt_crisis_flag = false) ∧
    (∀ j, debt_crisis_cond (debt_traj env a j) (env j) →
      (debt_traj env a j).debt_crisis_flag = false →
      debt_traj env a (j + 1) = debt_shock (debt_traj env a j)) := by
  have hshock : ∀ j, debt_crisis_cond (debt_traj env a j) (env j) →
      (debt_traj env a j).debt_crisis_flag = false →
      debt_traj env a (j + 1) = debt_shock (debt_traj env a j) := by
    intro j hc hf
    show check_debt_crisis (debt_traj env a j) (env j) = _
    unfold check_debt_crisis
    rw [if_pos hc, hf]
    simp
  have hlatched : ∀ i, n < i → i ≤ m → (debt_traj env a i).debt_crisis_flag = true := by
    intro i
    induction i with
    | zero => omega
    | succ k ih =>
        intro hk hm
        by_cases hkn : n = k
        · subst hkn
          rw [hshock n (hcond n le_rfl (by omega)) hflag]
          rfl
        · have hk' : n < k := by omega
          have hflagk := ih hk' (by omega)
          show (check_debt_crisis (debt_traj env a k) (env k)).debt_crisis_flag = true
          unfold check_debt_crisis
          rw [if_pos (hcond k (by omega) (by omega)), hflagk]
          simpa using hflagk
  refine ⟨hshock n (hcond n le_rfl hnm) hflag, ?_, ?_, hshock⟩
  · intro i hni him
    have hflagi := hlatched i hni (by omega)
    show check_debt_crisis (debt_traj env a i) (env i) = _
    unfold check_debt_crisis
    rw [if_pos (hcond i (by omega) him), hflagi]
    simp
  · intro j hj
    show (check_debt_crisis (debt_traj env a j) (env j)).debt_crisis_flag = false
    unfold check_debt_crisis
    rw [if_neg hj]

/-- Witness for `debt_crisis_shock_once`: a two-step crisis run (debt/gdp 3,
then 2 after the shock, rate 0.27 throughout) shocks at step 0 and leaves
step 1 unchanged. -/
theorem debt_crisis_shock_once_witness :
    debt_traj (fun _ => []) ⟨1, 3, 0.04, 0.5, 0.3, 0, 1, false⟩ 1
      = debt_shock ⟨1, 3, 0.04, 0.5, 0.3, 0, 1, false⟩ ∧
    debt_traj (fun _ => []) ⟨1, 3, 0.04, 0.5, 0.3, 0, 1, false⟩ 2
      = debt_traj (fun _ => []) ⟨1, 3, 0.04, 0.5, 0.3, 0, 1, false⟩ 1 := by
  have hc0 : debt_crisis_cond ⟨1, 3, 0.04, 0.5, 0.3, 0, 1, false⟩ [] := by
    unfold debt_crisis_cond debt_agent_rate compute_effective_interest_rate
      rate_spread rate_contagion
    norm_num [max_def, min_def]
  have hc1 : debt_crisis_cond (debt_shock ⟨1, 3, 0.04, 0.5, 0.3, 0, 1, false⟩) [] := by
    unfold debt_shock debt_crisis_cond debt_agent_rate compute_effective_interest_rate
      rate_spread rate_contagion
    norm_num [max_def, min_def]
  have htraj1 : debt_traj (fun _ => []) ⟨1, 3, 0.04, 0.5, 0.3, 0, 1, false⟩ 1
      = debt_shock ⟨1, 3, 0.04, 0.5, 0.3, 0, 1, false⟩ := by
    show check_debt_crisis ⟨1, 3, 0.04, 0.5, 0.3, 0, 1, false⟩ [] = _
    unfold check_debt_crisis
    rw [if_pos hc0]
    rfl
  have h := debt_crisis_shock_once (fun _ => []) ⟨1, 3, 0.04, 0.5, 0.3, 0, 1, false⟩
    0 1 (by norm_num) rfl ?_
  · exact ⟨h.1, h.2.1 1 (by norm_num) (by norm_num)⟩
  · intro i h0 h1
    interval_cases i
    · exact hc0
    · rw [htraj1]
      exact hc1

/-! ## The full year-step pipeline (`gim_11_1/simulation.py`, `step_world`)

The remaining claims quantify over whole calls to `step_world`, so the entire
ordered pipeline is embedded below, in the namespace `Step`.  Modelling
conventions:

* Python dicts become insertion-ordered association lists
  (`List (String × _)`); in-place mutation becomes functional update.
* Calls to `math.exp`, `math.log`, `math.log1p` and float `**` with
  non-integer exponents are routed through an abstract `TransOps` record; the
  theorems quantify over it (constrained only by the properties the
  surrounding code relies on), and concrete instantiations pick an explicit
  rational-valued stand-in.
* `random.random()` draws are oracle parameters (`roll_sec`, `roll_evt`),
  one per call site and agent; theorems quantify over them.
* The policy call (with its fallback) produces one `Action` per agent; the
  embedded `step_world` takes that map as a parameter and, like the source,
  pipes it through `apply_political_constraints` when the filter flag is set.
  `build_observation` and `update_agent_memory` are read-only on the world
  and are omitted.  `FinancePolicy` is not read by any engine and is omitted
  from `Action`.
* `gim_11_1/actions.py` and `gim_11_1/resources.py` are not present in the
  source tree; the sibling `v10_3_prod` implementations (which
  `v10_3_prod/simulation.py` wires into the identical pipeline positions) are
  embedded in their place.
* `build_default_institutions` (the literal table of sixteen organizations
  from `institutions.py`) is passed as an opaque builder parameter; every
  theorem below quantifies over it, so whichever table the source builds is
  covered. -/

namespace Step

/-- The transcendental operations used by the pipeline, abstracted. -/
structure TransOps where
  exp : ℚ → ℚ
  log : ℚ → ℚ
  powr : ℚ → ℚ → ℚ

/-- Association-list lookup (`dict.get`). -/
def alookup (xs : List (String × α)) (k : String) : Option α :=
  (xs.find? fun p => p.1 = k).map Prod.snd

/-- Association-list value update (`dict[k] = f(dict[k])`); absent keys are
left untouched. -/
def aupdate (xs : List (String × α)) (k : String) (f : α → α) : List (String × α) :=
  xs.map fun p => if p.1 = k then (p.1, f p.2) else p

/-- `EconomyState` from `core.py`, plus the lazily-attached shadow attributes
(`tfp`, `_scale_factor`, `_gdp_prev`) and the fields written by
`compute_relative_metrics`, as `Option`/plain fields. -/
structure EconomyState where
  gdp : ℚ
  capital : ℚ
  population : ℚ
  public_debt : ℚ
  fx_reserves : ℚ
  taxes : ℚ
  gov_spending : ℚ
  social_spending : ℚ
  military_spending : ℚ
  rd_spending : ℚ
  climate_adaptation_spending : ℚ
  climate_shock_years : ℕ
  climate_shock_penalty : ℚ
  interest_payments : ℚ
  net_exports : ℚ
  gdp_per_capita : ℚ
  unemployment : ℚ
  inflation : ℚ
  birth_rate : ℚ
  death_rate : ℚ
  tfp : Option ℚ
  scale_factor : Option ℚ
  gdp_prev : Option ℚ
  gdp_share : ℚ
  gdp_rank : Option ℕ

/-- `CulturalState` from `core.py`. -/
structure CulturalState where
  pdi : ℚ
  idv : ℚ
  mas : ℚ
  uai : ℚ
  survival_self_expression : ℚ
  regime_type : String

/-- `SocietyState` from `core.py`. -/
structure SocietyState where
  trust_gov : ℚ
  social_tension : ℚ
  inequality_gini : ℚ

/-- `ClimateSubState` from `core.py`. -/
structure ClimateSubState where
  climate_risk : ℚ
  co2_annual_emissions : ℚ
  biodiversity_local : ℚ

/-- `RiskState` from `core.py`. -/
structure RiskState where
  water_stress : ℚ
  regime_stability : ℚ
  debt_crisis_prone : ℚ
  conflict_proneness : ℚ

/-- `TechnologyState` from `core.py`. -/
structure TechnologyState where
  tech_level : ℚ
  military_power : ℚ
  security_index : ℚ

/-- `PoliticalState` from `core.py`. -/
structure PoliticalState where
  legitimacy : ℚ
  protest_pressure : ℚ
  hawkishness : ℚ
  protectionism : ℚ
  coalition_openness : ℚ
  sanction_propensity : ℚ
  policy_space : ℚ
  last_block_change : ℤ

/-- `AgentState` from `core.py` (the fields the step engine reads or writes),
with the `_collapsed_this_step`/`_debt_crisis_this_step` shadow attributes as
`Bool` fields and the `compute_relative_metrics` outputs inline. -/
structure Agent where
  region : String
  economy : EconomyState
  resources : List (String × ResourceSubState)
  society : SocietyState
  climate : ClimateSubState
  culture : CulturalState
  technology : TechnologyState
  risk : RiskState
  alliance_block : String
  active_sanctions : List (String × SanctionType)
  sanction_years : List (String × ℕ)
  political : PoliticalState
  collapsed_flag : Bool
  debt_crisis_flag : Bool
  influence_score : ℚ
  security_margin : ℚ

/-- `RelationState` from `core.py`. -/
structure Relation where
  trade_intensity : ℚ
  trust : ℚ
  conflict_level : ℚ
  trade_barrier : ℚ
  at_war : Bool
  war_years : ℕ
  war_start_gdp : ℚ
  war_start_pop : ℚ
  war_start_resource : ℚ

/-- `GlobalState` from `core.py`. -/
structure GlobalState where
  co2 : ℚ
  temperature_global : ℚ
  biodiversity_index : ℚ
  temperature_ocean : ℚ
  forcing_total : ℚ
  carbon_pools : List ℚ
  baseline_gdp_pc : ℚ
  prices : List (String × ℚ)
  global_reserves : List (String × ℚ)

/-- `InstitutionState` from `core.py` (the fields the step engine uses). -/
structure Institution where
  org_type : String
  members : List String
  legitimacy : ℚ
  budget : ℚ
  base_budget_share : ℚ

/-- `WorldState` from `core.py`. -/
structure World where
  time : ℤ
  agents : List (String × Agent)
  global_state : GlobalState
  relations : List (String × List (String × Relation))
  institutions : List (String × Institution)

/-- `SecurityActionType` from `core.py`. -/
inductive SecActionType where
  | none
  | military_exercise
  | arms_buildup
  | border_incident
  | conflict
deriving DecidableEq, Repr

/-- `TradeRestrictionLevel` from `core.py`. -/
inductive TradeRestrictionLevel where
  | none
  | soft
  | hard
deriving DecidableEq, Repr

/-- `TradeDeal` from `core.py` (`direction` is `"export"` or `"import"`,
`price_preference` one of `"cheap"/"fair"/"premium"`). -/
structure TradeDeal where
  partner : String
  resource : String
  direction : String
  volume_change : ℚ
  price_preference : String

/-- `DomesticPolicy` from `core.py` (`climate_policy` is one of
`"none"/"weak"/"moderate"/"strong"`). -/
structure DomesticPolicy where
  tax_fuel_change : ℚ
  social_spending_change : ℚ
  military_spending_change : ℚ
  rd_investment_change : ℚ
  climate_policy : String

/-- `Action` from `core.py` (targets already normalized to
`Option String`; the unused `FinancePolicy` omitted). -/
structure Action where
  agent_id : String
  domestic_policy : DomesticPolicy
  proposed_trade_deals : List TradeDeal
  sanctions_actions : List (String × SanctionType)
  trade_restrictions : List (String × TradeRestrictionLevel)
  security_type : SecActionType
  security_target : Option String

/-! ### Metrics helpers (`GIM_12/gim_11_1/metrics.py`) -/

/-- One resource's reserve years (`compute_reserve_years` entry), with the
caller's default for a missing resource. -/
def reserve_years_of (resources : List (String × ResourceSubState))
    (name : String) (dflt : ℚ) : ℚ :=
  match alookup resources name with
  | some r => r.own_reserve / max r.production (1/1000000)
  | Option.none => dflt

/-- `compute_debt_stress` from `metrics.py`. -/
def compute_debt_stress (a : Agent) : ℚ :=
  let gdp := max a.economy.gdp (1/1000000)
  let debt_gdp := a.economy.public_debt / gdp
  let raw := max 0 (debt_gdp - 1.0)
  min (raw * a.risk.debt_crisis_prone) 3.0

/-- `compute_protest_risk` from `metrics.py`. -/
def compute_protest_risk (a : Agent) : ℚ :=
  let base := 0.6 * a.society.social_tension + 0.3 * (1 - a.society.trust_gov)
    + 0.1 * (a.society.inequality_gini / 100)
  let fragility := 1 - a.risk.regime_stability
  max 0 (min (base * (0.5 + 0.5 * fragility)) 1)

/-! ### Phase 1 — political refresh (`political_dynamics.py` lines 14-67) -/

/-- The `_stress` helper of `update_political_state`. -/
def reserve_stress (years threshold : ℚ) : ℚ := clamp01 (1 - years / threshold)

/-- `update_political_state` (pure in the agent; the `world` argument is
deleted unused in the source). -/
def update_political_state (a : Agent) : Agent :=
  let trust := clamp01 a.society.trust_gov
  let tension := clamp01 a.society.social_tension
  let gini := clamp01 (a.society.inequality_gini / 100)
  let protest_risk := clamp01 (compute_protest_risk a)
  let debt_stress := clamp01 (compute_debt_stress a / 3)
  let legitimacy := clamp01 (0.6 * trust + 0.4 * (1 - tension))
  let protest_pressure := clamp01 (0.5 * protest_risk + 0.5 * tension)
  let energy_years := reserve_years_of a.resources "energy" 10
  let food_years := reserve_years_of a.resources "food" 10
  let metals_years := reserve_years_of a.resources "metals" 10
  let resource_stress := clamp01 (0.5 * reserve_stress energy_years 5
    + 0.3 * reserve_stress food_years 3 + 0.2 * reserve_stress metals_years 5)
  let hawkishness := clamp01 (0.3 * a.risk.conflict_proneness + 0.25 * (1 - trust)
    + 0.25 * (1 - a.risk.regime_stability) + 0.20 * resource_stress)
  let protectionism := clamp01 (0.4 * a.economy.unemployment + 0.3 * gini
    + 0.3 * (1 - trust))
  let coalition_openness := clamp01 (0.6 * trust + 0.4 * (1 - tension))
  let sanction_propensity := clamp01 (0.6 * hawkishness + 0.4 * (1 - coalition_openness))
  let policy_space := clamp01 (0.5 * legitimacy + 0.3 * (1 - protest_pressure)
    + 0.2 * (1 - debt_stress))
  { a with political := { a.political with
      legitimacy := legitimacy
      protest_pressure := protest_pressure
      hawkishness := hawkishness
      protectionism := protectionism
      coalition_openness := coalition_openness
      sanction_propensity := sanction_propensity
      policy_space := policy_space } }

/-- `update_political_states`. -/
def update_political_states (w : World) : World :=
  { w with agents := w.agents.map fun p => (p.1, update_political_state p.2) }

/-! ### Phase 2 — institutions (`legacy/GIM_11_1/gim_11_1/institutions.py`) -/

/-- The fields of `_compute_global_metrics` consumed by
`update_institutions` and its measures (the remaining entries only feed the
returned report records). -/
structure GlobalMetrics where
  total_gdp : ℚ
  avg_trust : ℚ
  avg_tension : ℚ
  avg_rel_trust : ℚ

/-- `_compute_global_metrics` (lines 191-226). -/
def compute_global_metrics (w : World) : GlobalMetrics :=
  let agents := w.agents.map Prod.snd
  let total_gdp := (agents.map fun a => a.economy.gdp).sum
  let n := max agents.length 1
  let avg_trust := (agents.map fun a => a.society.trust_gov).sum / n
  let avg_tension := (agents.map fun a => a.society.social_tension).sum / n
  let edges := (w.relations.map fun p => p.2.map Prod.snd).flatten
  let avg_rel_trust := if 0 < edges.length
    then (edges.map fun r => r.trust).sum / edges.length else 0
  ⟨total_gdp, avg_trust, avg_tension, avg_rel_trust⟩

/-- Update every relation edge of one member agent (the
`world.relations.get(member_id, {})` loops of `_apply_org_measures`). -/
def update_member_rels (rels : List (String × List (String × Relation)))
    (member : String) (f : String → Relation → Relation) :
    List (String × List (String × Relation)) :=
  rels.map fun p => if p.1 = member then (p.1, p.2.map fun q => (q.1, f q.1 q.2)) else p

/-- Update one agent in place. -/
def update_agent (w : World) (aid : String) (f : Agent → Agent) : World :=
  { w with agents := aupdate w.agents aid f }

/-- The FinanceOrg liquidity loop of `_apply_org_measures` (lines 301-321):
grants `min(budget, 0.005*gdp)` member by member in roster order, stopping as
soon as the budget is exhausted. -/
def finance_grants (w : World) (budget : ℚ) : List String → World × ℚ
  | [] => (w, budget)
  | mid :: rest =>
    match alookup w.agents mid with
    | Option.none => finance_grants w budget rest
    | some a =>
      let gdp := max a.economy.gdp (1/1000000)
      let need := max 0 (a.economy.public_debt / gdp - 1)
        + max 0 (0.02 - a.economy.fx_reserves / gdp)
      if need ≤ 0 then finance_grants w budget rest
      else
        let grant := min budget (0.005 * gdp)
        if grant ≤ 0 then finance_grants w budget rest
        else
          let w := update_agent w mid fun a => { a with economy := { a.economy with
            fx_reserves := a.economy.fx_reserves + grant
            public_debt := a.economy.public_debt + grant } }
          let budget := budget - grant
          if budget ≤ 0 then (w, budget) else finance_grants w budget rest

/-- `_apply_org_measures` (lines 280-361), returning the world and the org's
remaining budget. -/
def apply_org_measures (w : World) (org : Institution) : World × ℚ :=
  if org.members.isEmpty then (w, org.budget)
  else if org.org_type = "TradeOrg" then
    let delta := 0.01 * org.legitimacy
    let rels := org.members.foldl (fun rs mid =>
      update_member_rels rs mid fun pid r =>
        if pid ∈ org.members ∧ 0 < r.trade_barrier
        then { r with trade_barrier := max 0 (r.trade_barrier - delta) } else r)
      w.relations
    ({ w with relations := rels }, org.budget)
  else if org.org_type = "FinanceOrg" then
    if org.budget ≤ 0 then (w, org.budget)
    else finance_grants w org.budget org.members
  else if org.org_type = "SecurityOrg" then
    let delta := 0.01 * org.legitimacy
    let rels := org.members.foldl (fun rs mid =>
      update_member_rels rs mid fun pid r =>
        if pid ∈ org.members ∧ 0.25 ≤ r.conflict_level
        then { r with conflict_level := max 0 (r.conflict_level - delta) } else r)
      w.relations
    ({ w with relations := rels }, org.budget)
  else if org.org_type = "ClimateOrg" then
    let delta := 0.002 * org.legitimacy
    (org.members.foldl (fun wa mid =>
      update_agent wa mid fun a =>
        if 0.5 ≤ a.climate.climate_risk
        then { a with climate := { a.climate with
          climate_risk := max 0 (a.climate.climate_risk - delta) } } else a) w,
     org.budget)
  else if org.org_type = "SocialOrg" then
    let delta := 0.003 * org.legitimacy
    (org.members.foldl (fun wa mid =>
      update_agent wa mid fun a => { a with society := { a.society with
        social_tension := max 0 (a.society.social_tension - 0.5 * delta)
        trust_gov := clamp01 (a.society.trust_gov + 0.3 * delta) } }) w,
     org.budget)
  else (w, org.budget)

/-- The legitimacy-EMA and budget refresh of one organization
(`update_institutions` lines 240-253). -/
def refreshed_org (m : GlobalMetrics) (org : Institution) : Institution :=
  let target := if org.org_type = "SecurityOrg" ∨ org.org_type = "TradeOrg"
      then clamp01 (0.5 + 0.5 * m.avg_rel_trust)
    else if org.org_type = "FinanceOrg" then clamp01 (0.4 + 0.6 * m.avg_trust)
    else if org.org_type = "ClimateOrg" ∨ org.org_type = "KnowledgeOrg"
      then clamp01 (0.45 + 0.55 * (1 - m.avg_tension))
    else if org.org_type = "SocialOrg" then clamp01 (0.4 + 0.6 * m.avg_trust)
    else org.legitimacy
  let legit := clamp01 (0.95 * org.legitimacy + 0.05 * target)
  { org with legitimacy := legit, budget := org.base_budget_share * m.total_gdp * legit }

/-- One organization's pass of `update_institutions` (lines 240-274):
legitimacy EMA toward the type-dependent target, budget refresh, measures. -/
def update_one_institution (m : GlobalMetrics) (w : World) (oid : String) : World :=
  match alookup w.institutions oid with
  | Option.none => w
  | some org =>
    let org := refreshed_org m org
    let res := apply_org_measures w org
    let insts := aupdate res.1.institutions oid (fun _ => { org with budget := res.2 })
    { res.1 with institutions := insts }

/-- `update_institutions` (lines 233-277): build defaults when none exist
(the builder is the opaque parameter), then process every organization in
order against metrics computed once up front. -/
def update_institutions (builder : World → List (String × Institution))
    (w : World) : World :=
  let w := if w.institutions.isEmpty then { w with institutions := builder w } else w
  let m := compute_global_metrics w
  (w.institutions.map Prod.fst).foldl (update_one_institution m) w

/-! ### Phase 3 — action filtering (`political_dynamics.py` lines 70-103) -/

/-- Association-list upsert (`dict[k] = v`, new keys appended in Python
insertion order). -/
def aset (xs : List (String × α)) (k : String) (v : α) : List (String × α) :=
  if (alookup xs k).isSome then aupdate xs k (fun _ => v) else xs ++ [(k, v)]

/-- `apply_political_constraints`. -/
def apply_political_constraints (act : Action) (a : Agent) : Action :=
  let pol := a.political
  let scale := 0.4 + 0.6 * clamp01 pol.policy_space
  let dom := act.domestic_policy
  let tax := if 0 < dom.tax_fuel_change
    then dom.tax_fuel_change * max 0.2 (1 - 0.7 * pol.protest_pressure)
    else dom.tax_fuel_change
  let dom := { dom with
    tax_fuel_change := tax * scale
    social_spending_change := dom.social_spending_change * scale
    military_spending_change := dom.military_spending_change * scale
    rd_investment_change := dom.rd_investment_change * scale }
  let sancs := if pol.sanction_propensity < 0.2 then []
    else if pol.sanction_propensity < 0.4 then
      act.sanctions_actions.map fun p =>
        if p.2 = SanctionType.strong then (p.1, SanctionType.mild) else p
    else act.sanctions_actions
  let restr := if pol.protectionism < 0.2 then []
    else if pol.protectionism < 0.4 then
      act.trade_restrictions.map fun p =>
        if p.2 = TradeRestrictionLevel.hard then (p.1, TradeRestrictionLevel.soft) else p
    else act.trade_restrictions
  let (sec_ty, sec_tgt) := if 0.7 < pol.protest_pressure ∧ pol.legitimacy < 0.4
    then (SecActionType.none, Option.none)
    else (act.security_type, act.security_target)
  { act with
    domestic_policy := dom
    sanctions_actions := sancs
    trade_restrictions := restr
    security_type := sec_ty
    security_target := sec_tgt }

/-! ### Phase 4 — foreign-policy resolution (`political_dynamics.py`) -/

/-- `_intent_map_sanctions` (lines 106-119); targets are already-normalized
non-empty strings. -/
def intent_map_sanctions (act : Option Action) : List (String × SanctionType) :=
  match act with
  | Option.none => []
  | some act =>
    act.sanctions_actions.foldl (fun m p =>
      let current := (alookup m p.1).getD SanctionType.none
      if p.2 = SanctionType.strong ∨ current = SanctionType.strong
        then aset m p.1 SanctionType.strong
      else if p.2 = SanctionType.mild ∨ current = SanctionType.mild
        then aset m p.1 SanctionType.mild
      else m) []

/-- `_intent_map_restrictions` (lines 122-135). -/
def intent_map_restrictions (act : Option Action) :
    List (String × TradeRestrictionLevel) :=
  match act with
  | Option.none => []
  | some act =>
    act.trade_restrictions.foldl (fun m p =>
      let current := (alookup m p.1).getD TradeRestrictionLevel.none
      if p.2 = TradeRestrictionLevel.hard ∨ current = TradeRestrictionLevel.hard
        then aset m p.1 TradeRestrictionLevel.hard
      else if p.2 = TradeRestrictionLevel.soft ∨ current = TradeRestrictionLevel.soft
        then aset m p.1 TradeRestrictionLevel.soft
      else m) []

/-- `resolve_sanctions` (lines 165-206): each actor's sanction dicts are
rebuilt over the union of intent targets and existing targets, using the
per-target body `resolve_sanction_target`; each actor writes only its own
dicts and reads only unmutated fields of others, so the agent loop is a map. -/
def resolve_sanctions (w : World) (actions : List (String × Action)) : World :=
  { w with agents := w.agents.map fun p =>
    let aid := p.1
    let actor := p.2
    let intents := intent_map_sanctions (alookup actions aid)
    let targets := (intents.map Prod.fst ++ actor.active_sanctions.map Prod.fst).dedup
    let acc := targets.foldl (fun acc t =>
      if t = aid then acc
      else match alookup w.agents t with
        | Option.none => acc
        | some tgt =>
          let rel := match alookup w.relations aid with
            | Option.none => Option.none
            | some rs => (alookup rs t).map fun r => (r.conflict_level, r.trust)
          match GIM.resolve_sanction_target actor.political.sanction_propensity
            actor.alliance_block tgt.alliance_block rel
            ((alookup intents t).getD SanctionType.none)
            (alookup actor.active_sanctions t)
            ((alookup actor.sanction_years t).getD 0) with
          | some r => (acc.1 ++ [(t, r.1)], acc.2 ++ [(t, r.2)])
          | Option.none => acc)
      (([] : List (String × SanctionType)), ([] : List (String × ℕ)))
    (aid, { actor with active_sanctions := acc.1, sanction_years := acc.2 }) }

/-- `update_trade_barriers` (lines 209-251). -/
def update_trade_barriers (w : World) (actions : List (String × Action)) : World :=
  { w with relations := w.relations.map fun p =>
    let aid := p.1
    match alookup w.agents aid with
    | Option.none => p
    | some actor =>
      let intents := intent_map_restrictions (alookup actions aid)
      (aid, p.2.map fun q =>
        let tid := q.1
        let rel := q.2
        match alookup w.agents tid with
        | Option.none => q
        | some tgt =>
          let intent_level := (alookup intents tid).getD TradeRestrictionLevel.none
          let intent_boost : ℚ := match intent_level with
            | TradeRestrictionLevel.none => 0
            | TradeRestrictionLevel.soft => 0.15
            | TradeRestrictionLevel.hard => 0.35
          let base := 0.15 * actor.political.protectionism
            + 0.25 * rel.conflict_level + 0.25 * (1 - rel.trust)
          let base := if actor.alliance_block ≠ "NonAligned"
              ∧ actor.alliance_block = tgt.alliance_block then base * 0.7 else base
          let sanction_type := alookup actor.active_sanctions tid
          let has_intent := intent_level ≠ TradeRestrictionLevel.none
          let desired := if has_intent ∨ sanction_type = some SanctionType.mild
              ∨ sanction_type = some SanctionType.strong then
              let d := base + intent_boost
              if sanction_type = some SanctionType.strong then max d 0.5
              else if sanction_type = some SanctionType.mild then max d 0.25
              else d
            else if rel.trust < 0.25 ∨ 0.6 < rel.conflict_level then base * 0.7
            else 0
          let desired := clamp01 desired
          (tid, { rel with
            trade_barrier := clamp01 (0.7 * rel.trade_barrier + 0.3 * desired) })) }

/-- The `blocks` roster of `update_coalitions` (setdefault-append semantics,
with `"NonAligned"` ensured). -/
def build_blocks (agents : List (String × Agent)) : List (String × List String) :=
  let bs := agents.foldl (fun bs p =>
    if (alookup bs p.2.alliance_block).isSome
    then aupdate bs p.2.alliance_block (fun l => l ++ [p.1])
    else bs ++ [(p.2.alliance_block, [p.1])]) []
  if (alookup bs "NonAligned").isSome then bs else bs ++ [("NonAligned", [])]

/-- `_block_score` (lines 375-392). -/
def block_score (w : World) (aid : String) (openness : ℚ) (block : String)
    (blocks : List (String × List String)) : ℚ :=
  if block = "NonAligned" then 0.05 * openness
  else
    let members := ((alookup blocks block).getD []).filter (· ≠ aid)
    if members.isEmpty then -1
    else
      let total := members.foldl (fun t mid =>
        match alookup w.relations aid with
        | Option.none => t
        | some rs => match alookup rs mid with
          | Option.none => t
          | some rel => t + rel.trust - 0.6 * rel.conflict_level
              + 0.3 * effective_trade_intensity rel.trade_intensity rel.trade_barrier) 0
      openness * (total / max members.length 1)

/-- `update_coalitions` (lines 395-420): the `blocks` roster is built once;
each agent's possible switch writes only its own block label, which
`_block_score` never reads from other agents, so the loop is a map. -/
def update_coalitions (w : World) (cooldown : ℤ := 3) : World :=
  let blocks := build_blocks w.agents
  { w with agents := w.agents.map fun p =>
    let a := p.2
    if w.time - a.political.last_block_change < cooldown then p
    else
      let current := a.alliance_block
      let current_score := block_score w p.1 a.political.coalition_openness current blocks
      let best := (blocks.map Prod.fst).foldl (fun best b =>
        if b = current then best
        else
          let s := block_score w p.1 a.political.coalition_openness b blocks
          if best.2 < s then (b, s) else best) (current, current_score)
      if best.1 ≠ current ∧ 0.08 < best.2 - current_score then
        (p.1, { a with
          alliance_block := best.1
          political := { a.political with last_block_change := w.time } })
      else p }

/-- `resolve_foreign_policy` (lines 423-427). -/
def resolve_foreign_policy (w : World) (actions : List (String × Action)) : World :=
  update_coalitions (update_trade_barriers (resolve_sanctions w actions) actions)

/-! ### Phases 5-8 — geopolitics (`GIM_12/gim_11_1/geopolitics.py`) -/

/-- Edit one directed relation edge in place. -/
def update_rel (w : World) (aid tid : String) (f : Relation → Relation) : World :=
  { w with relations := w.relations.map fun p =>
      if p.1 = aid then (p.1, aupdate p.2 tid f) else p }

/-- `_resource_index` on a full agent (missing resources read as `0.0`). -/
def resource_index_agent (a : Agent) : ℚ :=
  1.0 * ((alookup a.resources "energy").map (·.own_reserve)).getD 0
    + 0.6 * ((alookup a.resources "food").map (·.own_reserve)).getD 0
    + 0.4 * ((alookup a.resources "metals").map (·.own_reserve)).getD 0

/-- `_ensure_war_start` on full records. -/
def ensure_war_start_rel (r : Relation) (a : Agent) : Relation :=
  if 0 < r.war_start_gdp then r
  else { r with
    war_start_gdp := max a.economy.gdp (1/1000000)
    war_start_pop := max a.economy.population 1
    war_start_resource := max (resource_index_agent a) (1/1000000) }

/-- `_apply_sanction_social_reaction` (lines 18-37). -/
def apply_sanction_social_reaction (a : Agent) (scale autocracy_bias tension_increase : ℚ) :
    Agent :=
  let pdi := a.culture.pdi / 100
  let self_expression := a.culture.survival_self_expression / 10
  let rally := scale * pdi
  let blame := scale * (1 - pdi) * (0.5 + self_expression)
  let trust_delta := if a.culture.regime_type = "Autocracy" then rally - autocracy_bias
    else -blame
  { a with society := { a.society with
      trust_gov := clamp01 (a.society.trust_gov + trust_delta)
      social_tension := clamp01 (a.society.social_tension + tension_increase) } }

/-- `apply_sanctions_effects` (lines 40-96): collect valid (actor, target,
type) entries, apply per-relation degradation, then the aggregated social
reaction per sanctioned target (counts under Python's √ via `T.powr`). -/
def apply_sanctions_effects (T : TransOps) (w : World) : World :=
  let entries := (w.agents.map fun p =>
    p.2.active_sanctions.filterMap fun q =>
      if (alookup w.agents q.1).isSome ∧ q.1 ≠ p.1 then some (p.1, q.1, q.2)
      else Option.none).flatten
  let w := entries.foldl (fun w e =>
    let (aid, tid, ty) := e
    match ty with
    | SanctionType.mild =>
      update_rel w aid tid fun r => { r with
        trade_intensity := r.trade_intensity * 0.85
        trust := r.trust * 0.92
        trade_barrier := min 1 (r.trade_barrier + 0.05) }
    | SanctionType.strong =>
      let w := update_rel w aid tid fun r => { r with
        trade_intensity := r.trade_intensity * 0.65
        trust := r.trust * 0.85
        trade_barrier := min 1 (r.trade_barrier + 0.15) }
      update_agent w aid fun a =>
        { a with economy := { a.economy with gdp := a.economy.gdp * 0.995 } }
    | SanctionType.none => w) w
  let targets := (entries.map fun e => e.2.1).dedup
  targets.foldl (fun w tid =>
    let mild := (entries.filter fun e => e.2.1 = tid ∧ e.2.2 = SanctionType.mild).length
    let strong := (entries.filter fun e => e.2.1 = tid ∧ e.2.2 = SanctionType.strong).length
    if mild ≤ 0 ∧ strong ≤ 0 then w
    else
      let mild_factor := T.powr mild 0.5
      let strong_factor := T.powr strong 0.5
      let gdp_penalty := min 0.12 (0.01 * mild_factor + 0.03 * strong_factor)
      let scale := min 0.12 (0.02 * mild_factor + 0.06 * strong_factor)
      let autocracy_bias := min 0.04 (0.01 * mild_factor + 0.02 * strong_factor)
      let tension_increase := min 0.08 (0.015 * mild_factor + 0.05 * strong_factor)
      update_agent w tid fun a =>
        let a := { a with economy := { a.economy with
          gdp := a.economy.gdp * max 0 (1 - gdp_penalty) } }
        apply_sanction_social_reaction a scale autocracy_bias tension_increase) w

/-- `_resource_stress` (lines 130-141). -/
def geo_resource_stress (a : Agent) : ℚ :=
  clamp01 (0.5 * reserve_stress (reserve_years_of a.resources "energy" 10) 5
    + 0.3 * reserve_stress (reserve_years_of a.resources "food" 10) 3
    + 0.2 * reserve_stress (reserve_years_of a.resources "metals" 10) 5)

/-- `_auto_security_action` (lines 144-184); `roll` is the
`random.random()` draw. -/
def auto_security_action (w : World) (actor_id : String) (roll : ℚ) :
    Option (SecActionType × String) :=
  match alookup w.agents actor_id with
  | Option.none => Option.none
  | some actor =>
    let rels := (alookup w.relations actor_id).getD []
    let best := rels.foldl (fun best q =>
      if q.1 = actor_id then best
      else
        let score := q.2.conflict_level + 0.5 * (1 - q.2.trust)
        match best with
        | Option.none => if 0 < score then some (q.1, score) else best
        | some b => if b.2 < score then some (q.1, score) else best)
      (Option.none : Option (String × ℚ))
    match best with
    | Option.none => Option.none
    | some (best_target, best_score) =>
      match alookup rels best_target with
      | Option.none => Option.none
      | some rel =>
        let resource_stress := geo_resource_stress actor
        let tension := clamp01 actor.society.social_tension
        let fragility := 1 - clamp01 actor.risk.regime_stability
        let trigger := best_score * (0.55 + 0.45 * resource_stress)
          * (0.55 + 0.45 * tension) * (0.6 + 0.4 * fragility)
        if trigger < 0.45 ∨ rel.conflict_level < 0.45 then Option.none
        else if 0.8 < trigger ∧ roll < 0.2 * trigger
          then some (SecActionType.border_incident, best_target)
        else if 0.65 < trigger ∧ roll < 0.12 * trigger
          then some (SecActionType.arms_buildup, best_target)
        else if roll < 0.05 * trigger
          then some (SecActionType.military_exercise, best_target)
        else Option.none

/-- The effect half of the per-action body of `apply_security_actions`
(lines 200-270), once the action type and target `sec` are fixed. -/
def apply_security_with (w : World) (aid : String)
    (sec : SecActionType × Option String) : World :=
  if sec.1 = SecActionType.none then w
  else match sec.2 with
  | Option.none => w
  | some tid =>
    match alookup w.agents aid, alookup w.agents tid with
    | some actor, some target =>
      match alookup w.relations aid >>= (alookup · tid),
            alookup w.relations tid >>= (alookup · aid) with
      | some rel_at, some rel_ta =>
        let avg_conflict := 0.5 * (rel_at.conflict_level + rel_ta.conflict_level)
        let ty := if sec.1 = SecActionType.conflict
            ∧ (avg_conflict < 0.55 ∨ 0.25 < rel_at.trust)
          then SecActionType.border_incident
          else if sec.1 = SecActionType.border_incident ∧ avg_conflict < 0.30
          then SecActionType.military_exercise
          else sec.1
        match ty with
        | SecActionType.none => w
        | SecActionType.military_exercise =>
          let w := update_rel w aid tid fun r => { r with
            conflict_level := min 1 (r.conflict_level + 0.05), trust := r.trust * 0.98 }
          update_rel w tid aid fun r => { r with
            conflict_level := min 1 (r.conflict_level + 0.05), trust := r.trust * 0.98 }
        | SecActionType.arms_buildup =>
          let w := update_agent w aid fun a => { a with technology :=
            { a.technology with military_power := a.technology.military_power * 1.05 } }
          let w := update_rel w aid tid fun r => { r with
            conflict_level := min 1 (r.conflict_level + 0.08) }
          update_rel w tid aid fun r => { r with
            conflict_level := min 1 (r.conflict_level + 0.08) }
        | SecActionType.border_incident =>
          let w := update_rel w aid tid fun r => { r with
            conflict_level := min 1 (r.conflict_level + 0.20) }
          let w := update_rel w tid aid fun r => { r with
            conflict_level := min 1 (r.conflict_level + 0.20) }
          let hit := fun (a : Agent) => { a with
            economy := { a.economy with gdp := a.economy.gdp * 0.99 }
            society := { a.society with
              social_tension := min 1 (a.society.social_tension + 0.05)
              trust_gov := max 0 (a.society.trust_gov - 0.03) } }
          update_agent (update_agent w aid hit) tid hit
        | SecActionType.conflict =>
          let mil_actor := actor.technology.military_power
          let mil_target := target.technology.military_power
          let total_power := max (mil_actor + mil_target) (1/1000000)
          let share_actor := mil_actor / total_power
          let share_target := mil_target / total_power
          let cap_loss_actor := 0.15 * (0.7 + 0.6 * (1 - share_actor))
          let cap_loss_target := 0.15 * (0.7 + 0.6 * (1 - share_target))
          let gdp_loss_actor := 0.10 * (0.7 + 0.6 * (1 - share_actor))
          let gdp_loss_target := 0.10 * (0.7 + 0.6 * (1 - share_target))
          let w := update_agent w aid fun a => { a with economy := { a.economy with
            capital := a.economy.capital * max 0 (1 - cap_loss_actor)
            gdp := a.economy.gdp * max 0 (1 - gdp_loss_actor) } }
          let w := update_agent w tid fun a => { a with economy := { a.economy with
            capital := a.economy.capital * max 0 (1 - cap_loss_target)
            gdp := a.economy.gdp * max 0 (1 - gdp_loss_target) } }
          let hit := fun (a : Agent) => { a with society := { a.society with
            social_tension := min 1 (a.society.social_tension + 0.15)
            trust_gov := max 0 (a.society.trust_gov - 0.10) } }
          let w := update_agent (update_agent w aid hit) tid hit
          let w := update_rel w aid tid fun r => { r with
            conflict_level := min 1 (r.conflict_level + 0.4)
            trust := r.trust * 0.8
            at_war := true }
          let w := update_rel w tid aid fun r => { r with
            conflict_level := min 1 (r.conflict_level + 0.4)
            trust := r.trust * 0.8
            at_war := true }
          match alookup w.agents aid, alookup w.agents tid with
          | some actor', some target' =>
            let w := update_rel w aid tid fun r => ensure_war_start_rel r actor'
            update_rel w tid aid fun r => ensure_war_start_rel r target'
          | _, _ => w
      | _, _ => w
    | _, _ => w

/-- The per-action body of `apply_security_actions` (lines 188-270): explicit
actions keep their declared type and target, otherwise the automatic trigger
decides, then the effects are applied. -/
def apply_one_security_action (roll_sec : String → ℚ) (w : World) (act : Action) :
    World :=
  let sec : SecActionType × Option String :=
    if act.security_type = SecActionType.none then
      match auto_security_action w act.agent_id (roll_sec act.agent_id) with
      | Option.none => (SecActionType.none, Option.none)
      | some (ty, tgt) => (ty, some tgt)
    else (act.security_type, act.security_target)
  apply_security_with w act.agent_id sec

/-- `apply_security_actions` (lines 187-270): the actions are processed in
order against the evolving world. -/
def apply_security_actions (roll_sec : String → ℚ) (w : World)
    (actions : List (String × Action)) : World :=
  (actions.map Prod.snd).foldl (apply_one_security_action roll_sec) w

/-- Conversion of a full agent to the fields the war pair body uses. -/
def to_war_agent (a : Agent) : WarAgent :=
  ⟨a.economy.gdp, a.economy.population, a.economy.capital,
   a.technology.military_power, a.society.social_tension, a.society.trust_gov,
   (alookup a.resources "energy").map (·.own_reserve),
   (alookup a.resources "food").map (·.own_reserve),
   (alookup a.resources "metals").map (·.own_reserve)⟩

/-- Write the war pair body's agent outputs back. -/
def of_war_agent (a : Agent) (wa : WarAgent) : Agent :=
  { a with
    economy := { a.economy with
      gdp := wa.gdp, population := wa.population, capital := wa.capital }
    technology := { a.technology with military_power := wa.military_power }
    society := { a.society with
      social_tension := wa.tension, trust_gov := wa.trust } }

/-- Conversion of a full relation to the war pair body's fields. -/
def to_war_rel (r : Relation) : WarRelation :=
  ⟨r.trade_intensity, r.trust, r.conflict_level, r.at_war, r.war_years,
   r.war_start_gdp, r.war_start_pop, r.war_start_resource⟩

/-- Write the war pair body's relation outputs back. -/
def of_war_rel (r : Relation) (wr : WarRelation) : Relation :=
  { r with
    trade_intensity := wr.trade_intensity
    trust := wr.trust
    conflict_level := wr.conflict_level
    at_war := wr.at_war
    war_years := wr.war_years
    war_start_gdp := wr.war_start_gdp
    war_start_pop := wr.war_start_pop
    war_start_resource := wr.war_start_resource }

/-- `update_active_conflicts` (lines 273-366): every ordered pair
(`actor_id < target_id`) with both edges and both agents present goes through
the pair body `update_conflict_pair`. -/
def update_active_conflicts (w : World) : World :=
  let pairs := ((w.relations.map fun p => p.2.map fun q => (p.1, q.1)).flatten).filter
    fun pr => pr.1 < pr.2
  pairs.foldl (fun w pr =>
    let aid := pr.1
    let tid := pr.2
    match alookup w.relations aid >>= (alookup · tid),
          alookup w.relations tid >>= (alookup · aid),
          alookup w.agents aid, alookup w.agents tid with
    | some rat, some rta, some actor, some target =>
      let res := update_conflict_pair (to_war_agent actor) (to_war_agent target)
        (to_war_rel rat) (to_war_rel rta)
      let w := update_agent w aid fun a => of_war_agent a res.1
      let w := update_agent w tid fun a => of_war_agent a res.2.1
      let w := update_rel w aid tid fun r => of_war_rel r res.2.2.1
      update_rel w tid aid fun r => of_war_rel r res.2.2.2
    | _, _, _, _ => w) w

/-- `apply_trade_barrier_effects` (lines 254-270). -/
def apply_trade_barrier_effects (w : World) : World :=
  { w with relations := w.relations.map fun p =>
    match alookup w.agents p.1 with
    | Option.none => p
    | some actor =>
      (p.1, p.2.map fun q =>
        match alookup w.agents q.1 with
        | Option.none => q
        | some target =>
          let avg_tension := 0.5 * (clamp01 actor.society.social_tension
            + clamp01 target.society.social_tension)
          let conflict := clamp01 q.2.conflict_level
          let friction := 0.04 * conflict + 0.02 * avg_tension
          let decay := 0.05 * q.2.trade_barrier + friction
          (q.1, { q.2 with
            trade_intensity := max 0 (q.2.trade_intensity * (1 - decay)) })) }

/-! ### Phase 9 — applying domestic actions
(`legacy/V10_3_prod/v10_3_prod/actions.py`) -/

/-- The `_clamp` helper of `actions.py`. -/
def clampq (v lo hi : ℚ) : ℚ := max lo (min hi v)

/-- `_normalize_domestic_levers` (lines 11-33). -/
def normalize_domestic_levers (dom : DomesticPolicy) (a : Agent) : DomesticPolicy :=
  let debt_gdp := a.economy.public_debt / max a.economy.gdp (1/1000000)
  let dom := { dom with
    tax_fuel_change := clampq dom.tax_fuel_change (-1.5) 1.5
    social_spending_change := clampq dom.social_spending_change (-0.015) 0.02
    military_spending_change := clampq dom.military_spending_change (-0.01) 0.015
    rd_investment_change := clampq dom.rd_investment_change (-0.002) 0.008 }
  let total_expansion := max 0 dom.social_spending_change
    + max 0 dom.military_spending_change + max 0 dom.rd_investment_change
  let max_expansion : ℚ := if 1.2 < debt_gdp then 0.02 else 0.03
  if max_expansion < total_expansion ∧ 0 < total_expansion then
    let scale := max_expansion / total_expansion
    { dom with
      social_spending_change := dom.social_spending_change * scale
      military_spending_change := dom.military_spending_change * scale
      rd_investment_change := dom.rd_investment_change * scale }
  else dom

/-- The fuel-tax branch of `apply_action` (lines 47-79). -/
def apply_fuel_tax (a : Agent) (delta : ℚ) : Agent :=
  if 1/1000000 < |delta| then
    let uai_factor := a.culture.uai / 100
    let pdi_factor := 1 - (a.culture.pdi / 100) * 0.5
    let regime_tension_mult : ℚ := if a.culture.regime_type = "Democracy" then 1.2
      else if a.culture.regime_type = "Autocracy" then 0.8 else 1
    let sensitivity_tax := uai_factor * (1 + max 0 (a.economy.unemployment - 0.05))
      * pdi_factor
    let sensitivity_ineq := (a.culture.idv / 100) * (a.society.inequality_gini / 100)
      * regime_tension_mult
    { a with
      economy := { a.economy with gdp := a.economy.gdp * max 0 (1 - 0.0012 * delta) }
      society := { a.society with
        trust_gov := clamp01 (a.society.trust_gov - 0.02 * delta * sensitivity_tax)
        social_tension := clamp01 (a.society.social_tension
          + 0.02 * delta * sensitivity_ineq) } }
  else a

/-- The social-spending branch of `apply_action` (lines 81-90). -/
def apply_social_spending (a : Agent) (delta : ℚ) : Agent :=
  if 1/1000000 < |delta| then
    let delta_spending := delta * a.economy.gdp
    let gdp_share := delta_spending / max a.economy.gdp (1/1000000)
    { a with
      economy := { a.economy with
        social_spending := a.economy.social_spending + delta_spending
        gov_spending := a.economy.gov_spending + delta_spending
        public_debt := a.economy.public_debt + delta_spending }
      society := { a.society with
        trust_gov := clamp01 (a.society.trust_gov + 0.1 * gdp_share)
        social_tension := clamp01 (a.society.social_tension - 0.08 * gdp_share) } }
  else a

/-- The military-spending branch of `apply_action` (lines 92-123). -/
def apply_military_spending (a : Agent) (delta : ℚ) : Agent :=
  if 1/1000000 < |delta| then
    let delta_mil := delta * a.economy.gdp
    let base_gain := 0.3 * delta * (1 + 0.5 * (a.technology.tech_level - 1))
    let threat_high := a.technology.security_index < 0.4
    let mas_factor := a.culture.mas / 100
    let self_expression := a.culture.survival_self_expression / 10
    let regime_mult : ℚ := if a.culture.regime_type = "Democracy" then 1.3
      else if a.culture.regime_type = "Autocracy" then 0.8 else 1
    let trust_delta := if threat_high then 0.02 * delta * (0.8 + 0.6 * mas_factor)
      else -0.03 * delta * (0.5 + self_expression) * (1 - mas_factor) * regime_mult
    { a with
      economy := { a.economy with
        military_spending := a.economy.military_spending + delta_mil
        gov_spending := a.economy.gov_spending + delta_mil
        public_debt := a.economy.public_debt + delta_mil }
      technology := { a.technology with
        military_power := max 0 (a.technology.military_power * (1 + base_gain)) }
      society := { a.society with
        trust_gov := clamp01 (a.society.trust_gov + trust_delta) } }
  else a

/-- The R&D branch of `apply_action` (lines 125-134); resource efficiencies
scale by `exp(-0.02*delta)` through `T`. -/
def apply_rd_investment (T : TransOps) (a : Agent) (delta : ℚ) : Agent :=
  if 1/1000000 < |delta| then
    let delta_rd := delta * a.economy.gdp
    { a with
      economy := { a.economy with
        rd_spending := a.economy.rd_spending + delta_rd
        gov_spending := a.economy.gov_spending + delta_rd
        public_debt := a.economy.public_debt + delta_rd }
      technology := { a.technology with
        tech_level := max 0.5 (a.technology.tech_level * (1 + 0.08 * delta)) }
      resources := a.resources.map fun p =>
        (p.1, { p.2 with efficiency := p.2.efficiency * T.exp (-0.02 * delta) }) }
  else a

/-- The climate-policy branch of `apply_action` (lines 136-167). -/
def apply_climate_policy (a : Agent) (policy : String) : Agent :=
  if policy ≠ "none" then
    let reduction : ℚ := if policy = "weak" then 0.05
      else if policy = "moderate" then 0.15
      else if policy = "strong" then 0.30 else 0
    let intensity : ℚ := if policy = "weak" then 0.01
      else if policy = "moderate" then 0.03
      else if policy = "strong" then 0.07 else 0
    let self_expression := a.culture.survival_self_expression / 10
    let risk_level := a.climate.climate_risk
    let base := intensity * (risk_level - 0.5)
    let trust_delta := if 0 ≤ base then base * (0.5 + self_expression)
      else base * (1.5 - self_expression)
    let trust_delta := if a.culture.regime_type = "Democracy"
      then trust_delta * 1.2 else trust_delta
    let tension := if 0.5 < risk_level ∧ 0.5 < self_expression
      then max 0 (a.society.social_tension - 0.01 * intensity * self_expression)
      else a.society.social_tension
    { a with
      climate := { a.climate with
        co2_annual_emissions := a.climate.co2_annual_emissions * (1 - reduction) }
      economy := { a.economy with gdp := a.economy.gdp * max 0 (1 - 0.003 * reduction) }
      society := { a.society with
        trust_gov := clamp01 (a.society.trust_gov + trust_delta)
        social_tension := tension } }
  else a

/-- `apply_action` (lines 36-167), returning the world and the action with
its normalized domestic levers (the source mutates the `Action` in place and
`update_social_state` later reads the normalized values). -/
def apply_action (T : TransOps) (w : World) (act : Action) : World × Action :=
  match alookup w.agents act.agent_id with
  | Option.none => (w, act)
  | some a =>
    let dom := normalize_domestic_levers act.domestic_policy a
    let a := apply_fuel_tax a dom.tax_fuel_change
    let a := apply_social_spending a dom.social_spending_change
    let a := apply_military_spending a dom.military_spending_change
    let a := apply_rd_investment T a dom.rd_investment_change
    let a := apply_climate_policy a dom.climate_policy
    (update_agent w act.agent_id (fun _ => a), { act with domestic_policy := dom })

/-- The `for action in actions.values(): apply_action(world, action)` loop of
`step_world`, threading the normalized actions through. -/
def apply_actions (T : TransOps) (w : World) (actions : List (String × Action)) :
    World × List (String × Action) :=
  actions.foldl (fun acc p =>
    let r := apply_action T acc.1 p.2
    (r.1, acc.2 ++ [(p.1, r.2)])) (w, [])

/-! ### Phase 10 — trade deals (`actions.py` lines 169-257) -/

/-- The per-deal body of `apply_trade_deals`. -/
def apply_one_trade_deal (w : World) (initiator_id : String) (deal : TradeDeal) :
    World :=
  match alookup w.agents initiator_id, alookup w.agents deal.partner with
  | some initiator, some partner =>
    if deal.partner = initiator_id then w else
    match alookup initiator.resources deal.resource,
          alookup partner.resources deal.resource with
    | some init_res, some partner_res =>
      let volume_desired := max 0 deal.volume_change
      if volume_desired ≤ 0 then w
      else
        let base_price := (alookup w.global_state.prices deal.resource).getD 1
        let modifier : ℚ := if deal.price_preference = "cheap" then 0.9
          else if deal.price_preference = "premium" then 1.1 else 1
        let price := base_price * modifier
        if deal.direction = "export" then
          let export_capacity := max 0 (init_res.production - init_res.consumption)
          if export_capacity ≤ 0 then w
          else
            let fx_limit := max 0 partner.economy.fx_reserves / max price (1/1000000)
            let volume_real := min (min volume_desired export_capacity) fx_limit
            if volume_real ≤ 0 then w
            else
              let value := volume_real * price
              let w := update_agent w deal.partner fun a => { a with
                resources := aupdate a.resources deal.resource fun r =>
                  { r with consumption := r.consumption + volume_real }
                economy := { a.economy with
                  fx_reserves := a.economy.fx_reserves - value
                  net_exports := a.economy.net_exports - value } }
              let w := update_agent w initiator_id fun a => { a with
                economy := { a.economy with
                  fx_reserves := a.economy.fx_reserves + value
                  net_exports := a.economy.net_exports + value } }
              let w := update_rel w initiator_id deal.partner fun r =>
                { r with trade_intensity := r.trade_intensity + 0.01 * volume_real }
              update_rel w deal.partner initiator_id fun r =>
                { r with trade_intensity := r.trade_intensity + 0.01 * volume_real }
        else if deal.direction = "import" then
          let export_capacity := max 0 (partner_res.production - partner_res.consumption)
          if export_capacity ≤ 0 then w
          else
            let fx_limit := max 0 initiator.economy.fx_reserves / max price (1/1000000)
            let volume_real := min (min volume_desired export_capacity) fx_limit
            if volume_real ≤ 0 then w
            else
              let value := volume_real * price
              let w := update_agent w initiator_id fun a => { a with
                resources := aupdate a.resources deal.resource fun r =>
                  { r with consumption := r.consumption + volume_real }
                economy := { a.economy with
                  fx_reserves := a.economy.fx_reserves - value
                  net_exports := a.economy.net_exports - value } }
              let w := update_agent w deal.partner fun a => { a with
                economy := { a.economy with
                  fx_reserves := a.economy.fx_reserves + value
                  net_exports := a.economy.net_exports + value } }
              let w := update_rel w initiator_id deal.partner fun r =>
                { r with trade_intensity := r.trade_intensity + 0.01 * volume_real }
              update_rel w deal.partner initiator_id fun r =>
                { r with trade_intensity := r.trade_intensity + 0.01 * volume_real }
        else w
    | _, _ => w
  | _, _ => w

/-- The per-step net-export reset at the top of `apply_trade_deals`
(lines 172-173). -/
def reset_net_exports (w : World) : World :=
  { w with agents := w.agents.map fun p =>
    (p.1, { p.2 with economy := { p.2.economy with net_exports := 0 } }) }

/-- The residual-redistribution tail of `apply_trade_deals`
(lines 247-257). -/
def redistribute_residual (w : World) : World :=
  let residual := -((w.agents.map fun p => p.2.economy.net_exports).sum)
  if 1/1000000000 < |residual| then
    let weights : List ℚ := w.agents.map fun p => |p.2.economy.net_exports|
    let total_weight0 : ℚ := weights.sum
    let weights := if total_weight0 ≤ 0
      then w.agents.map fun p => p.2.economy.gdp else weights
    let total_weight := if total_weight0 ≤ 0
      then (w.agents.map fun p => p.2.economy.gdp).sum else total_weight0
    if 0 < total_weight then
      { w with agents := (w.agents.zip weights).map fun pw =>
        (pw.1.1, { pw.1.2 with economy := { pw.1.2.economy with
          net_exports := pw.1.2.economy.net_exports
            + residual * (pw.2 / total_weight) } }) }
    else w
  else w

/-- `apply_trade_deals` (lines 169-257): reset net exports, realize each
deal in order, then redistribute the residual. -/
def apply_trade_deals (w : World) (actions : List (String × Action)) : World :=
  redistribute_residual (actions.foldl (fun w p =>
    p.2.proposed_trade_deals.foldl (fun w deal => apply_one_trade_deal w p.1 deal) w)
    (reset_net_exports w))

/-! ### Phase 11 — endogenous relation drift (`political_dynamics.py`
lines 273-372) -/

/-- `update_relations_endogenous`: the trade-weighted conflict, block tension
and security-organization aggregates are computed once on the pre-state, then
each directed edge is updated from its own pre-state values (the trust push
reading the conflict level just written to the same edge). -/
def update_relations_endogenous (w : World) : World :=
  let trade_conflict := w.relations.map fun p =>
    let total_weight := (p.2.map fun q => max 0 q.2.trade_intensity).sum
    let weighted := (p.2.map fun q => max 0 q.2.trade_intensity * q.2.conflict_level).sum
    (p.1, if 0 < total_weight then weighted / total_weight else 0)
  let block_vals := (w.relations.map fun p =>
    match alookup w.agents p.1 with
    | Option.none => []
    | some actor => p.2.filterMap fun q =>
        match alookup w.agents q.1 with
        | Option.none => Option.none
        | some target =>
          some (actor.alliance_block, target.alliance_block, q.2.conflict_level)).flatten
  let block_tension := fun (ab tb : String) =>
    let vals := (block_vals.filter fun v => v.1 = ab ∧ v.2.1 = tb).map fun v => v.2.2
    if 0 < vals.length then vals.sum / vals.length else 0
  let security_orgs := w.institutions.filter fun p => p.2.org_type = "SecurityOrg"
  let security_legitimacy := if 0 < security_orgs.length
    then (security_orgs.map fun p => p.2.legitimacy).sum / security_orgs.length else 0
  { w with relations := w.relations.map fun p =>
    match alookup w.agents p.1 with
    | Option.none => p
    | some actor =>
      (p.1, p.2.map fun q =>
        match alookup w.agents q.1 with
        | Option.none => q
        | some target =>
          let rel := q.2
          let avg_tension := 0.5 * (clamp01 actor.society.social_tension
            + clamp01 target.society.social_tension)
          let trade_gap := rel.trade_intensity - 0.5
          let trade_short := max 0 (0.5 - rel.trade_intensity)
          let own_mil := max actor.technology.military_power (1/1000000)
          let other_mil := max target.technology.military_power 0
          let mil_gap := max 0 ((other_mil - own_mil) / own_mil)
          let sanction_flag : ℚ :=
            if (alookup actor.active_sanctions q.1).isSome then 1 else 0
          let barrier := clamp01 rel.trade_barrier
          let propagation := 0.03 * ((alookup trade_conflict p.1).getD 0
            + (alookup trade_conflict q.1).getD 0)
          let block_rivalry := if actor.alliance_block ≠ "NonAligned"
              ∧ target.alliance_block ≠ "NonAligned"
            then 0.04 * block_tension actor.alliance_block target.alliance_block else 0
          let shared_security := security_orgs.any fun o =>
            p.1 ∈ o.2.members ∧ q.1 ∈ o.2.members
          let mediation := 0.03 * security_legitimacy
            * (if shared_security then 1.6 else 1)
          let conflict_drift := 0.02 * (0.1 - rel.conflict_level)
          let conflict_push := max 0 (0.04 * trade_short + 0.05 * avg_tension
            + 0.06 * mil_gap + 0.04 * barrier + 0.03 * sanction_flag
            + propagation + block_rivalry - mediation)
          let new_conflict := clamp01 (rel.conflict_level + conflict_drift + conflict_push)
          let trust_drift := 0.02 * (0.6 - rel.trust)
          let trust_push := 0.04 * trade_gap - 0.05 * new_conflict
            - 0.04 * avg_tension - 0.05 * barrier - 0.03 * sanction_flag
            + 0.5 * mediation
          (q.1, { rel with
            conflict_level := new_conflict
            trust := clamp01 (rel.trust + trust_drift + trust_push) })) }

/-! ### Phases 12-13 — resource stocks and prices (`v10_3_prod/resources.py`) -/

/-- `allocate_energy_reserves_and_caps` (lines 11-42): per-agent
`(reserve_zj, prod_cap_zj_per_year)`. -/
def allocate_energy_reserves_and_caps (w : World) : List (String × (ℚ × ℚ)) :=
  let global_energy_reserves := (alookup w.global_state.global_reserves "energy").getD 32.5
  let keys : List (String × ℚ) := w.agents.map fun p =>
    (p.1, match alookup p.2.resources "energy" with
      | some r => max r.own_reserve 0
      | Option.none => 0)
  let total_key := (keys.map Prod.snd).sum
  if total_key ≤ 0 then
    let count := max w.agents.length 1
    w.agents.map fun p => (p.1, (global_energy_reserves / count, (0.65:ℚ) / count))
  else
    keys.map fun p =>
      let share := p.2 / total_key
      (p.1, (share * global_energy_reserves, share * 0.65))

/-- The consumption written by the metals price-substitution step
(lines 67-72). -/
def metals_consumption (T : TransOps) (prices : List (String × ℚ))
    (r : ResourceSubState) : ℚ :=
  let price := (alookup prices "metals").getD 1
  if 0 < price then max 0 (r.consumption * T.powr (price / 1) (-0.3))
  else r.consumption

/-- The primary production of one resource of one agent (lines 74-86),
before recycling. -/
def primary_production (energy_alloc : List (String × (ℚ × ℚ)))
    (aid name : String) (r : ResourceSubState) : ℚ :=
  if name = "energy" then
    let cap_year := ((alookup energy_alloc aid).map Prod.snd).getD 0.65
    min (min (max 0 r.production) cap_year) (max 0 r.own_reserve)
  else max 0 r.production

/-- The per-resource update of `update_resource_stocks` (lines 61-106):
returns the updated resource record. -/
def update_resource_one (T : TransOps) (prices : List (String × ℚ))
    (energy_alloc : List (String × (ℚ × ℚ))) (aid name : String)
    (r : ResourceSubState) : ResourceSubState :=
  let r := if name = "metals" then { r with consumption := metals_consumption T prices r }
    else r
  let primary := primary_production energy_alloc aid name r
  let production := if name = "metals" then primary + 0.45 * max 0 r.consumption
    else primary
  let regen : ℚ := (if name = "food" then 0.02 else 0) * max r.own_reserve 0
  let tech_expansion : ℚ :=
    (if name = "energy" then 0.01 else if name = "metals" then 0.005 else 0)
      * max r.own_reserve 0
  let new_reserve := if name = "food" then r.own_reserve + regen + tech_expansion
    else r.own_reserve - primary + regen + tech_expansion
  { r with own_reserve := max 0 new_reserve, production := production }

/-- `update_resource_stocks` (lines 45-123) at the pipeline's call site
(default regeneration/recycling parameters). -/
def update_resource_stocks (T : TransOps) (w : World)
    (energy_alloc : List (String × (ℚ × ℚ))) : World :=
  let names := ["energy", "food", "metals"]
  let agents := w.agents.map fun p =>
    let rs := names.foldl (fun rs name =>
      aupdate rs name (update_resource_one T w.global_state.prices energy_alloc p.1 name))
      p.2.resources
    (p.1, { p.2 with resources := rs })
  let total_primary := fun name => (w.agents.map fun p =>
    match alookup p.2.resources name with
    | some r =>
      let r := if name = "metals"
        then { r with consumption := metals_consumption T w.global_state.prices r }
        else r
      primary_production energy_alloc p.1 name r
    | Option.none => 0).sum
  let reserves := names.foldl (fun gr name =>
    let g := (alookup gr name).getD 0
    let regen_g : ℚ := (if name = "food" then 0.02 else 0) * max g 0
    let tech_g : ℚ :=
      (if name = "energy" then 0.01 else if name = "metals" then 0.005 else 0) * max g 0
    aset gr name (max 0 (g - total_primary name + regen_g + tech_g)))
    w.global_state.global_reserves
  { w with
    agents := agents
    global_state := { w.global_state with global_reserves := reserves } }

/-- `update_global_resource_prices` (lines 126-155). -/
def update_global_resource_prices (w : World) : World :=
  let names := ["energy", "food", "metals"]
  let supply := fun name => (w.agents.map fun p =>
    match alookup p.2.resources name with
    | some r => max 0 r.production
    | Option.none => 0).sum
  let demand := fun name => (w.agents.map fun p =>
    match alookup p.2.resources name with
    | some r => max 0 r.consumption
    | Option.none => 0).sum
  let prices := names.foldl (fun ps name =>
    let current := (alookup ps name).getD 1
    let imbalance := (demand name - supply name) / (supply name + 1/1000000)
    aset ps name (max 0.3 (min 5.0 (current * (1 + 0.15 * imbalance)))))
    w.global_state.prices
  { w with global_state := { w.global_state with prices := prices } }

/-! ### Phase 14 — climate (`GIM_12/gim_11_1/climate.py`) -/

/-- `_climate_resilience` (lines 28-39). -/
def climate_resilience (a : Agent) : ℚ :=
  let tech_res := clamp01 (a.technology.tech_level / 2)
  let gdp := max a.economy.gdp (1/1000000)
  let adapt_share := max 0 a.economy.climate_adaptation_spending / gdp
  let adapt_res := clamp01 (adapt_share / 0.03)
  clamp01 (0.40 * a.risk.regime_stability + 0.30 * tech_res
    + 0.15 * a.society.trust_gov + 0.15 * adapt_res)

/-- `update_global_climate` (lines 85-153) at the pipeline's call site
(default `dt=1`, `ecs=3`, `f_nonco2=0`, heat capacities `20`/`100`, ocean
exchange `0.7`, default pool fractions and time-constants).  The carbon-pool
step reuses the `carbon_pools_step`/`co2_after` embedding. -/
def update_global_climate (T : TransOps) (w : World) : World :=
  let total_emissions := (w.agents.map fun p => p.2.climate.co2_annual_emissions).sum
  let fractions := GIM.normalize_fractions GIM.CARBON_POOL_FRACTIONS
  let pools := if w.global_state.carbon_pools.length ≠ fractions.length
    then
      let excess := max 0 (w.global_state.co2 - GIM.CO2_PREINDUSTRIAL_GT)
      fractions.map fun f => excess * f
    else w.global_state.carbon_pools
  let new_pools := GIM.carbon_pools_step T.exp 1 total_emissions pools fractions
    GIM.CARBON_POOL_TIMESCALES
  let co2 := GIM.co2_after new_pools
  let c_ppm := max (1/1000000) (co2 / 7.81)
  let c0_ppm := GIM.CO2_PREINDUSTRIAL_GT / 7.81
  let f_total := 5.35 * T.log (c_ppm / c0_ppm) + 0
  let climate_feedback := (3.71:ℚ) / 3
  let t_surface := w.global_state.temperature_global
  let t_ocean := w.global_state.temperature_ocean
  let dts := (f_total - climate_feedback * t_surface
    - 0.7 * (t_surface - t_ocean)) * 1 / max 20 (1/1000000)
  let dtd := 0.7 * (t_surface - t_ocean) * 1 / max 100 (1/1000000)
  let new_ts := t_surface + dts
  let new_to := t_ocean + dtd
  let total_weight := (w.agents.map fun p => T.powr p.2.economy.population 0.3).sum
  let weighted_bio := (w.agents.map fun p =>
    p.2.climate.biodiversity_local * T.powr p.2.economy.population 0.3).sum
  let bio_index := if 0 < total_weight then weighted_bio / total_weight
    else w.global_state.biodiversity_index
  let temp_increase := new_ts - 1.2
  let agents := w.agents.map fun p =>
    let resilience := climate_resilience p.2
    let effective_risk := clamp01 p.2.climate.climate_risk * (1 - 0.60 * resilience)
    let degradation := 0.004 * max 0 temp_increase * effective_risk
    (p.1, { p.2 with climate := { p.2.climate with
      biodiversity_local := max 0 (p.2.climate.biodiversity_local - degradation) } })
  { w with
    agents := agents
    global_state := { w.global_state with
      carbon_pools := new_pools
      co2 := co2
      forcing_total := f_total
      temperature_global := new_ts
      temperature_ocean := new_to
      biodiversity_index := bio_index } }

/-- `update_climate_risks` (lines 156-173) at the default parameters. -/
def update_climate_risks (T : TransOps) (w : World) : World :=
  let delta_t := max 0 (w.global_state.temperature_global - 1.2)
  { w with agents := w.agents.map fun p =>
    let base := clamp01 (0.3 + 0.45 * p.2.risk.water_stress
      + 0.15 * (p.2.society.inequality_gini / 100))
    let temp_component := 1 - T.exp (-(0.45) * delta_t)
    let target := clamp01 (base + (1 - base) * temp_component)
    (p.1, { p.2 with climate := { p.2.climate with
      climate_risk := clamp01 (p.2.climate.climate_risk
        + 0.06 * (target - p.2.climate.climate_risk)) } }) }

/-- `apply_climate_extreme_events` (lines 176-222) at the default
probabilities, with `roll_evt` the per-agent `random.random()` draw. -/
def apply_climate_extreme_events (roll_evt : String → ℚ) (w : World) : World :=
  let temperature := w.global_state.temperature_global
  { w with agents := w.agents.map fun p =>
    let a := p.2
    let risk := a.climate.climate_risk
    if risk ≤ 0 then p
    else
      let resilience := climate_resilience a
      let extra_warming := max 0 (temperature - 1.2)
      let temp_factor := 1 + 0.15 * extra_warming
      let event_prob := min 0.5 (max 0
        ((0.012 + 0.07 * risk) * temp_factor * (1 - 0.40 * resilience)))
      if event_prob ≤ roll_evt p.1 then p
      else
        let severity := (0.03 + 0.15 * risk) * (1 - 0.50 * resilience)
        let pop_loss := (0.004 + 0.015 * risk) * (1 - 0.35 * resilience)
        let shock_penalty := min 0.10 (0.5 * severity)
        let tension_jump := (0.03 + 0.10 * risk) * (1 - 0.35 * resilience)
        let trust := if 0.6 < a.risk.regime_stability
          then min 1 (a.society.trust_gov + (0.02 + 0.02 * resilience))
          else max 0 (a.society.trust_gov - (0.02 + 0.03 * risk))
        (p.1, { a with
          economy := { a.economy with
            capital := a.economy.capital * max 0 (1 - severity)
            population := a.economy.population * max 0 (1 - pop_loss)
            climate_shock_years := max a.economy.climate_shock_years 2
            climate_shock_penalty := max a.economy.climate_shock_penalty shock_penalty }
          society := { a.society with
            social_tension := min 1 (a.society.social_tension + tension_jump)
            trust_gov := trust } }) }

/-! ### Phases 15-16 — economy and fiscal accounting (`gim_11_1/economy.py`,
`GIM_12/gim_11_1/metrics.py`) -/

/-- The contagion partners of `compute_effective_interest_rate`, extracted
from the world. -/
def rate_partners (w : World) (aid : String) : List RatePartner :=
  ((alookup w.relations aid).getD []).filterMap fun q =>
    (alookup w.agents q.1).map fun p =>
      ⟨p.economy.gdp, p.economy.public_debt, p.risk.debt_crisis_prone,
       q.2.trade_intensity, q.2.trade_barrier⟩

/-- `compute_effective_interest_rate(agent, world)` on the full state. -/
def agent_rate (w : World) (aid : String) (a : Agent) : ℚ :=
  GIM.compute_effective_interest_rate
    ⟨a.economy.gdp, a.economy.public_debt, a.risk.regime_stability,
     a.risk.debt_crisis_prone⟩ (rate_partners w aid)

/-- `update_tfp_endogenous` (`metrics.py` lines 72-120). -/
def update_tfp_endogenous (T : TransOps) (w : World) (aid : String) (a : Agent) :
    Agent :=
  let tfp0 := match a.economy.tfp with
    | some v => v
    | Option.none =>
      let capital := max a.economy.capital (1/1000000)
      let labor := max (a.economy.population / 1000000000) (1/1000)
      let energy_input := match alookup a.resources "energy" with
        | some e => max (e.consumption / 1000) (1/1000)
        | Option.none => 1
      let base := T.powr capital 0.30 * T.powr labor 0.60 * T.powr energy_input 0.10
      if 0 < base then a.economy.gdp / base else 1
  let gdp := max a.economy.gdp (1/1000000)
  let rd_share := a.economy.rd_spending / gdp
  let rels := (alookup w.relations aid).getD []
  let avg_trade := if 0 < rels.length
    then (rels.map fun q =>
      effective_trade_intensity q.2.trade_intensity q.2.trade_barrier).sum / rels.length
    else 0
  let spillover := 1 + 0.3 * avg_trade
  let tfp_growth := 2.0 * rd_share * spillover
  let gaps := rels.filterMap fun q =>
    (alookup w.agents q.1).map fun p =>
      (max 0 (effective_trade_intensity q.2.trade_intensity q.2.trade_barrier),
       max 0 (p.technology.tech_level - a.technology.tech_level))
  let tech_weight := (gaps.map Prod.fst).sum
  let tech_gap_weighted := (gaps.map fun g => g.1 * g.2).sum
  let avg_gap := if 0 < tech_weight then tech_gap_weighted / tech_weight else 0
  let diffusion := 0.02 * avg_gap
  let growth := max (-0.05) (min (0.01 + tfp_growth + diffusion) 0.05)
  { a with economy := { a.economy with tfp := some (tfp0 * (1 + growth)) } }

/-- `climate_damage_multiplier` (`climate.py` lines 225-233). -/
def climate_damage_multiplier (T : TransOps) (temperature : ℚ) : ℚ :=
  let delta_t := temperature - 1.2
  let benefit := 0.006 * T.exp (-((delta_t - 0.3) ^ 2) / (2 * 0.5 ^ 2))
  let loss := 0.006 * temperature ^ 2
  max 0 (1 + benefit - loss)

/-- `effective_damage_multiplier` (`climate.py` lines 236-240). -/
def effective_damage_multiplier (T : TransOps) (w : World) (a : Agent) : ℚ :=
  let base := climate_damage_multiplier T w.global_state.temperature_global
  max 0 (base * (1 + 0.005 * (1 - a.climate.climate_risk)))

/-- `update_capital_endogenous` (`economy.py` lines 6-22). -/
def update_capital_endogenous (a : Agent) : Agent :=
  let gdp := max a.economy.gdp (1/1000000)
  let capital := max a.economy.capital (1/1000000)
  let stability := clamp01 a.risk.regime_stability
  let tension := clamp01 a.society.social_tension
  let savings_rate := max 0.05 (min 0.40 (0.24 * (0.7 + 0.6 * stability - 0.4 * tension)))
  { a with economy := { a.economy with
      capital := max (1/1000000) (0.95 * capital + savings_rate * gdp) } }

/-- The production-function and climate-damage half of
`update_economy_output` (`economy.py` lines 25-55). -/
def economy_gdp_update (T : TransOps) (w : World) (a : Agent) : Agent :=
  let capital := max a.economy.capital (1/1000000)
  let labor := max (a.economy.population / 1000000000) (1/1000)
  let energy_input := match alookup a.resources "energy" with
    | some e => max ((e.consumption / 1000) * max 0.5 e.efficiency) (1/1000)
    | Option.none => 1
  let tfp := (a.economy.tfp).getD 1
  let tech_level := max 0.5 a.technology.tech_level
  let tech_factor := 1 + 0.6 * max 0 (tech_level - 1)
  let gdp_potential := tfp * tech_factor * T.powr capital 0.3 * T.powr labor 0.60
    * T.powr energy_input 0.10
  let scale := match a.economy.scale_factor with
    | some s => s
    | Option.none => if 0 < gdp_potential then a.economy.gdp / gdp_potential else 1
  let gdp_target := gdp_potential * scale * effective_damage_multiplier T w a
  let shocked := 0 < a.economy.climate_shock_years
  let gdp_target := if shocked
    then gdp_target * max 0 (1 - a.economy.climate_shock_penalty) else gdp_target
  let new_years := if shocked then a.economy.climate_shock_years - 1
    else a.economy.climate_shock_years
  let new_penalty := if shocked ∧ new_years = 0 then 0 else a.economy.climate_shock_penalty
  let gdp_now := max a.economy.gdp (1/1000000)
  let gap := (gdp_target - gdp_now) / gdp_now
  let adjust_speed := 0.30 + 0.35 * clamp01 (max 0 gap)
  let new_gdp := (1 - adjust_speed) * a.economy.gdp + adjust_speed * gdp_target
  { a with economy := { a.economy with
    gdp := new_gdp
    scale_factor := some scale
    climate_shock_years := new_years
    climate_shock_penalty := new_penalty } }

/-- `update_economy_output` (`economy.py` lines 25-68): endogenous TFP, the
damage-adjusted production target, capital accumulation, per-capita gdp. -/
def update_economy_output (T : TransOps) (w : World) (aid : String) (a : Agent) :
    Agent :=
  let a3 := update_capital_endogenous (economy_gdp_update T w
    (update_tfp_endogenous T w aid a))
  if 0 < a3.economy.population then
    { a3 with economy := { a3.economy with
        gdp_per_capita := a3.economy.gdp * 1000000000000 / a3.economy.population } }
  else a3

/-- The `for agent in world.agents.values(): update_economy_output(...)` loop
of `step_world`, threading the world. -/
def economy_output_all (T : TransOps) (w : World) : World :=
  (w.agents.map Prod.fst).foldl (fun w aid =>
    match alookup w.agents aid with
    | some a => update_agent w aid fun _ => update_economy_output T w aid a
    | Option.none => w) w

/-- `update_public_finances` (`economy.py` lines 109-141). -/
def update_public_finances (w : World) (aid : String) (a : Agent) : Agent :=
  let gdp := max a.economy.gdp (1/1000000)
  let climate_adaptation_share := 0.005 + 0.015 * max 0 a.climate.climate_risk
  let adaptation := gdp * climate_adaptation_share
  let baseline_spending := gdp * (0.15 + 0.035 + climate_adaptation_share)
  let policy_spending := a.economy.social_spending + a.economy.military_spending
    + a.economy.rd_spending
  let gov_spending := max 0 (baseline_spending + policy_spending)
  let taxes := 0.22 * gdp
  let effective_rate := agent_rate w aid a
  let interest := effective_rate * a.economy.public_debt
  let primary_deficit := gov_spending - taxes
  let total_deficit := primary_deficit + interest
  let max_new_debt := 0.05 * gdp
  let new_borrowing := if 0 < total_deficit then min total_deficit max_new_debt else 0
  let debt1 := if 0 < total_deficit then a.economy.public_debt
    else max 0 (a.economy.public_debt + total_deficit)
  { a with economy := { a.economy with
      climate_adaptation_spending := adaptation
      gov_spending := gov_spending
      taxes := taxes
      interest_payments := interest
      public_debt := debt1 + new_borrowing
      rd_spending := a.economy.rd_spending * 0.85 } }

/-- `check_debt_crisis` (`social.py` lines 174-195) on the full state; the
`_debt_crisis_this_step` shadow attribute is the `debt_crisis_flag` field. -/
def check_debt_crisis (w : World) (aid : String) (a : Agent) : Agent :=
  let gdp := max a.economy.gdp (1/1000000)
  let debt_gdp := a.economy.public_debt / gdp
  let rate := agent_rate w aid a
  if 1.2 < debt_gdp ∧ 0.12 < rate then
    if a.debt_crisis_flag then a
    else
      { a with
        debt_crisis_flag := true
        economy := { a.economy with
          public_debt := a.economy.public_debt * 0.6
          gdp := a.economy.gdp * 0.9
          unemployment := min 0.3 (a.economy.unemployment + 0.05) }
        society := { a.society with
          trust_gov := max 0 (a.society.trust_gov - 0.15)
          social_tension := min 1 (a.society.social_tension + 0.15) }
        risk := { a.risk with
          regime_stability := max 0 (a.risk.regime_stability - 0.15) } }
  else { a with debt_crisis_flag := false }

/-- The `update_public_finances` + `check_debt_crisis` loop of `step_world`,
threading the world (later agents see earlier agents' updated debt). -/
def finances_all (w : World) : World :=
  (w.agents.map Prod.fst).foldl (fun w aid =>
    match alookup w.agents aid with
    | some a =>
      let w := update_agent w aid fun _ => update_public_finances w aid a
      match alookup w.agents aid with
      | some a2 => update_agent w aid fun _ => check_debt_crisis w aid a2
      | Option.none => w
    | Option.none => w) w

/-! ### Phase 17 — demography and social dynamics
(`GIM_12/gim_11_1/social.py`) -/

/-- The `baseline or 1.0` idiom of `social.py`. -/
def baseline_or_one (w : World) : ℚ :=
  if w.global_state.baseline_gdp_pc = 0 then 1 else w.global_state.baseline_gdp_pc

/-- The per-agent gdp-per-capita table of `update_migration_flows`
(lines 49-55). -/
def migration_gdp_pc (a : Agent) : ℚ :=
  if 0 < a.economy.gdp_per_capita then a.economy.gdp_per_capita
  else a.economy.gdp * 1000000000000 / max a.economy.population 1

/-- `update_migration_flows` (lines 44-101). -/
def update_migration_flows (w : World) : World :=
  let baseline := baseline_or_one w
  let gdp_pc := fun (aid : String) =>
    ((alookup w.agents aid).map migration_gdp_pc).getD 0
  let flows := w.agents.foldl (fun net p =>
    let origin := p.2
    let income_gap := max 0 ((baseline - gdp_pc p.1) / baseline)
    let push := 0.6 * income_gap + 0.4 * clamp01 origin.risk.conflict_proneness
    if push ≤ 0 then net
    else
      let population := origin.economy.population
      let outflow := min (0.001 * population * push) (0.003 * population)
      if outflow ≤ 0 then net
      else
        let weights := ((alookup w.relations p.1).getD []).filterMap fun q =>
          match alookup w.agents q.1 with
          | Option.none => Option.none
          | some dest =>
            let gap := max 0 ((gdp_pc q.1 - gdp_pc p.1) / baseline)
            if gap ≤ 0 then Option.none
            else
              let weight := max 0 (effective_trade_intensity q.2.trade_intensity
                  q.2.trade_barrier) * gap
                * (1 - 0.5 * clamp01 dest.risk.conflict_proneness)
              if weight ≤ 0 then Option.none else some (q.1, weight)
        let total_weight := (weights.map Prod.snd).sum
        if total_weight ≤ 0 then net
        else weights.foldl (fun net q =>
          let flow := outflow * (q.2 / total_weight)
          let net := aset net p.1 ((alookup net p.1).getD 0 - flow)
          aset net q.1 ((alookup net q.1).getD 0 + flow)) net)
    ((w.agents.map fun p => (p.1, (0:ℚ))))
  { w with agents := w.agents.map fun p =>
    let delta := (alookup flows p.1).getD 0
    if delta = 0 then p
    else (p.1, { p.2 with economy := { p.2.economy with
      population := max 0 (p.2.economy.population + delta) } }) }

/-- `update_population` (lines 7-41). -/
def update_population (T : TransOps) (w : World) (a : Agent) : Agent :=
  let gdp_per_capita := a.economy.gdp_per_capita
  let gini := a.society.inequality_gini / 100
  let availability_ratio := match alookup a.resources "food" with
    | some food => (food.production + 0.2 * food.own_reserve)
        / max food.consumption (1/1000000)
    | Option.none => 1
  let availability_ratio := min 2 (max 0 availability_ratio)
  let scarcity := max 0 (1 - availability_ratio)
  let baseline := baseline_or_one w
  let ratio := max (gdp_per_capita / baseline) (1/1000000)
  let prosperity := 1 / (1 + T.exp (-(1.2) * T.log ratio))
  let birth_rate := (0.025 - 0.000001 * gdp_per_capita) * (1 - 0.5 * prosperity)
    * (1 - 0.6 * scarcity) * (1 - 0.3 * gini)
  let birth_rate := max 0.006 (min 0.04 birth_rate)
  let death_rate := (0.012 - 0.0000005 * gdp_per_capita)
    * (1 + 1.0 * scarcity + 0.4 * gini) * (1 - 0.2 * prosperity)
  let death_rate := max 0.004 (min 0.03 death_rate)
  { a with economy := { a.economy with
      birth_rate := birth_rate
      death_rate := death_rate
      population := a.economy.population * (1 + (birth_rate - death_rate)) } }

/-- `update_social_state` (lines 104-152). -/
def update_social_state (a : Agent) (act : Action) : Agent :=
  let trust_change := 0.00005 * (a.economy.gdp_per_capita / 10000)
    - 0.025 * a.economy.unemployment - 0.025 * a.economy.inflation
    - 0.0004 * a.society.inequality_gini
    - 0.08 * max 0 (a.society.social_tension - 0.3)
  let new_trust := max 0 (min 1 (a.society.trust_gov + trust_change))
  let inequality_effect := 0.0005 * a.society.inequality_gini * (1 - a.culture.idv / 100)
  let stress_effect := 0.01 * a.economy.unemployment + 0.005 * a.economy.inflation
  let trust_anchor := 0.06 * (0.5 - new_trust)
  let new_tension := max 0 (min 1 (a.society.social_tension
    + inequality_effect + stress_effect + trust_anchor))
  let prev_gdp := (a.economy.gdp_prev).getD a.economy.gdp
  let gdp_growth := (a.economy.gdp - prev_gdp) / max prev_gdp (1/1000000)
  let growth_effect := 6.0 * gdp_growth
  let recession_penalty := 4.0 * |min 0 gdp_growth| * (0.5 + new_tension)
  let fiscal_effect := -(60.0) * act.domestic_policy.social_spending_change
  let tension_effect := 1.2 * (new_tension - 0.4)
  let gini_next := a.society.inequality_gini + growth_effect + recession_penalty
    + fiscal_effect + tension_effect
  { a with
    economy := { a.economy with gdp_prev := some a.economy.gdp }
    society := { a.society with
      trust_gov := new_trust
      social_tension := new_tension
      inequality_gini := max 20 (min 70 gini_next) } }

/-- `check_regime_stability` (lines 155-171); the `_collapsed_this_step`
shadow attribute is the `collapsed_flag` field. -/
def check_regime_stability (a : Agent) : Agent :=
  if a.society.trust_gov < 0.2 ∧ 0.8 < a.society.social_tension then
    if a.collapsed_flag then a
    else
      { a with
        collapsed_flag := true
        economy := { a.economy with
          capital := a.economy.capital * 0.7
          gdp := a.economy.gdp * 0.8
          public_debt := a.economy.public_debt * 0.7 }
        society := { a.society with
          trust_gov := max a.society.trust_gov 0.25
          social_tension := min a.society.social_tension 0.6 }
        risk := { a.risk with
          regime_stability := max 0 (a.risk.regime_stability - 0.2) } }
  else { a with collapsed_flag := false }

/-- The per-agent social loop of `step_world`: population update, social
state (only for agents with an action), collapse check. -/
def social_all (T : TransOps) (actions : List (String × Action)) (w : World) : World :=
  { w with agents := w.agents.map fun p =>
    let a := update_population T w p.2
    let a := match alookup actions p.1 with
      | some act => update_social_state a act
      | Option.none => a
    (p.1, check_regime_stability a) }

/-! ### Phase 18 — relative metrics (`GIM_12/gim_11_1/metrics.py`
lines 15-49) -/

/-- `compute_relative_metrics`; the stable descending gdp sort mirrors
Python's stable `sorted(..., reverse=True)`, and `math.log1p(x)` is
`T.log (1 + x)`. -/
def compute_relative_metrics (T : TransOps) (w : World) : World :=
  let agents := w.agents
  let total_gdp0 := (agents.map fun p => p.2.economy.gdp).sum
  let total_gdp := if total_gdp0 ≤ 0 then 1/1000000 else total_gdp0
  let sorted := agents.mergeSort fun x y => y.2.economy.gdp ≤ x.2.economy.gdp
  let ranks := (sorted.enum).map fun pi => (pi.2.1, pi.1 + 1)
  let trade_degree := fun (aid : String) =>
    (((alookup w.relations aid).getD []).map fun q =>
      effective_trade_intensity q.2.trade_intensity q.2.trade_barrier).sum
  { w with agents := agents.map fun p =>
    let a := p.2
    let pop := max a.economy.population 1
    let gdp_term := T.log (1 + a.economy.gdp)
    let pop_term := T.log (1 + pop / 1000000)
    let degree_term := T.log (1 + trade_degree p.1)
    let neighbor_mil := ((alookup w.relations p.1).getD []).filterMap fun q =>
      (alookup w.agents q.1).map fun n => n.technology.military_power
    let security_margin := if 0 < neighbor_mil.length
      then a.technology.military_power
        / max (neighbor_mil.sum / neighbor_mil.length) (1/1000)
      else 1
    (p.1, { a with
      economy := { a.economy with
        gdp_share := a.economy.gdp / total_gdp
        gdp_rank := alookup ranks p.1 }
      influence_score := gdp_term + pop_term + 0.5 * degree_term
      security_margin := security_margin }) }

/-! ### The orchestrator (`gim_11_1/simulation.py` lines 254-339) -/

/-- `step_world`: the full ordered pipeline.  `raw_actions` is the per-agent
action map produced by the policy calls (with fallback); the political filter
is applied to it exactly when `apply_political_filters` is set.  The
read-only observation build, action/institution logs and the agent-memory
update are omitted (they do not touch the world). -/
def step_world (T : TransOps) (builder : World → List (String × Institution))
    (roll_sec roll_evt : String → ℚ) (raw_actions : List (String × Action))
    (enable_extreme_events apply_political_filters apply_insts : Bool)
    (w : World) : World :=
  let w := update_political_states w
  let w := if apply_insts then update_institutions builder w else w
  let actions := if apply_political_filters then
      raw_actions.map fun p => match alookup w.agents p.1 with
        | some a => (p.1, apply_political_constraints p.2 a)
        | Option.none => p
    else raw_actions
  let w := resolve_foreign_policy w actions
  let w := apply_sanctions_effects T w
  let w := apply_security_actions roll_sec w actions
  let w := update_active_conflicts w
  let w := apply_trade_barrier_effects w
  let wa := apply_actions T w actions
  let w := wa.1
  let actions := wa.2
  let w := apply_trade_deals w actions
  let w := update_relations_endogenous w
  let alloc := allocate_energy_reserves_and_caps w
  let w := update_resource_stocks T w alloc
  let w := update_global_resource_prices w
  let w := update_global_climate T w
  let w := update_climate_risks T w
  let w := if enable_extreme_events then apply_climate_extreme_events roll_evt w else w
  let w := economy_output_all T w
  let w := finances_all w
  let w := update_migration_flows w
  let w := social_all T actions w
  let w := compute_relative_metrics T w
  { w with time := w.time + 1 }

/-! ### The bounded-field invariant (claim C1) -/

/-- Society ranges: `trust_gov`, `social_tension` in `[0,1]`,
`inequality_gini` in `[0,100]`. -/
def SocietyBounds (s : SocietyState) : Prop :=
  0 ≤ s.trust_gov ∧ s.trust_gov ≤ 1 ∧
  0 ≤ s.social_tension ∧ s.social_tension ≤ 1 ∧
  0 ≤ s.inequality_gini ∧ s.inequality_gini ≤ 100

/-- Political-trait ranges: all seven traits in `[0,1]`. -/
def PoliticalBounds (p : PoliticalState) : Prop :=
  0 ≤ p.legitimacy ∧ p.legitimacy ≤ 1 ∧
  0 ≤ p.protest_pressure ∧ p.protest_pressure ≤ 1 ∧
  0 ≤ p.hawkishness ∧ p.hawkishness ≤ 1 ∧
  0 ≤ p.protectionism ∧ p.protectionism ≤ 1 ∧
  0 ≤ p.coalition_openness ∧ p.coalition_openness ≤ 1 ∧
  0 ≤ p.sanction_propensity ∧ p.sanction_propensity ≤ 1 ∧
  0 ≤ p.policy_space ∧ p.policy_space ≤ 1

/-- The documented ranges of the bounded per-agent fields: `trust_gov`,
`social_tension`, `climate_risk` and the political traits in `[0,1]`,
`inequality_gini` in `[0,100]`. -/
def AgentBounds (a : Agent) : Prop :=
  SocietyBounds a.society ∧
  (0 ≤ a.climate.climate_risk ∧ a.climate.climate_risk ≤ 1) ∧
  PoliticalBounds a.political

/-- The documented ranges of the bounded relation fields: `trust`,
`conflict_level`, `trade_barrier` in `[0,1]`. -/
def RelBounds (r : Relation) : Prop :=
  0 ≤ r.trust ∧ r.trust ≤ 1 ∧
  0 ≤ r.conflict_level ∧ r.conflict_level ≤ 1 ∧
  0 ≤ r.trade_barrier ∧ r.trade_barrier ≤ 1

/-- The world-level invariant of claim C1. -/
def WorldBounds (w : World) : Prop :=
  (∀ p ∈ w.agents, AgentBounds p.2) ∧
  (∀ p ∈ w.relations, ∀ q ∈ p.2, RelBounds q.2)

theorem mem_aupdate {α : Type} {xs : List (String × α)} {k : String} {f : α → α}
    {p : String × α} (hp : p ∈ aupdate xs k f) :
    ∃ q ∈ xs, p = q ∨ p = (q.1, f q.2) := by
  unfold aupdate at hp
  obtain ⟨q, hq, hpq⟩ := List.mem_map.mp hp
  refine ⟨q, hq, ?_⟩
  by_cases h : q.1 = k
  · right
    rw [if_pos h] at hpq
    exact hpq.symm
  · left
    rw [if_neg h] at hpq
    exact hpq.symm

theorem update_agent_bounds {w : World} {aid : String} {f : Agent → Agent}
    (hw : WorldBounds w) (hf : ∀ a, AgentBounds a → AgentBounds (f a)) :
    WorldBounds (update_agent w aid f) := by
  obtain ⟨ha, hr⟩ := hw
  refine ⟨?_, hr⟩
  intro p hp
  obtain ⟨q, hq, hcase⟩ := mem_aupdate hp
  rcases hcase with h | h
  · rw [h]
    exact ha q hq
  · rw [h]
    exact hf q.2 (ha q hq)

theorem update_rel_bounds {w : World} {aid tid : String} {f : Relation → Relation}
    (hw : WorldBounds w) (hf : ∀ r, RelBounds r → RelBounds (f r)) :
    WorldBounds (update_rel w aid tid f) := by
  obtain ⟨ha, hr⟩ := hw
  refine ⟨ha, ?_⟩
  intro p hp q hq
  unfold update_rel at hp
  simp only [List.mem_map] at hp
  obtain ⟨p0, hp0, hpeq⟩ := hp
  by_cases hk : p0.1 = aid
  · rw [if_pos hk] at hpeq
    subst hpeq
    obtain ⟨q0, hq0, hcase⟩ := mem_aupdate hq
    rcases hcase with h | h
    · rw [h]
      exact hr p0 hp0 q0 hq0
    · rw [h]
      exact hf q0.2 (hr p0 hp0 q0 hq0)
  · rw [if_neg hk] at hpeq
    subst hpeq
    exact hr p0 hp0 q hq

theorem foldl_bounds {α β : Type} {P : α → Prop} {f : α → β → α}
    (hf : ∀ x b, P x → P (f x b)) :
    ∀ (l : List β) (x : α), P x → P (l.foldl f x)
  | [], _, hx => hx
  | b :: l, x, hx => foldl_bounds hf l (f x b) (hf x b hx)

theorem mem01_clamp01 (x : ℚ) : 0 ≤ clamp01 x ∧ clamp01 x ≤ 1 := clamp01_mem x

theorem mem01_mul {x c : ℚ} (hx : 0 ≤ x ∧ x ≤ 1) (hc : 0 ≤ c ∧ c ≤ 1) :
    0 ≤ x * c ∧ x * c ≤ 1 :=
  ⟨mul_nonneg hx.1 hc.1, by nlinarith [hx.1, hx.2, hc.1, hc.2]⟩

theorem mem01_min_one_add {x d : ℚ} (hx : 0 ≤ x) (hd : 0 ≤ d) :
    0 ≤ min 1 (x + d) ∧ min 1 (x + d) ≤ 1 :=
  ⟨le_min (by norm_num) (by linarith), min_le_left _ _⟩

theorem mem01_max_zero_sub {x d : ℚ} (hx : x ≤ 1) (hd : 0 ≤ d) :
    0 ≤ max 0 (x - d) ∧ max 0 (x - d) ≤ 1 :=
  ⟨le_max_left _ _, max_le (by norm_num) (by linarith)⟩

theorem alookup_mem {xs : List (String × α)} {k : String} {v : α}
    (h : alookup xs k = some v) : ∃ q ∈ xs, q.2 = v := by
  unfold alookup at h
  cases hf : xs.find? fun p => p.1 = k with
  | none => rw [hf] at h; cases h
  | some q =>
    rw [hf] at h
    exact ⟨q, List.mem_of_find?_eq_some hf, by simpa using h⟩

theorem update_political_states_bounds {w : World} (hw : WorldBounds w) :
    WorldBounds (update_political_states w) := by
  obtain ⟨ha, hr⟩ := hw
  refine ⟨?_, hr⟩
  intro p hp
  simp only [update_political_states, List.mem_map] at hp
  obtain ⟨q, hq, rfl⟩ := hp
  have h := ha q hq
  exact ⟨h.1, h.2.1,
    clamp01_nonneg _, clamp01_le_one _, clamp01_nonneg _, clamp01_le_one _,
    clamp01_nonneg _, clamp01_le_one _, clamp01_nonneg _, clamp01_le_one _,
    clamp01_nonneg _, clamp01_le_one _, clamp01_nonneg _, clamp01_le_one _,
    clamp01_nonneg _, clamp01_le_one _⟩

theorem finance_grants_bounds {budget : ℚ} {members : List String} {w : World}
    (hw : WorldBounds w) :
    WorldBounds (finance_grants w budget members).1 := by
  induction members generalizing w budget with
  | nil => exact hw
  | cons mid rest ih =>
    unfold finance_grants
    cases alookup w.agents mid with
    | none => exact ih hw
    | some a =>
      dsimp only
      split_ifs with h1 h2 h3
      · exact ih hw
      · exact ih hw
      · exact update_agent_bounds hw fun a ha => ⟨ha.1, ha.2.1, ha.2.2⟩
      · exact ih (update_agent_bounds hw fun a ha => ⟨ha.1, ha.2.1, ha.2.2⟩)

theorem update_member_rels_bounds {rels : List (String × List (String × Relation))}
    {member : String} {f : String → Relation → Relation}
    (hr : ∀ p ∈ rels, ∀ q ∈ p.2, RelBounds q.2)
    (hf : ∀ pid r, RelBounds r → RelBounds (f pid r)) :
    ∀ p ∈ update_member_rels rels member f, ∀ q ∈ p.2, RelBounds q.2 := by
  intro p hp q hq
  unfold update_member_rels at hp
  simp only [List.mem_map] at hp
  obtain ⟨p0, hp0, hpeq⟩ := hp
  by_cases hk : p0.1 = member
  · rw [if_pos hk] at hpeq
    subst hpeq
    simp only [List.mem_map] at hq
    obtain ⟨q0, hq0, rfl⟩ := hq
    exact hf q0.1 q0.2 (hr p0 hp0 q0 hq0)
  · rw [if_neg hk] at hpeq
    subst hpeq
    exact hr p0 hp0 q hq

theorem apply_org_measures_bounds {w : World} {org : Institution}
    (hw : WorldBounds w) (hleg : 0 ≤ org.legitimacy) :
    WorldBounds (apply_org_measures w org).1 := by
  obtain ⟨ha, hr⟩ := hw
  unfold apply_org_measures
  split_ifs with h1 h2 h3 h4 h5 h6
  · exact ⟨ha, hr⟩
  · -- TradeOrg
    refine ⟨ha, ?_⟩
    dsimp only
    refine foldl_bounds (P := fun rs => ∀ p ∈ rs, ∀ q ∈ p.2, RelBounds q.2) ?_
      org.members w.relations hr
    intro rs mid hrs
    refine update_member_rels_bounds hrs ?_
    intro pid r hrb
    have hd : (0:ℚ) ≤ 0.01 * org.legitimacy := by linarith
    split_ifs with hcond
    · exact ⟨hrb.1, hrb.2.1, hrb.2.2.1, hrb.2.2.2.1,
        (mem01_max_zero_sub hrb.2.2.2.2.2 hd).1,
        (mem01_max_zero_sub hrb.2.2.2.2.2 hd).2⟩
    · exact hrb
  · exact ⟨ha, hr⟩
  · exact finance_grants_bounds ⟨ha, hr⟩
  · -- SecurityOrg
    refine ⟨ha, ?_⟩
    dsimp only
    refine foldl_bounds (P := fun rs => ∀ p ∈ rs, ∀ q ∈ p.2, RelBounds q.2) ?_
      org.members w.relations hr
    intro rs mid hrs
    refine update_member_rels_bounds hrs ?_
    intro pid r hrb
    have hd : (0:ℚ) ≤ 0.01 * org.legitimacy := by linarith
    split_ifs with hcond
    · exact ⟨hrb.1, hrb.2.1,
        (mem01_max_zero_sub hrb.2.2.2.1 hd).1,
        (mem01_max_zero_sub hrb.2.2.2.1 hd).2,
        hrb.2.2.2.2.1, hrb.2.2.2.2.2⟩
    · exact hrb
  · -- ClimateOrg
    refine foldl_bounds (P := WorldBounds) ?_ org.members w ⟨ha, hr⟩
    intro w' mid hw'
    refine update_agent_bounds hw' ?_
    intro a hab
    have hd : (0:ℚ) ≤ 0.002 * org.legitimacy := by linarith
    split_ifs with hcond
    · exact ⟨hab.1,
        ⟨(mem01_max_zero_sub hab.2.1.2 hd).1,
         (mem01_max_zero_sub hab.2.1.2 hd).2⟩, hab.2.2⟩
    · exact hab
  · -- SocialOrg
    refine foldl_bounds (P := WorldBounds) ?_ org.members w ⟨ha, hr⟩
    intro w' mid hw'
    refine update_agent_bounds hw' ?_
    intro a hab
    have hd : (0:ℚ) ≤ 0.5 * (0.003 * org.legitimacy) := by linarith
    exact ⟨⟨clamp01_nonneg _, clamp01_le_one _,
      (mem01_max_zero_sub hab.1.2.2.2.1 hd).1,
      (mem01_max_zero_sub hab.1.2.2.2.1 hd).2,
      hab.1.2.2.2.2.1, hab.1.2.2.2.2.2⟩, hab.2.1, hab.2.2⟩
  · exact ⟨ha, hr⟩

theorem update_one_institution_bounds {m : GlobalMetrics} {w : World} {oid : String}
    (hw : WorldBounds w) : WorldBounds (update_one_institution m w oid) := by
  unfold update_one_institution
  cases halookup : alookup w.institutions oid with
  | none => exact hw
  | some org =>
    dsimp only
    have hleg : 0 ≤ (refreshed_org m org).legitimacy := clamp01_nonneg _
    have hb := @apply_org_measures_bounds w (refreshed_org m org) hw hleg
    exact ⟨hb.1, hb.2⟩

theorem update_institutions_bounds {builder : World → List (String × Institution)}
    {w : World} (hw : WorldBounds w) :
    WorldBounds (update_institutions builder w) := by
  unfold update_institutions
  split_ifs with h
  · exact foldl_bounds (P := WorldBounds)
      (fun w' oid hw' => update_one_institution_bounds hw') _ _ ⟨hw.1, hw.2⟩
  · exact foldl_bounds (P := WorldBounds)
      (fun w' oid hw' => update_one_institution_bounds hw') _ _ hw

theorem resolve_sanctions_bounds {w : World} {actions : List (String × Action)}
    (hw : WorldBounds w) : WorldBounds (resolve_sanctions w actions) := by
  obtain ⟨ha, hr⟩ := hw
  refine ⟨?_, hr⟩
  intro p hp
  simp only [resolve_sanctions, List.mem_map] at hp
  obtain ⟨q, hq, rfl⟩ := hp
  have h := ha q hq
  exact ⟨h.1, h.2.1, h.2.2⟩

theorem update_coalitions_bounds {w : World} {cooldown : ℤ} (hw : WorldBounds w) :
    WorldBounds (update_coalitions w cooldown) := by
  obtain ⟨ha, hr⟩ := hw
  refine ⟨?_, hr⟩
  intro p hp
  simp only [update_coalitions, List.mem_map] at hp
  obtain ⟨q, hq, rfl⟩ := hp
  have h := ha q hq
  split_ifs with h1 h2
  · exact h
  · exact ⟨h.1, h.2.1, h.2.2⟩
  · exact h

theorem update_trade_barriers_bounds {w : World} {actions : List (String × Action)}
    (hw : WorldBounds w) : WorldBounds (update_trade_barriers w actions) := by
  obtain ⟨ha, hr⟩ := hw
  refine ⟨ha, ?_⟩
  intro p hp q hq
  simp only [update_trade_barriers, List.mem_map] at hp
  obtain ⟨p0, hp0, hpeq⟩ := hp
  revert hpeq
  cases alookup w.agents p0.1 with
  | none =>
    intro hpeq
    subst hpeq
    exact hr p0 hp0 q hq
  | some actor =>
    intro hpeq
    subst hpeq
    simp only [List.mem_map] at hq
    obtain ⟨q0, hq0, hqeq⟩ := hq
    have hrb := hr p0 hp0 q0 hq0
    revert hqeq
    cases alookup w.agents q0.1 with
    | none =>
      intro hqeq
      subst hqeq
      exact hrb
    | some tgt =>
      intro hqeq
      subst hqeq
      exact ⟨hrb.1, hrb.2.1, hrb.2.2.1, hrb.2.2.2.1, clamp01_nonneg _, clamp01_le_one _⟩

theorem apply_sanctions_effects_bounds {T : TransOps} {w : World}
    (hw : WorldBounds w) : WorldBounds (apply_sanctions_effects T w) := by
  unfold apply_sanctions_effects
  refine foldl_bounds (P := WorldBounds) ?_ _ _
    (foldl_bounds (P := WorldBounds) ?_ _ _ hw)
  · intro w' tid hw'
    dsimp only
    split_ifs with hcount
    · exact hw'
    · refine update_agent_bounds hw' ?_
      intro a hab
      exact ⟨⟨clamp01_nonneg _, clamp01_le_one _, clamp01_nonneg _, clamp01_le_one _,
        hab.1.2.2.2.2.1, hab.1.2.2.2.2.2⟩, hab.2.1, hab.2.2⟩
  · intro w' e hw'
    obtain ⟨aid, tid, ty⟩ := e
    cases ty with
    | none => exact hw'
    | mild =>
      refine update_rel_bounds hw' ?_
      intro r hrb
      exact ⟨(mem01_mul ⟨hrb.1, hrb.2.1⟩ (by norm_num)).1,
        (mem01_mul ⟨hrb.1, hrb.2.1⟩ (by norm_num)).2,
        hrb.2.2.1, hrb.2.2.2.1,
        (mem01_min_one_add hrb.2.2.2.2.1 (by norm_num)).1,
        (mem01_min_one_add hrb.2.2.2.2.1 (by norm_num)).2⟩
    | strong =>
      refine update_agent_bounds (update_rel_bounds hw' ?_) ?_
      · intro r hrb
        exact ⟨(mem01_mul ⟨hrb.1, hrb.2.1⟩ (by norm_num)).1,
          (mem01_mul ⟨hrb.1, hrb.2.1⟩ (by norm_num)).2,
          hrb.2.2.1, hrb.2.2.2.1,
          (mem01_min_one_add hrb.2.2.2.2.1 (by norm_num)).1,
          (mem01_min_one_add hrb.2.2.2.2.1 (by norm_num)).2⟩
      · intro a hab
        exact ⟨hab.1, hab.2.1, hab.2.2⟩

theorem apply_trade_barrier_effects_bounds {w : World} (hw : WorldBounds w) :
    WorldBounds (apply_trade_barrier_effects w) := by
  obtain ⟨ha, hr⟩ := hw
  refine ⟨ha, ?_⟩
  intro p hp q hq
  simp only [apply_trade_barrier_effects, List.mem_map] at hp
  obtain ⟨p0, hp0, hpeq⟩ := hp
  revert hpeq
  cases alookup w.agents p0.1 with
  | none =>
    intro hpeq
    subst hpeq
    exact hr p0 hp0 q hq
  | some actor =>
    intro hpeq
    subst hpeq
    simp only [List.mem_map] at hq
    obtain ⟨q0, hq0, hqeq⟩ := hq
    have hrb := hr p0 hp0 q0 hq0
    revert hqeq
    cases alookup w.agents q0.1 with
    | none =>
      intro hqeq
      subst hqeq
      exact hrb
    | some tgt =>
      intro hqeq
      subst hqeq
      exact hrb

theorem update_relations_endogenous_bounds {w : World} (hw : WorldBounds w) :
    WorldBounds (update_relations_endogenous w) := by
  obtain ⟨ha, hr⟩ := hw
  refine ⟨ha, ?_⟩
  intro p hp q hq
  simp only [update_relations_endogenous, List.mem_map] at hp
  obtain ⟨p0, hp0, hpeq⟩ := hp
  revert hpeq
  cases alookup w.agents p0.1 with
  | none =>
    intro hpeq
    subst hpeq
    exact hr p0 hp0 q hq
  | some actor =>
    intro hpeq
    subst hpeq
    simp only [List.mem_map] at hq
    obtain ⟨q0, hq0, hqeq⟩ := hq
    have hrb := hr p0 hp0 q0 hq0
    revert hqeq
    cases alookup w.agents q0.1 with
    | none =>
      intro hqeq
      subst hqeq
      exact hrb
    | some tgt =>
      intro hqeq
      subst hqeq
      exact ⟨clamp01_nonneg _, clamp01_le_one _, clamp01_nonneg _, clamp01_le_one _,
        hrb.2.2.2.2.1, hrb.2.2.2.2.2⟩

/-- The bounded fields touched by the war pair body. -/
def WarPairBounds (x : WarAgent × WarAgent × WarRelation × WarRelation) : Prop :=
  (0 ≤ x.1.tension ∧ x.1.tension ≤ 1) ∧
  (0 ≤ x.1.trust ∧ x.1.trust ≤ 1) ∧
  (0 ≤ x.2.1.tension ∧ x.2.1.tension ≤ 1) ∧
  (0 ≤ x.2.1.trust ∧ x.2.1.trust ≤ 1) ∧
  (0 ≤ x.2.2.1.trust ∧ x.2.2.1.trust ≤ 1) ∧
  (0 ≤ x.2.2.1.conflict_level ∧ x.2.2.1.conflict_level ≤ 1) ∧
  (0 ≤ x.2.2.2.trust ∧ x.2.2.2.trust ≤ 1) ∧
  (0 ≤ x.2.2.2.conflict_level ∧ x.2.2.2.conflict_level ≤ 1)

theorem war_pair_resolve_bounds {a t : WarAgent} {r1 r2 : WarRelation}
    (h : WarPairBounds (a, t, r1, r2)) :
    WarPairBounds (war_pair_resolve a t r1 r2) := by
  obtain ⟨h1, h2, h3, h4, h5, h6, h7, h8⟩ := h
  unfold war_pair_resolve war_reset
  dsimp only
  split_ifs with hex hboth hae
  · exact ⟨⟨(mem01_min_one_add h1.1 (by norm_num)).1,
      (mem01_min_one_add h1.1 (by norm_num)).2⟩,
      ⟨(mem01_max_zero_sub h2.2 (by norm_num)).1,
       (mem01_max_zero_sub h2.2 (by norm_num)).2⟩,
      ⟨(mem01_min_one_add h3.1 (by norm_num)).1,
       (mem01_min_one_add h3.1 (by norm_num)).2⟩,
      ⟨(mem01_max_zero_sub h4.2 (by norm_num)).1,
       (mem01_max_zero_sub h4.2 (by norm_num)).2⟩,
      mem01_mul h5 (by norm_num), ⟨by norm_num, by norm_num⟩,
      mem01_mul h7 (by norm_num), ⟨by norm_num, by norm_num⟩⟩
  · exact ⟨⟨(mem01_min_one_add h1.1 (by norm_num)).1,
      (mem01_min_one_add h1.1 (by norm_num)).2⟩,
      ⟨(mem01_max_zero_sub h2.2 (by norm_num)).1,
       (mem01_max_zero_sub h2.2 (by norm_num)).2⟩,
      ⟨(mem01_max_zero_sub h3.2 (by norm_num)).1,
       (mem01_max_zero_sub h3.2 (by norm_num)).2⟩,
      ⟨clamp01_nonneg _, clamp01_le_one _⟩,
      mem01_mul h5 (by norm_num), ⟨by norm_num, by norm_num⟩,
      mem01_mul h7 (by norm_num), ⟨by norm_num, by norm_num⟩⟩
  · exact ⟨⟨(mem01_max_zero_sub h1.2 (by norm_num)).1,
      (mem01_max_zero_sub h1.2 (by norm_num)).2⟩,
      ⟨clamp01_nonneg _, clamp01_le_one _⟩,
      ⟨(mem01_min_one_add h3.1 (by norm_num)).1,
       (mem01_min_one_add h3.1 (by norm_num)).2⟩,
      ⟨(mem01_max_zero_sub h4.2 (by norm_num)).1,
       (mem01_max_zero_sub h4.2 (by norm_num)).2⟩,
      mem01_mul h5 (by norm_num), ⟨by norm_num, by norm_num⟩,
      mem01_mul h7 (by norm_num), ⟨by norm_num, by norm_num⟩⟩
  · exact ⟨h1, h2, h3, h4, h5, h6, h7, h8⟩

theorem war_pair_mid_bounds {a t : WarAgent} {r1 r2 : WarRelation}
    (h : WarPairBounds (a, t, r1, r2)) :
    WarPairBounds (war_pair_mid a t r1 r2) := by
  obtain ⟨h1, h2, h3, h4, h5, h6, h7, h8⟩ := h
  unfold war_pair_mid ensure_war_start
  dsimp only
  split_ifs <;> exact ⟨h1, h2, h3, h4, h5, h6, h7, h8⟩

theorem update_conflict_pair_bounds {a t : WarAgent} {r1 r2 : WarRelation}
    (h : WarPairBounds (a, t, r1, r2)) :
    WarPairBounds (update_conflict_pair a t r1 r2) := by
  unfold update_conflict_pair
  split_ifs with hwar
  · exact war_pair_resolve_bounds (war_pair_mid_bounds h)
  · exact h

theorem alookup_rel_bounds {w : World} {aid tid : String} {r : Relation}
    (hr : ∀ p ∈ w.relations, ∀ q ∈ p.2, RelBounds q.2)
    (h : (alookup w.relations aid >>= fun x => alookup x tid) = some r) :
    RelBounds r := by
  cases hrow : alookup w.relations aid with
  | none => rw [hrow] at h; cases h
  | some row =>
    rw [hrow] at h
    have h2 : alookup row tid = some r := h
    obtain ⟨p, hp, hp2⟩ := alookup_mem hrow
    obtain ⟨q, hq, hq2⟩ := alookup_mem h2
    have := hr p hp q (by rw [hp2]; exact hq)
    rw [hq2] at this
    exact this

theorem alookup_agent_bounds {w : World} {aid : String} {a : Agent}
    (ha : ∀ p ∈ w.agents, AgentBounds p.2)
    (h : alookup w.agents aid = some a) : AgentBounds a := by
  obtain ⟨q, hq, hq2⟩ := alookup_mem h
  rw [← hq2]
  exact ha q hq

theorem update_active_conflicts_bounds {w : World} (hw : WorldBounds w) :
    WorldBounds (update_active_conflicts w) := by
  unfold update_active_conflicts
  refine foldl_bounds (P := WorldBounds) ?_ _ _ hw
  intro w' pr hw'
  dsimp only
  split
  · next rat rta actor target heq1 heq2 heq3 heq4 =>
    have hab := alookup_agent_bounds hw'.1 heq3
    have htb := alookup_agent_bounds hw'.1 heq4
    have hr1 := alookup_rel_bounds hw'.2 heq1
    have hr2 := alookup_rel_bounds hw'.2 heq2
    have hres := @update_conflict_pair_bounds
      (to_war_agent actor) (to_war_agent target)
      (to_war_rel rat) (to_war_rel rta)
      ⟨⟨hab.1.2.2.1, hab.1.2.2.2.1⟩, ⟨hab.1.1, hab.1.2.1⟩,
       ⟨htb.1.2.2.1, htb.1.2.2.2.1⟩, ⟨htb.1.1, htb.1.2.1⟩,
       ⟨hr1.1, hr1.2.1⟩, ⟨hr1.2.2.1, hr1.2.2.2.1⟩,
       ⟨hr2.1, hr2.2.1⟩, ⟨hr2.2.2.1, hr2.2.2.2.1⟩⟩
    obtain ⟨g1, g2, g3, g4, g5, g6, g7, g8⟩ := hres
    refine update_rel_bounds (update_rel_bounds
      (update_agent_bounds (update_agent_bounds hw' ?_) ?_) ?_) ?_
    · intro a' ha'
      exact ⟨⟨g2.1, g2.2, g1.1, g1.2, ha'.1.2.2.2.2.1, ha'.1.2.2.2.2.2⟩,
        ha'.2.1, ha'.2.2⟩
    · intro a' ha'
      exact ⟨⟨g4.1, g4.2, g3.1, g3.2, ha'.1.2.2.2.2.1, ha'.1.2.2.2.2.2⟩,
        ha'.2.1, ha'.2.2⟩
    · intro r hrb
      exact ⟨g5.1, g5.2, g6.1, g6.2, hrb.2.2.2.2.1, hrb.2.2.2.2.2⟩
    · intro r hrb
      exact ⟨g7.1, g7.2, g8.1, g8.2, hrb.2.2.2.2.1, hrb.2.2.2.2.2⟩
  · exact hw'

theorem ensure_war_start_rel_bounds {r : Relation} (a : Agent) (h : RelBounds r) :
    RelBounds (ensure_war_start_rel r a) := by
  unfold ensure_war_start_rel
  split_ifs <;> exact h

theorem sec_exercise_rel_bounds {r : Relation} (h : RelBounds r) :
    RelBounds { r with
      conflict_level := min 1 (r.conflict_level + 0.05), trust := r.trust * 0.98 } :=
  ⟨(mem01_mul ⟨h.1, h.2.1⟩ (by norm_num)).1,
   (mem01_mul ⟨h.1, h.2.1⟩ (by norm_num)).2,
   (mem01_min_one_add h.2.2.1 (by norm_num)).1,
   (mem01_min_one_add h.2.2.1 (by norm_num)).2,
   h.2.2.2.2.1, h.2.2.2.2.2⟩

theorem sec_conflict_bump_rel_bounds {r : Relation} {d : ℚ} (hd : 0 ≤ d)
    (h : RelBounds r) :
    RelBounds { r with conflict_level := min 1 (r.conflict_level + d) } :=
  ⟨h.1, h.2.1, (mem01_min_one_add h.2.2.1 hd).1, (mem01_min_one_add h.2.2.1 hd).2,
   h.2.2.2.2.1, h.2.2.2.2.2⟩

theorem sec_hit_agent_bounds {a : Agent} {d e : ℚ} (hd : 0 ≤ d) (he : 0 ≤ e)
    (ha : AgentBounds a) :
    SocietyBounds { a.society with
      social_tension := min 1 (a.society.social_tension + d)
      trust_gov := max 0 (a.society.trust_gov - e) } :=
  ⟨(mem01_max_zero_sub ha.1.2.1 he).1, (mem01_max_zero_sub ha.1.2.1 he).2,
   (mem01_min_one_add ha.1.2.2.1 hd).1, (mem01_min_one_add ha.1.2.2.1 hd).2,
   ha.1.2.2.2.2.1, ha.1.2.2.2.2.2⟩

theorem apply_security_with_bounds (aid : String)
    (sec : SecActionType × Option String) {w : World} (hw : WorldBounds w) :
    WorldBounds (apply_security_with w aid sec) := by
  unfold apply_security_with
  dsimp only
  split
  · exact hw
  split
  · exact hw
  next tid =>
  split
  next actor target heqA heqT =>
    split
    next rel_at rel_ta heq1 heq2 =>
      split
      · exact hw
      · -- military exercise
        exact update_rel_bounds (update_rel_bounds hw
          fun r hr => sec_exercise_rel_bounds hr)
          fun r hr => sec_exercise_rel_bounds hr
      · -- arms buildup
        refine update_rel_bounds (update_rel_bounds (update_agent_bounds hw ?_) ?_) ?_
        · intro a ha; exact ha
        · intro r hr; exact sec_conflict_bump_rel_bounds (by norm_num) hr
        · intro r hr; exact sec_conflict_bump_rel_bounds (by norm_num) hr
      · -- border incident
        refine update_agent_bounds (update_agent_bounds
          (update_rel_bounds (update_rel_bounds hw ?_) ?_) ?_) ?_
        · intro r hr; exact sec_conflict_bump_rel_bounds (by norm_num) hr
        · intro r hr; exact sec_conflict_bump_rel_bounds (by norm_num) hr
        · intro a ha
          exact ⟨sec_hit_agent_bounds (by norm_num) (by norm_num) ha, ha.2.1, ha.2.2⟩
        · intro a ha
          exact ⟨sec_hit_agent_bounds (by norm_num) (by norm_num) ha, ha.2.1, ha.2.2⟩
      · -- open conflict
        split
        next actor' target' heqA2 heqT2 =>
          refine update_rel_bounds (update_rel_bounds (update_rel_bounds
            (update_rel_bounds (update_agent_bounds (update_agent_bounds
            (update_agent_bounds (update_agent_bounds hw ?_) ?_) ?_) ?_) ?_) ?_) ?_) ?_
          · intro a ha; exact ha
          · intro a ha; exact ha
          · intro a ha
            exact ⟨sec_hit_agent_bounds (by norm_num) (by norm_num) ha, ha.2.1, ha.2.2⟩
          · intro a ha
            exact ⟨sec_hit_agent_bounds (by norm_num) (by norm_num) ha, ha.2.1, ha.2.2⟩
          · intro r hr
            exact ⟨(mem01_mul ⟨hr.1, hr.2.1⟩ (by norm_num)).1,
              (mem01_mul ⟨hr.1, hr.2.1⟩ (by norm_num)).2,
              (mem01_min_one_add hr.2.2.1 (by norm_num)).1,
              (mem01_min_one_add hr.2.2.1 (by norm_num)).2,
              hr.2.2.2.2.1, hr.2.2.2.2.2⟩
          · intro r hr
            exact ⟨(mem01_mul ⟨hr.1, hr.2.1⟩ (by norm_num)).1,
              (mem01_mul ⟨hr.1, hr.2.1⟩ (by norm_num)).2,
              (mem01_min_one_add hr.2.2.1 (by norm_num)).1,
              (mem01_min_one_add hr.2.2.1 (by norm_num)).2,
              hr.2.2.2.2.1, hr.2.2.2.2.2⟩
          · intro r hr; exact ensure_war_start_rel_bounds _ hr
          · intro r hr; exact ensure_war_start_rel_bounds _ hr
        all_goals
          refine update_rel_bounds (update_rel_bounds (update_agent_bounds
            (update_agent_bounds (update_agent_bounds (update_agent_bounds hw ?_)
            ?_) ?_) ?_) ?_) ?_
          · intro a ha; exact ha
          · intro a ha; exact ha
          · intro a ha
            exact ⟨sec_hit_agent_bounds (by norm_num) (by norm_num) ha, ha.2.1, ha.2.2⟩
          · intro a ha
            exact ⟨sec_hit_agent_bounds (by norm_num) (by norm_num) ha, ha.2.1, ha.2.2⟩
          · intro r hr
            exact ⟨(mem01_mul ⟨hr.1, hr.2.1⟩ (by norm_num)).1,
              (mem01_mul ⟨hr.1, hr.2.1⟩ (by norm_num)).2,
              (mem01_min_one_add hr.2.2.1 (by norm_num)).1,
              (mem01_min_one_add hr.2.2.1 (by norm_num)).2,
              hr.2.2.2.2.1, hr.2.2.2.2.2⟩
          · intro r hr
            exact ⟨(mem01_mul ⟨hr.1, hr.2.1⟩ (by norm_num)).1,
              (mem01_mul ⟨hr.1, hr.2.1⟩ (by norm_num)).2,
              (mem01_min_one_add hr.2.2.1 (by norm_num)).1,
              (mem01_min_one_add hr.2.2.1 (by norm_num)).2,
              hr.2.2.2.2.1, hr.2.2.2.2.2⟩
    all_goals exact hw
  all_goals exact hw

theorem apply_one_security_action_bounds (roll_sec : String → ℚ) (act : Action)
    {w : World} (hw : WorldBounds w) :
    WorldBounds (apply_one_security_action roll_sec w act) :=
  apply_security_with_bounds act.agent_id _ hw

theorem apply_security_actions_bounds (roll_sec : String → ℚ)
    (actions : List (String × Action)) {w : World} (hw : WorldBounds w) :
    WorldBounds (apply_security_actions roll_sec w actions) := by
  unfold apply_security_actions
  exact foldl_bounds (fun x b hx => apply_one_security_action_bounds roll_sec b hx)
    _ _ hw

theorem apply_fuel_tax_bounds (delta : ℚ) {a : Agent} (ha : AgentBounds a) :
    AgentBounds (apply_fuel_tax a delta) := by
  unfold apply_fuel_tax
  split
  · exact ⟨⟨clamp01_nonneg _, clamp01_le_one _, clamp01_nonneg _, clamp01_le_one _,
      ha.1.2.2.2.2.1, ha.1.2.2.2.2.2⟩, ha.2.1, ha.2.2⟩
  · exact ha

theorem apply_social_spending_bounds (delta : ℚ) {a : Agent} (ha : AgentBounds a) :
    AgentBounds (apply_social_spending a delta) := by
  unfold apply_social_spending
  split
  · exact ⟨⟨clamp01_nonneg _, clamp01_le_one _, clamp01_nonneg _, clamp01_le_one _,
      ha.1.2.2.2.2.1, ha.1.2.2.2.2.2⟩, ha.2.1, ha.2.2⟩
  · exact ha

theorem apply_military_spending_bounds (delta : ℚ) {a : Agent} (ha : AgentBounds a) :
    AgentBounds (apply_military_spending a delta) := by
  unfold apply_military_spending
  split
  · exact ⟨⟨clamp01_nonneg _, clamp01_le_one _, ha.1.2.2.1, ha.1.2.2.2.1,
      ha.1.2.2.2.2.1, ha.1.2.2.2.2.2⟩, ha.2.1, ha.2.2⟩
  · exact ha

theorem apply_rd_investment_bounds (T : TransOps) (delta : ℚ) {a : Agent}
    (ha : AgentBounds a) : AgentBounds (apply_rd_investment T a delta) := by
  unfold apply_rd_investment
  split <;> exact ha

theorem climate_intensity_nonneg (policy : String) :
    0 ≤ (if policy = "weak" then (0.01 : ℚ)
      else if policy = "moderate" then 0.03
      else if policy = "strong" then 0.07 else 0) := by
  split_ifs <;> norm_num

theorem climate_tension_bounds {t risk se i : ℚ} (ht : 0 ≤ t ∧ t ≤ 1) (hi : 0 ≤ i) :
    0 ≤ (if 0.5 < risk ∧ 0.5 < se then max 0 (t - 0.01 * i * se) else t) ∧
    (if 0.5 < risk ∧ 0.5 < se then max 0 (t - 0.01 * i * se) else t) ≤ 1 := by
  split_ifs with hc
  · constructor
    · exact le_max_left _ _
    · refine max_le (by norm_num) ?_
      have hn : (0:ℚ) ≤ 0.01 * i * se := by nlinarith [hc.2]
      linarith [ht.2]
  · exact ht

theorem apply_climate_policy_bounds (policy : String) {a : Agent}
    (ha : AgentBounds a) : AgentBounds (apply_climate_policy a policy) := by
  unfold apply_climate_policy
  split
  · have hc := @climate_tension_bounds a.society.social_tension
      a.climate.climate_risk
      (a.culture.survival_self_expression / 10)
      (if policy = "weak" then (0.01:ℚ)
        else if policy = "moderate" then 0.03
        else if policy = "strong" then 0.07 else 0)
      ⟨ha.1.2.2.1, ha.1.2.2.2.1⟩ (climate_intensity_nonneg policy)
    exact ⟨⟨clamp01_nonneg _, clamp01_le_one _, hc.1, hc.2,
      ha.1.2.2.2.2.1, ha.1.2.2.2.2.2⟩, ha.2.1, ha.2.2⟩
  · exact ha

theorem apply_action_bounds (T : TransOps) (act : Action) {w : World}
    (hw : WorldBounds w) : WorldBounds (apply_action T w act).1 := by
  unfold apply_action
  split
  · exact hw
  next a heq =>
    dsimp only
    refine update_agent_bounds hw ?_
    intro a0 ha0
    exact apply_climate_policy_bounds _ (apply_rd_investment_bounds T _
      (apply_military_spending_bounds _ (apply_social_spending_bounds _
      (apply_fuel_tax_bounds _ (alookup_agent_bounds hw.1 heq)))))

theorem apply_actions_bounds (T : TransOps) (actions : List (String × Action))
    {w : World} (hw : WorldBounds w) :
    WorldBounds (apply_actions T w actions).1 := by
  unfold apply_actions
  refine foldl_bounds
    (P := fun acc : World × List (String × Action) => WorldBounds acc.1) ?_ _ _ hw
  intro acc p hacc
  exact apply_action_bounds T p.2 hacc

set_option maxHeartbeats 1000000 in
theorem apply_one_trade_deal_bounds (initiator_id : String) (deal : TradeDeal)
    {w : World} (hw : WorldBounds w) :
    WorldBounds (apply_one_trade_deal w initiator_id deal) := by
  unfold apply_one_trade_deal
  dsimp only
  repeat' split
  all_goals first
    | exact hw
    | (refine update_rel_bounds (update_rel_bounds (update_agent_bounds
        (update_agent_bounds hw ?_) ?_) ?_) ?_ <;> intro x hx <;> exact hx)

theorem reset_net_exports_bounds {w : World} (hw : WorldBounds w) :
    WorldBounds (reset_net_exports w) := by
  refine ⟨?_, hw.2⟩
  intro p hp
  obtain ⟨q, hq, rfl⟩ := List.mem_map.mp hp
  exact hw.1 q hq

theorem redistribute_residual_bounds {w : World} (hw : WorldBounds w) :
    WorldBounds (redistribute_residual w) := by
  unfold redistribute_residual
  dsimp only
  repeat' split
  all_goals first
    | exact hw
    | (refine ⟨?_, hw.2⟩
       intro p hp
       obtain ⟨q, hq, rfl⟩ := List.mem_map.mp hp
       exact hw.1 q.1 (List.of_mem_zip hq).1)

theorem apply_trade_deals_bounds (actions : List (String × Action)) {w : World}
    (hw : WorldBounds w) : WorldBounds (apply_trade_deals w actions) := by
  unfold apply_trade_deals
  refine redistribute_residual_bounds (foldl_bounds (P := WorldBounds) ?_ _ _
    (reset_net_exports_bounds hw))
  intro x p hx
  exact foldl_bounds (P := WorldBounds)
    (fun y d hy => apply_one_trade_deal_bounds p.1 d hy) _ _ hx

theorem resolve_foreign_policy_bounds {w : World} {actions : List (String × Action)}
    (hw : WorldBounds w) : WorldBounds (resolve_foreign_policy w actions) :=
  update_coalitions_bounds (update_trade_barriers_bounds (resolve_sanctions_bounds hw))

theorem update_resource_stocks_bounds (T : TransOps)
    (alloc : List (String × (ℚ × ℚ))) {w : World} (hw : WorldBounds w) :
    WorldBounds (update_resource_stocks T w alloc) := by
  unfold update_resource_stocks
  dsimp only
  refine ⟨?_, hw.2⟩
  intro p hp
  obtain ⟨q, hq, rfl⟩ := List.mem_map.mp hp
  exact hw.1 q hq

theorem update_global_resource_prices_bounds {w : World} (hw : WorldBounds w) :
    WorldBounds (update_global_resource_prices w) := hw

theorem update_global_climate_bounds (T : TransOps) {w : World}
    (hw : WorldBounds w) : WorldBounds (update_global_climate T w) := by
  unfold update_global_climate
  dsimp only
  refine ⟨?_, hw.2⟩
  intro p hp
  obtain ⟨q, hq, rfl⟩ := List.mem_map.mp hp
  exact hw.1 q hq

theorem update_climate_risks_bounds (T : TransOps) {w : World}
    (hw : WorldBounds w) : WorldBounds (update_climate_risks T w) := by
  unfold update_climate_risks
  dsimp only
  refine ⟨?_, hw.2⟩
  intro p hp
  obtain ⟨q, hq, rfl⟩ := List.mem_map.mp hp
  have ha := hw.1 q hq
  exact ⟨ha.1, ⟨clamp01_nonneg _, clamp01_le_one _⟩, ha.2.2⟩

theorem climate_resilience_mem (a : Agent) :
    0 ≤ climate_resilience a ∧ climate_resilience a ≤ 1 := clamp01_mem _

theorem apply_climate_extreme_events_bounds (roll_evt : String → ℚ) {w : World}
    (hw : WorldBounds w) : WorldBounds (apply_climate_extreme_events roll_evt w) := by
  unfold apply_climate_extreme_events
  dsimp only
  refine ⟨?_, hw.2⟩
  intro p hp
  obtain ⟨q, hq, rfl⟩ := List.mem_map.mp hp
  have ha := hw.1 q hq
  have hres := climate_resilience_mem q.2
  split_ifs with h1 h2 h3
  · exact ha
  · exact ha
  · have hjump : (0:ℚ) ≤ (0.03 + 0.10 * q.2.climate.climate_risk)
        * (1 - 0.35 * climate_resilience q.2) :=
      mul_nonneg (by linarith [ha.2.1.1]) (by linarith [hres.2])
    exact ⟨⟨(mem01_min_one_add ha.1.1 (by linarith [hres.1])).1,
      (mem01_min_one_add ha.1.1 (by linarith [hres.1])).2,
      (mem01_min_one_add ha.1.2.2.1 hjump).1,
      (mem01_min_one_add ha.1.2.2.1 hjump).2,
      ha.1.2.2.2.2.1, ha.1.2.2.2.2.2⟩, ha.2.1, ha.2.2⟩
  · have hjump : (0:ℚ) ≤ (0.03 + 0.10 * q.2.climate.climate_risk)
        * (1 - 0.35 * climate_resilience q.2) :=
      mul_nonneg (by linarith [ha.2.1.1]) (by linarith [hres.2])
    exact ⟨⟨(mem01_max_zero_sub ha.1.2.1 (by linarith [ha.2.1.1])).1,
      (mem01_max_zero_sub ha.1.2.1 (by linarith [ha.2.1.1])).2,
      (mem01_min_one_add ha.1.2.2.1 hjump).1,
      (mem01_min_one_add ha.1.2.2.1 hjump).2,
      ha.1.2.2.2.2.1, ha.1.2.2.2.2.2⟩, ha.2.1, ha.2.2⟩

theorem update_economy_output_bounds {T : TransOps} {w : World} {aid : String}
    {a : Agent} (ha : AgentBounds a) :
    AgentBounds (update_economy_output T w aid a) := by
  unfold update_economy_output
  dsimp only
  split_ifs <;> exact ha

theorem economy_output_all_bounds (T : TransOps) {w : World} (hw : WorldBounds w) :
    WorldBounds (economy_output_all T w) := by
  unfold economy_output_all
  refine foldl_bounds (P := WorldBounds) ?_ _ _ hw
  intro w' aid hw'
  dsimp only
  split
  next a heq =>
    exact update_agent_bounds hw' fun x hx =>
      update_economy_output_bounds (alookup_agent_bounds hw'.1 heq)
  · exact hw'

theorem update_public_finances_bounds {w : World} {aid : String} {a : Agent}
    (ha : AgentBounds a) : AgentBounds (update_public_finances w aid a) := ha

theorem ite_agent_bounds {c : Prop} [Decidable c] {x y : Agent}
    (hx : AgentBounds x) (hy : AgentBounds y) :
    AgentBounds (if c then x else y) := by
  split_ifs with h
  · exact hx
  · exact hy

theorem check_debt_crisis_bounds {w : World} {aid : String} {a : Agent}
    (ha : AgentBounds a) : AgentBounds (check_debt_crisis w aid a) := by
  unfold check_debt_crisis
  dsimp only
  refine ite_agent_bounds (ite_agent_bounds ?_ ?_) ?_
  · exact ha
  · exact ⟨⟨(mem01_max_zero_sub ha.1.2.1 (by norm_num)).1,
      (mem01_max_zero_sub ha.1.2.1 (by norm_num)).2,
      (mem01_min_one_add ha.1.2.2.1 (by norm_num)).1,
      (mem01_min_one_add ha.1.2.2.1 (by norm_num)).2,
      ha.1.2.2.2.2.1, ha.1.2.2.2.2.2⟩, ha.2.1, ha.2.2⟩
  · exact ha

theorem finances_all_bounds {w : World} (hw : WorldBounds w) :
    WorldBounds (finances_all w) := by
  unfold finances_all
  refine foldl_bounds (P := WorldBounds) ?_ _ _ hw
  intro w' aid hw'
  dsimp only
  split
  next a heq =>
    have hbase : WorldBounds (update_agent w' aid
        fun _ => update_public_finances w' aid a) :=
      update_agent_bounds hw' fun x hx =>
        update_public_finances_bounds (alookup_agent_bounds hw'.1 heq)
    split
    next a2 heq2 =>
      exact update_agent_bounds hbase fun x hx =>
        check_debt_crisis_bounds (alookup_agent_bounds hbase.1 heq2)
    · exact hbase
  · exact hw'

theorem update_migration_flows_bounds {w : World} (hw : WorldBounds w) :
    WorldBounds (update_migration_flows w) := by
  unfold update_migration_flows
  dsimp only
  refine ⟨?_, hw.2⟩
  intro p hp
  obtain ⟨q, hq, rfl⟩ := List.mem_map.mp hp
  split_ifs <;> exact hw.1 q hq

theorem update_population_bounds (T : TransOps) {w : World} {a : Agent}
    (ha : AgentBounds a) : AgentBounds (update_population T w a) := ha

theorem update_social_state_bounds (act : Action) {a : Agent}
    (ha : AgentBounds a) : AgentBounds (update_social_state a act) :=
  ⟨⟨le_max_left _ _, max_le (by norm_num) (min_le_left _ _),
    le_max_left _ _, max_le (by norm_num) (min_le_left _ _),
    le_trans (by norm_num) (le_max_left _ _),
    max_le (by norm_num) ((min_le_left _ _).trans (by norm_num))⟩,
   ha.2.1, ha.2.2⟩

theorem check_regime_stability_bounds {a : Agent} (ha : AgentBounds a) :
    AgentBounds (check_regime_stability a) := by
  unfold check_regime_stability
  split_ifs with h1 h2
  · exact ha
  · exact ⟨⟨ha.1.1.trans (le_max_left _ _), max_le ha.1.2.1 (by norm_num),
      le_min ha.1.2.2.1 (by norm_num), (min_le_left _ _).trans ha.1.2.2.2.1,
      ha.1.2.2.2.2.1, ha.1.2.2.2.2.2⟩, ha.2.1, ha.2.2⟩
  · exact ha

theorem social_all_bounds (T : TransOps) (actions : List (String × Action))
    {w : World} (hw : WorldBounds w) : WorldBounds (social_all T actions w) := by
  unfold social_all
  refine ⟨?_, hw.2⟩
  intro p hp
  obtain ⟨q, hq, rfl⟩ := List.mem_map.mp hp
  have h0 : AgentBounds (update_population T w q.2) :=
    update_population_bounds T (hw.1 q hq)
  refine check_regime_stability_bounds ?_
  split
  · exact update_social_state_bounds _ h0
  · exact h0

theorem compute_relative_metrics_bounds {T : TransOps} {w : World}
    (hw : WorldBounds w) : WorldBounds (compute_relative_metrics T w) := by
  unfold compute_relative_metrics
  dsimp only
  refine ⟨?_, hw.2⟩
  intro p hp
  obtain ⟨q, hq, rfl⟩ := List.mem_map.mp hp
  exact hw.1 q hq

theorem ite_world_bounds {c : Prop} [Decidable c] {f : World → World}
    (hf : ∀ w, WorldBounds w → WorldBounds (f w)) {w : World}
    (hw : WorldBounds w) : WorldBounds (if c then f w else w) := by
  split_ifs with h
  · exact hf w hw
  · exact hw

theorem time_bump_bounds {w : World} (hw : WorldBounds w) :
    WorldBounds { w with time := w.time + 1 } := ⟨hw.1, hw.2⟩

/-- C1: for every transcendental-function oracle, institution builder, random
draw, action list and flag setting, a call to `step_world` preserves the
documented ranges of every bounded state field — `trust_gov`,
`social_tension`, `climate_risk` and all seven political traits in `[0,1]`,
`inequality_gini` in `[0,100]` for every agent, and `trust`, `conflict_level`,
`trade_barrier` in `[0,1]` for every directed relation. -/
theorem step_world_preserves_bounds (T : TransOps)
    (builder : World → List (String × Institution))
    (roll_sec roll_evt : String → ℚ) (raw_actions : List (String × Action))
    (e p i : Bool) {w : World} (hw : WorldBounds w) :
    WorldBounds (step_world T builder roll_sec roll_evt raw_actions e p i w) := by
  unfold step_world
  dsimp only
  exact time_bump_bounds (compute_relative_metrics_bounds (social_all_bounds _ _
    (update_migration_flows_bounds (finances_all_bounds (economy_output_all_bounds _
    (ite_world_bounds (fun _ h => apply_climate_extreme_events_bounds _ h)
    (update_climate_risks_bounds _ (update_global_climate_bounds _
    (update_global_resource_prices_bounds (update_resource_stocks_bounds _ _
    (update_relations_endogenous_bounds (apply_trade_deals_bounds _
    (apply_actions_bounds _ _ (apply_trade_barrier_effects_bounds
    (update_active_conflicts_bounds (apply_security_actions_bounds _ _
    (apply_sanctions_effects_bounds (resolve_foreign_policy_bounds
    (ite_world_bounds (fun _ h => update_institutions_bounds h)
    (update_political_states_bounds hw))))))))))))))))))))

/-- A concrete rational stand-in for the transcendental oracles. -/
def T0 : TransOps := ⟨fun _ => 1, fun _ => 0, fun _ _ => 1⟩

/-- A concrete in-range economy for the witness world. -/
def econ1 : EconomyState where
  gdp := 1
  capital := 3
  population := 100000000
  public_debt := 0.5
  fx_reserves := 0.2
  taxes := 0.22
  gov_spending := 0.3
  social_spending := 0.1
  military_spending := 0.02
  rd_spending := 0.01
  climate_adaptation_spending := 0.01
  climate_shock_years := 0
  climate_shock_penalty := 0
  interest_payments := 0.01
  net_exports := 0
  gdp_per_capita := 10000
  unemployment := 0.05
  inflation := 0.02
  birth_rate := 0.02
  death_rate := 0.01
  tfp := Option.none
  scale_factor := Option.none
  gdp_prev := Option.none
  gdp_share := 0
  gdp_rank := Option.none

/-- A concrete in-range agent for the witness world. -/
def agent1 : Agent where
  region := "X"
  economy := econ1
  resources := [("energy", ⟨10, 1, 1, 1⟩), ("food", ⟨10, 1, 1, 1⟩),
    ("metals", ⟨10, 1, 1, 1⟩)]
  society := ⟨0.6, 0.3, 35⟩
  climate := ⟨0.4, 1, 0.8⟩
  culture := ⟨50, 50, 50, 50, 5, "Democracy"⟩
  technology := ⟨1, 1, 0.6⟩
  risk := ⟨0.3, 0.7, 0.2, 0.2⟩
  alliance_block := "NonAligned"
  active_sanctions := []
  sanction_years := []
  political := ⟨0.6, 0.2, 0.3, 0.3, 0.5, 0.2, 0.5, -10⟩
  collapsed_flag := false
  debt_crisis_flag := false
  influence_score := 0
  security_margin := 1

/-- A concrete one-agent witness world with all bounded fields in range. -/
def world1 : World where
  time := 0
  agents := [("A", agent1)]
  global_state := ⟨2300, 1.3, 0.8, 1.0, 2, [25.2068, 25.984, 32.7584, 32.0508],
    10000, [("energy", 1), ("food", 1), ("metals", 1)],
    [("energy", 300), ("food", 100), ("metals", 100)]⟩
  relations := []
  institutions := []

theorem step_world_preserves_bounds_witness :
    WorldBounds world1 ∧
    WorldBounds (step_world T0 (fun _ => []) (fun _ => 0) (fun _ => 0) []
      true true true world1) := by
  have hw : WorldBounds world1 := by
    constructor
    · intro q hq
      simp only [world1, List.mem_singleton] at hq
      subst hq
      norm_num [AgentBounds, SocietyBounds, PoliticalBounds, agent1]
    · intro q hq
      simp [world1] at hq
  exact ⟨hw, step_world_preserves_bounds T0 (fun _ => []) (fun _ => 0)
    (fun _ => 0) [] true true true hw⟩

/-- A zero action: no domestic changes, no deals, no sanctions, no security
intent. -/
def zact (aid : String) : Action where
  agent_id := aid
  domestic_policy := ⟨0, 0, 0, 0, "none"⟩
  proposed_trade_deals := []
  sanctions_actions := []
  trade_restrictions := []
  security_type := SecActionType.none
  security_target := Option.none

/-- The zero action map for the two-agent world. -/
def c4_actions : List (String × Action) := [("A", zact "A"), ("B", zact "B")]

/-- The two identical agents of the C4 scenario, parameterized by initial
public debt. -/
def agent2 (debt : ℚ) : Agent :=
  { agent1 with
    economy := { econ1 with
      public_debt := debt
      fx_reserves := 0 }
    risk := ⟨0.3, 0.7, 0.9, 0.2⟩ }

/-- One symmetric relation edge of the C4 scenario. -/
def rel2 : Relation := ⟨0.5, 0.6, 0.1, 0.1, false, 0, 0, 0, 0⟩

/-- The symmetric two-agent world of the C4 scenario: identical agents,
mirror-image relations, and one FinanceOrg with both agents as members. -/
def world2D (debt : ℚ) : World :=
  { world1 with
    agents := [("A", agent2 debt), ("B", agent2 debt)]
    relations := [("A", [("B", rel2)]), ("B", [("A", rel2)])]
    institutions := [("IMF", ⟨"FinanceOrg", ["A", "B"], 0.65, 0, 0.0012⟩)] }

/-- The C4 scenario world: both agents start with public debt `1.47`. -/
def world2 : World := world2D (147/100)

/-- One `step_world` call on the C4 scenario: zero actions from both agents,
extreme events disabled, zero random draws. -/
def c4_post : World :=
  step_world T0 (fun _ => []) (fun _ => 0) (fun _ => 0) c4_actions
    false true true world2

/-- The fields claim C4 asserts to stay identical. -/
def c4_proj (a : Agent) : ℚ × ℚ × ℚ :=
  (a.economy.gdp, a.society.trust_gov, a.society.social_tension)

/-! ### Stage-by-stage evaluation of the C4 scenario.  Each `c4W_k` is the
exact world after the k-th group of `step_world` phases, computed over ℚ
with the `T0` oracles; the stage lemmas verify each group of phases
against the next literal. -/

/-- C4 scenario state W1. -/
def c4W1 : World :=
  ⟨0, [("A", ⟨"X", ⟨1, 3, 100000000, 3678933/2500000, 3933/2500000, 11/50, 3/10, 1/10, 1/50,
  1/100, 1/100, 0, 0, 1/100, 0, 10000, 1/20, 1/50, 1/50, 1/100, Option.none, Option.none,
  Option.none, 0, Option.none⟩, [("energy", ⟨10, 1, 1, 1⟩), ("food", ⟨10, 1, 1, 1⟩), ("metals",
  ⟨10, 1, 1, 1⟩)], ⟨3/5, 3/10, 35⟩, ⟨2/5, 1, 4/5⟩, ⟨50, 50, 50, 50, 5, "Democracy"⟩, ⟨1, 1,
  3/5⟩, ⟨3/10, 7/10, 9/10, 1/5⟩, "NonAligned", [], [], ⟨16/25, 2071/8000, 47/200, 49/200, 16/25,
  57/200, 57131/80000, (-10 : ℤ)⟩, false, false, 0, 1⟩), ("B", ⟨"X", ⟨1, 3, 100000000, 147/100,
  0, 11/50, 3/10, 1/10, 1/50, 1/100, 1/100, 0, 0, 1/100, 0, 10000, 1/20, 1/50, 1/50, 1/100,
  Option.none, Option.none, Option.none, 0, Option.none⟩, [("energy", ⟨10, 1, 1, 1⟩), ("food",
  ⟨10, 1, 1, 1⟩), ("metals", ⟨10, 1, 1, 1⟩)], ⟨3/5, 3/10, 35⟩, ⟨2/5, 1, 4/5⟩, ⟨50, 50, 50, 50,
  5, "Democracy"⟩, ⟨1, 1, 3/5⟩, ⟨3/10, 7/10, 9/10, 1/5⟩, "NonAligned", [], [], ⟨16/25,
  2071/8000, 47/200, 49/200, 16/25, 57/200, 57131/80000, (-10 : ℤ)⟩, false, false, 0, 1⟩)],
  ⟨2300, 13/10, 4/5, 1, 2, [63017/2500, 3248/125, 20474/625, 80127/2500], 10000, [("energy", 1),
  ("food", 1), ("metals", 1)], [("energy", 300), ("food", 100), ("metals", 100)]⟩, [("A", [("B",
  ⟨1/2, 3/5, 1/10, 1/10, false, 0, 0, 0, 0⟩)]), ("B", [("A", ⟨1/2, 3/5, 1/10, 1/10, false, 0, 0,
  0, 0⟩)])], [("IMF", ⟨"FinanceOrg", ["A", "B"], 1311/2000, 0, 3/2500⟩)]⟩

/-- C4 scenario state W2. -/
def c4W2 : World :=
  ⟨0, [("A", ⟨"X", ⟨1, 3, 100000000, 3678933/2500000, 3933/2500000, 11/50, 3/10, 1/10, 1/50,
  1/100, 1/100, 0, 0, 1/100, 0, 10000, 1/20, 1/50, 1/50, 1/100, Option.none, Option.none,
  Option.none, 0, Option.none⟩, [("energy", ⟨10, 1, 1, 1⟩), ("food", ⟨10, 1, 1, 1⟩), ("metals",
  ⟨10, 1, 1, 1⟩)], ⟨3/5, 3/10, 35⟩, ⟨2/5, 1, 4/5⟩, ⟨50, 50, 50, 50, 5, "Democracy"⟩, ⟨1, 1,
  3/5⟩, ⟨3/10, 7/10, 9/10, 1/5⟩, "NonAligned", [], [], ⟨16/25, 2071/8000, 47/200, 49/200, 16/25,
  57/200, 57131/80000, (-10 : ℤ)⟩, false, false, 0, 1⟩), ("B", ⟨"X", ⟨1, 3, 100000000, 147/100,
  0, 11/50, 3/10, 1/10, 1/50, 1/100, 1/100, 0, 0, 1/100, 0, 10000, 1/20, 1/50, 1/50, 1/100,
  Option.none, Option.none, Option.none, 0, Option.none⟩, [("energy", ⟨10, 1, 1, 1⟩), ("food",
  ⟨10, 1, 1, 1⟩), ("metals", ⟨10, 1, 1, 1⟩)], ⟨3/5, 3/10, 35⟩, ⟨2/5, 1, 4/5⟩, ⟨50, 50, 50, 50,
  5, "Democracy"⟩, ⟨1, 1, 3/5⟩, ⟨3/10, 7/10, 9/10, 1/5⟩, "NonAligned", [], [], ⟨16/25,
  2071/8000, 47/200, 49/200, 16/25, 57/200, 57131/80000, (-10 : ℤ)⟩, false, false, 0, 1⟩)],
  ⟨2300, 13/10, 4/5, 1, 2, [63017/2500, 3248/125, 20474/625, 80127/2500], 10000, [("energy", 1),
  ("food", 1), ("metals", 1)], [("energy", 300), ("food", 100), ("metals", 100)]⟩, [("A", [("B",
  ⟨1/2, 3/5, 1/10, 7/100, false, 0, 0, 0, 0⟩)]), ("B", [("A", ⟨1/2, 3/5, 1/10, 7/100, false, 0,
  0, 0, 0⟩)])], [("IMF", ⟨"FinanceOrg", ["A", "B"], 1311/2000, 0, 3/2500⟩)]⟩

/-- C4 scenario state W3. -/
def c4W3 : World :=
  ⟨0, [("A", ⟨"X", ⟨1, 3, 100000000, 3678933/2500000, 3933/2500000, 11/50, 3/10, 1/10, 1/50,
  1/100, 1/100, 0, 0, 1/100, 0, 10000, 1/20, 1/50, 1/50, 1/100, Option.none, Option.none,
  Option.none, 0, Option.none⟩, [("energy", ⟨10, 1, 1, 1⟩), ("food", ⟨10, 1, 1, 1⟩), ("metals",
  ⟨10, 1, 1, 1⟩)], ⟨3/5, 3/10, 35⟩, ⟨2/5, 1, 4/5⟩, ⟨50, 50, 50, 50, 5, "Democracy"⟩, ⟨1, 1,
  3/5⟩, ⟨3/10, 7/10, 9/10, 1/5⟩, "NonAligned", [], [], ⟨16/25, 2071/8000, 47/200, 49/200, 16/25,
  57/200, 57131/80000, (-10 : ℤ)⟩, false, false, 0, 1⟩), ("B", ⟨"X", ⟨1, 3, 100000000, 147/100,
  0, 11/50, 3/10, 1/10, 1/50, 1/100, 1/100, 0, 0, 1/100, 0, 10000, 1/20, 1/50, 1/50, 1/100,
  Option.none, Option.none, Option.none, 0, Option.none⟩, [("energy", ⟨10, 1, 1, 1⟩), ("food",
  ⟨10, 1, 1, 1⟩), ("metals", ⟨10, 1, 1, 1⟩)], ⟨3/5, 3/10, 35⟩, ⟨2/5, 1, 4/5⟩, ⟨50, 50, 50, 50,
  5, "Democracy"⟩, ⟨1, 1, 3/5⟩, ⟨3/10, 7/10, 9/10, 1/5⟩, "NonAligned", [], [], ⟨16/25,
  2071/8000, 47/200, 49/200, 16/25, 57/200, 57131/80000, (-10 : ℤ)⟩, false, false, 0, 1⟩)],
  ⟨2300, 13/10, 4/5, 1, 2, [63017/2500, 3248/125, 20474/625, 80127/2500], 10000, [("energy", 1),
  ("food", 1), ("metals", 1)], [("energy", 300), ("food", 100), ("metals", 100)]⟩, [("A", [("B",
  ⟨1973/4000, 3/5, 1/10, 7/100, false, 0, 0, 0, 0⟩)]), ("B", [("A", ⟨1973/4000, 3/5, 1/10,
  7/100, false, 0, 0, 0, 0⟩)])], [("IMF", ⟨"FinanceOrg", ["A", "B"], 1311/2000, 0, 3/2500⟩)]⟩

/-- C4 scenario state W4. -/
def c4W4 : World :=
  ⟨0, [("A", ⟨"X", ⟨1, 3, 100000000, 3678933/2500000, 3933/2500000, 11/50, 3/10, 1/10, 1/50,
  1/100, 1/100, 0, 0, 1/100, 0, 10000, 1/20, 1/50, 1/50, 1/100, Option.none, Option.none,
  Option.none, 0, Option.none⟩, [("energy", ⟨10, 1, 1, 1⟩), ("food", ⟨10, 1, 1, 1⟩), ("metals",
  ⟨10, 1, 1, 1⟩)], ⟨3/5, 3/10, 35⟩, ⟨2/5, 1, 4/5⟩, ⟨50, 50, 50, 50, 5, "Democracy"⟩, ⟨1, 1,
  3/5⟩, ⟨3/10, 7/10, 9/10, 1/5⟩, "NonAligned", [], [], ⟨16/25, 2071/8000, 47/200, 49/200, 16/25,
  57/200, 57131/80000, (-10 : ℤ)⟩, false, false, 0, 1⟩), ("B", ⟨"X", ⟨1, 3, 100000000, 147/100,
  0, 11/50, 3/10, 1/10, 1/50, 1/100, 1/100, 0, 0, 1/100, 0, 10000, 1/20, 1/50, 1/50, 1/100,
  Option.none, Option.none, Option.none, 0, Option.none⟩, [("energy", ⟨10, 1, 1, 1⟩), ("food",
  ⟨10, 1, 1, 1⟩), ("metals", ⟨10, 1, 1, 1⟩)], ⟨3/5, 3/10, 35⟩, ⟨2/5, 1, 4/5⟩, ⟨50, 50, 50, 50,
  5, "Democracy"⟩, ⟨1, 1, 3/5⟩, ⟨3/10, 7/10, 9/10, 1/5⟩, "NonAligned", [], [], ⟨16/25,
  2071/8000, 47/200, 49/200, 16/25, 57/200, 57131/80000, (-10 : ℤ)⟩, false, false, 0, 1⟩)],
  ⟨2300, 13/10, 4/5, 1, 2, [63017/2500, 3248/125, 20474/625, 80127/2500], 10000, [("energy", 1),
  ("food", 1), ("metals", 1)], [("energy", 300), ("food", 100), ("metals", 100)]⟩, [("A", [("B",
  ⟨1973/4000, 3/5, 1/10, 7/100, false, 0, 0, 0, 0⟩)]), ("B", [("A", ⟨1973/4000, 3/5, 1/10,
  7/100, false, 0, 0, 0, 0⟩)])], [("IMF", ⟨"FinanceOrg", ["A", "B"], 1311/2000, 0, 3/2500⟩)]⟩

/-- C4 scenario state W5. -/
def c4W5 : World :=
  ⟨0, [("A", ⟨"X", ⟨1, 3, 100000000, 3678933/2500000, 3933/2500000, 11/50, 3/10, 1/10, 1/50,
  1/100, 1/100, 0, 0, 1/100, 0, 10000, 1/20, 1/50, 1/50, 1/100, Option.none, Option.none,
  Option.none, 0, Option.none⟩, [("energy", ⟨10, 1, 1, 1⟩), ("food", ⟨10, 1, 1, 1⟩), ("metals",
  ⟨10, 1, 1, 1⟩)], ⟨3/5, 3/10, 35⟩, ⟨2/5, 1, 4/5⟩, ⟨50, 50, 50, 50, 5, "Democracy"⟩, ⟨1, 1,
  3/5⟩, ⟨3/10, 7/10, 9/10, 1/5⟩, "NonAligned", [], [], ⟨16/25, 2071/8000, 47/200, 49/200, 16/25,
  57/200, 57131/80000, (-10 : ℤ)⟩, false, false, 0, 1⟩), ("B", ⟨"X", ⟨1, 3, 100000000, 147/100,
  0, 11/50, 3/10, 1/10, 1/50, 1/100, 1/100, 0, 0, 1/100, 0, 10000, 1/20, 1/50, 1/50, 1/100,
  Option.none, Option.none, Option.none, 0, Option.none⟩, [("energy", ⟨10, 1, 1, 1⟩), ("food",
  ⟨10, 1, 1, 1⟩), ("metals", ⟨10, 1, 1, 1⟩)], ⟨3/5, 3/10, 35⟩, ⟨2/5, 1, 4/5⟩, ⟨50, 50, 50, 50,
  5, "Democracy"⟩, ⟨1, 1, 3/5⟩, ⟨3/10, 7/10, 9/10, 1/5⟩, "NonAligned", [], [], ⟨16/25,
  2071/8000, 47/200, 49/200, 16/25, 57/200, 57131/80000, (-10 : ℤ)⟩, false, false, 0, 1⟩)],
  ⟨2300, 13/10, 4/5, 1, 2, [63017/2500, 3248/125, 20474/625, 80127/2500], 10000, [("energy", 1),
  ("food", 1), ("metals", 1)], [("energy", 300), ("food", 100), ("metals", 100)]⟩, [("A", [("B",
  ⟨1973/4000, 1156053/2000000, 12407/100000, 7/100, false, 0, 0, 0, 0⟩)]), ("B", [("A",
  ⟨1973/4000, 1156053/2000000, 12407/100000, 7/100, false, 0, 0, 0, 0⟩)])], [("IMF",
  ⟨"FinanceOrg", ["A", "B"], 1311/2000, 0, 3/2500⟩)]⟩

/-- C4 scenario state W6. -/
def c4W6 : World :=
  ⟨0, [("A", ⟨"X", ⟨1, 3, 100000000, 3678933/2500000, 3933/2500000, 11/50, 3/10, 1/10, 1/50,
  1/100, 1/100, 0, 0, 1/100, 0, 10000, 1/20, 1/50, 1/50, 1/100, Option.none, Option.none,
  Option.none, 0, Option.none⟩, [("energy", ⟨391/40, 13/40, 1, 1⟩), ("food", ⟨51/5, 1, 1, 1⟩),
  ("metals", ⟨181/20, 29/20, 1, 1⟩)], ⟨3/5, 3/10, 35⟩, ⟨2/5, 1, 4/5⟩, ⟨50, 50, 50, 50, 5,
  "Democracy"⟩, ⟨1, 1, 3/5⟩, ⟨3/10, 7/10, 9/10, 1/5⟩, "NonAligned", [], [], ⟨16/25, 2071/8000,
  47/200, 49/200, 16/25, 57/200, 57131/80000, (-10 : ℤ)⟩, false, false, 0, 1⟩), ("B", ⟨"X", ⟨1,
  3, 100000000, 147/100, 0, 11/50, 3/10, 1/10, 1/50, 1/100, 1/100, 0, 0, 1/100, 0, 10000, 1/20,
  1/50, 1/50, 1/100, Option.none, Option.none, Option.none, 0, Option.none⟩, [("energy",
  ⟨391/40, 13/40, 1, 1⟩), ("food", ⟨51/5, 1, 1, 1⟩), ("metals", ⟨181/20, 29/20, 1, 1⟩)], ⟨3/5,
  3/10, 35⟩, ⟨2/5, 1, 4/5⟩, ⟨50, 50, 50, 50, 5, "Democracy"⟩, ⟨1, 1, 3/5⟩, ⟨3/10, 7/10, 9/10,
  1/5⟩, "NonAligned", [], [], ⟨16/25, 2071/8000, 47/200, 49/200, 16/25, 57/200, 57131/80000,
  (-10 : ℤ)⟩, false, false, 0, 1⟩)], ⟨2300, 13/10, 4/5, 1, 2, [63017/2500, 3248/125, 20474/625,
  80127/2500], 10000, [("energy", 284167/216667), ("food", 1), ("metals", 921667/966667)],
  [("energy", 6047/20), ("food", 100), ("metals", 197/2)]⟩, [("A", [("B", ⟨1973/4000,
  1156053/2000000, 12407/100000, 7/100, false, 0, 0, 0, 0⟩)]), ("B", [("A", ⟨1973/4000,
  1156053/2000000, 12407/100000, 7/100, false, 0, 0, 0, 0⟩)])], [("IMF", ⟨"FinanceOrg", ["A",
  "B"], 1311/2000, 0, 3/2500⟩)]⟩

/-- C4 scenario state W7. -/
def c4W7 : World :=
  ⟨0, [("A", ⟨"X", ⟨1, 3, 100000000, 3678933/2500000, 3933/2500000, 11/50, 3/10, 1/10, 1/50,
  1/100, 1/100, 0, 0, 1/100, 0, 10000, 1/20, 1/50, 1/50, 1/100, Option.none, Option.none,
  Option.none, 0, Option.none⟩, [("energy", ⟨391/40, 13/40, 1, 1⟩), ("food", ⟨51/5, 1, 1, 1⟩),
  ("metals", ⟨181/20, 29/20, 1, 1⟩)], ⟨3/5, 3/10, 35⟩, ⟨1621/4000, 1, 14999820037/18750000000⟩,
  ⟨50, 50, 50, 50, 5, "Democracy"⟩, ⟨1, 1, 3/5⟩, ⟨3/10, 7/10, 9/10, 1/5⟩, "NonAligned", [], [],
  ⟨16/25, 2071/8000, 47/200, 49/200, 16/25, 57/200, 57131/80000, (-10 : ℤ)⟩, false, false, 0,
  1⟩), ("B", ⟨"X", ⟨1, 3, 100000000, 147/100, 0, 11/50, 3/10, 1/10, 1/50, 1/100, 1/100, 0, 0,
  1/100, 0, 10000, 1/20, 1/50, 1/50, 1/100, Option.none, Option.none, Option.none, 0,
  Option.none⟩, [("energy", ⟨391/40, 13/40, 1, 1⟩), ("food", ⟨51/5, 1, 1, 1⟩), ("metals",
  ⟨181/20, 29/20, 1, 1⟩)], ⟨3/5, 3/10, 35⟩, ⟨1621/4000, 1, 14999820037/18750000000⟩, ⟨50, 50,
  50, 50, 5, "Democracy"⟩, ⟨1, 1, 3/5⟩, ⟨3/10, 7/10, 9/10, 1/5⟩, "NonAligned", [], [], ⟨16/25,
  2071/8000, 47/200, 49/200, 16/25, 57/200, 57131/80000, (-10 : ℤ)⟩, false, false, 0, 1⟩)],
  ⟨2302, 72547/60000, 4/5, 10021/10000, 0, [128207/5000, 3304/125, 20827/625, 163017/5000],
  10000, [("energy", 284167/216667), ("food", 1), ("metals", 921667/966667)], [("energy",
  6047/20), ("food", 100), ("metals", 197/2)]⟩, [("A", [("B", ⟨1973/4000, 1156053/2000000,
  12407/100000, 7/100, false, 0, 0, 0, 0⟩)]), ("B", [("A", ⟨1973/4000, 1156053/2000000,
  12407/100000, 7/100, false, 0, 0, 0, 0⟩)])], [("IMF", ⟨"FinanceOrg", ["A", "B"], 1311/2000, 0,
  3/2500⟩)]⟩

/-- C4 scenario state W8. -/
def c4W8 : World :=
  ⟨0, [("A", ⟨"X", ⟨4608267871141935195729477239582171647/4608000000000000000000000000000000000,
  59328267871141935195729477239582171647/19200000000000000000000000000000000000, 100000000,
  3678933/2500000, 3933/2500000, 11/50, 3/10, 1/10, 1/50, 1/100, 1/100, 0, 0, 1/100, 0,
  4608267871141935195729477239582171647/460800000000000000000000000000000, 1/20, 1/50, 1/50,
  1/100, (some (206550467/200000000)), (some (200000000/206550467)), Option.none, 0,
  Option.none⟩, [("energy", ⟨391/40, 13/40, 1, 1⟩), ("food", ⟨51/5, 1, 1, 1⟩), ("metals",
  ⟨181/20, 29/20, 1, 1⟩)], ⟨3/5, 3/10, 35⟩, ⟨1621/4000, 1, 14999820037/18750000000⟩, ⟨50, 50,
  50, 50, 5, "Democracy"⟩, ⟨1, 1, 3/5⟩, ⟨3/10, 7/10, 9/10, 1/5⟩, "NonAligned", [], [], ⟨16/25,
  2071/8000, 47/200, 49/200, 16/25, 57/200, 57131/80000, (-10 : ℤ)⟩, false, false, 0, 1⟩), ("B",
  ⟨"X", ⟨4608267871141935195729477239582171647/4608000000000000000000000000000000000,
  59328267871141935195729477239582171647/19200000000000000000000000000000000000, 100000000,
  147/100, 0, 11/50, 3/10, 1/10, 1/50, 1/100, 1/100, 0, 0, 1/100, 0,
  4608267871141935195729477239582171647/460800000000000000000000000000000, 1/20, 1/50, 1/50,
  1/100, (some (206550467/200000000)), (some (200000000/206550467)), Option.none, 0,
  Option.none⟩, [("energy", ⟨391/40, 13/40, 1, 1⟩), ("food", ⟨51/5, 1, 1, 1⟩), ("metals",
  ⟨181/20, 29/20, 1, 1⟩)], ⟨3/5, 3/10, 35⟩, ⟨1621/4000, 1, 14999820037/18750000000⟩, ⟨50, 50,
  50, 50, 5, "Democracy"⟩, ⟨1, 1, 3/5⟩, ⟨3/10, 7/10, 9/10, 1/5⟩, "NonAligned", [], [], ⟨16/25,
  2071/8000, 47/200, 49/200, 16/25, 57/200, 57131/80000, (-10 : ℤ)⟩, false, false, 0, 1⟩)],
  ⟨2302, 72547/60000, 4/5, 10021/10000, 0, [128207/5000, 3304/125, 20827/625, 163017/5000],
  10000, [("energy", 284167/216667), ("food", 1), ("metals", 921667/966667)], [("energy",
  6047/20), ("food", 100), ("metals", 197/2)]⟩, [("A", [("B", ⟨1973/4000, 1156053/2000000,
  12407/100000, 7/100, false, 0, 0, 0, 0⟩)]), ("B", [("A", ⟨1973/4000, 1156053/2000000,
  12407/100000, 7/100, false, 0, 0, 0, 0⟩)])], [("IMF", ⟨"FinanceOrg", ["A", "B"], 1311/2000, 0,
  3/2500⟩)]⟩

/-- C4 scenario state W9. -/
def c4W9 : World :=
  ⟨0, [("A", ⟨"X", ⟨4608267871141935195729477239582171647/5120000000000000000000000000000000000,
  59328267871141935195729477239582171647/19200000000000000000000000000000000000, 100000000,
  140228453983141935195729477239582171647/153600000000000000000000000000000000000, 3933/2500000,
  50690946582561287153024249635403888117/230400000000000000000000000000000000000,
  1202098723070937380607712988232578191063361/3686400000000000000000000000000000000000000, 1/10,
  1/50, 17/2000,
  40843078141930971639750356774416787307361/3686400000000000000000000000000000000000000, 0, 0,
  282252774431900345237699793547552159327033536413302889985194851941599883388670550033/1659072872828048706680362370419636495670543642152285733022985085357085360078125000000,
  0, 4608267871141935195729477239582171647/460800000000000000000000000000000, 1/10, 1/50, 1/50,
  1/100, (some (206550467/200000000)), (some (200000000/206550467)), Option.none, 0,
  Option.none⟩, [("energy", ⟨391/40, 13/40, 1, 1⟩), ("food", ⟨51/5, 1, 1, 1⟩), ("metals",
  ⟨181/20, 29/20, 1, 1⟩)], ⟨9/20, 9/20, 35⟩, ⟨1621/4000, 1, 14999820037/18750000000⟩, ⟨50, 50,
  50, 50, 5, "Democracy"⟩, ⟨1, 1, 3/5⟩, ⟨3/10, 11/20, 9/10, 1/5⟩, "NonAligned", [], [], ⟨16/25,
  2071/8000, 47/200, 49/200, 16/25, 57/200, 57131/80000, (-10 : ℤ)⟩, false, true, 0, 1⟩), ("B",
  ⟨"X", ⟨4608267871141935195729477239582171647/4608000000000000000000000000000000000,
  59328267871141935195729477239582171647/19200000000000000000000000000000000000, 100000000,
  140083467871141935195729477239582171647/92160000000000000000000000000000000000, 0,
  50690946582561287153024249635403888117/230400000000000000000000000000000000000,
  1202098723070937380607712988232578191063361/3686400000000000000000000000000000000000000, 1/10,
  1/50, 17/2000,
  40843078141930971639750356774416787307361/3686400000000000000000000000000000000000000, 0, 0,
  41807412145670224096718694415212734151931123518471863970507454478693784998674413/265451659652487793068857979267141839307286982744365717283677613657133657612500000,
  0, 4608267871141935195729477239582171647/460800000000000000000000000000000, 1/20, 1/50, 1/50,
  1/100, (some (206550467/200000000)), (some (200000000/206550467)), Option.none, 0,
  Option.none⟩, [("energy", ⟨391/40, 13/40, 1, 1⟩), ("food", ⟨51/5, 1, 1, 1⟩), ("metals",
  ⟨181/20, 29/20, 1, 1⟩)], ⟨3/5, 3/10, 35⟩, ⟨1621/4000, 1, 14999820037/18750000000⟩, ⟨50, 50,
  50, 50, 5, "Democracy"⟩, ⟨1, 1, 3/5⟩, ⟨3/10, 7/10, 9/10, 1/5⟩, "NonAligned", [], [], ⟨16/25,
  2071/8000, 47/200, 49/200, 16/25, 57/200, 57131/80000, (-10 : ℤ)⟩, false, false, 0, 1⟩)],
  ⟨2302, 72547/60000, 4/5, 10021/10000, 0, [128207/5000, 3304/125, 20827/625, 163017/5000],
  10000, [("energy", 284167/216667), ("food", 1), ("metals", 921667/966667)], [("energy",
  6047/20), ("food", 100), ("metals", 197/2)]⟩, [("A", [("B", ⟨1973/4000, 1156053/2000000,
  12407/100000, 7/100, false, 0, 0, 0, 0⟩)]), ("B", [("A", ⟨1973/4000, 1156053/2000000,
  12407/100000, 7/100, false, 0, 0, 0, 0⟩)])], [("IMF", ⟨"FinanceOrg", ["A", "B"], 1311/2000, 0,
  3/2500⟩)]⟩

/-- C4 scenario state W10. -/
def c4W10 : World :=
  ⟨0, [("A", ⟨"X", ⟨4608267871141935195729477239582171647/5120000000000000000000000000000000000,
  59328267871141935195729477239582171647/19200000000000000000000000000000000000,
  616173562679189051673701080302448161782483/6144000000000000000000000000000000,
  140228453983141935195729477239582171647/153600000000000000000000000000000000000, 3933/2500000,
  50690946582561287153024249635403888117/230400000000000000000000000000000000000,
  1202098723070937380607712988232578191063361/3686400000000000000000000000000000000000000, 1/10,
  1/50, 17/2000,
  40843078141930971639750356774416787307361/3686400000000000000000000000000000000000000, 0, 0,
  282252774431900345237699793547552159327033536413302889985194851941599883388670550033/1659072872828048706680362370419636495670543642152285733022985085357085360078125000000,
  0, 4608267871141935195729477239582171647/460800000000000000000000000000000, 1/10, 1/50,
  1237200051065593599964423574114791275187/122880000000000000000000000000000000000000,
  367703131344909693843419797343816216121/51200000000000000000000000000000000000000,
  (some (206550467/200000000)), (some (200000000/206550467)),
  (some (4608267871141935195729477239582171647/5120000000000000000000000000000000000)), 0,
  Option.none⟩, [("energy", ⟨391/40, 13/40, 1, 1⟩), ("food", ⟨51/5, 1, 1, 1⟩), ("metals",
  ⟨181/20, 29/20, 1, 1⟩)],
  ⟨38803968267871141935195729477239582171647/92160000000000000000000000000000000000000,
  713605631732128858064804270522760417828353/1536000000000000000000000000000000000000000,
  44899205631732128858064804270522760417828353/1280000000000000000000000000000000000000000⟩,
  ⟨1621/4000, 1, 14999820037/18750000000⟩, ⟨50, 50, 50, 50, 5, "Democracy"⟩, ⟨1, 1, 3/5⟩, ⟨3/10,
  11/20, 9/10, 1/5⟩, "NonAligned", [], [], ⟨16/25, 2071/8000, 47/200, 49/200, 16/25, 57/200,
  57131/80000, (-10 : ℤ)⟩, false, true, 0, 1⟩), ("B", ⟨"X",
  ⟨4608267871141935195729477239582171647/4608000000000000000000000000000000000,
  59328267871141935195729477239582171647/19200000000000000000000000000000000000,
  616173562679189051673701080302448161782483/6144000000000000000000000000000000,
  140083467871141935195729477239582171647/92160000000000000000000000000000000000, 0,
  50690946582561287153024249635403888117/230400000000000000000000000000000000000,
  1202098723070937380607712988232578191063361/3686400000000000000000000000000000000000000, 1/10,
  1/50, 17/2000,
  40843078141930971639750356774416787307361/3686400000000000000000000000000000000000000, 0, 0,
  41807412145670224096718694415212734151931123518471863970507454478693784998674413/265451659652487793068857979267141839307286982744365717283677613657133657612500000,
  0, 4608267871141935195729477239582171647/460800000000000000000000000000000, 1/20, 1/50,
  1237200051065593599964423574114791275187/122880000000000000000000000000000000000000,
  367703131344909693843419797343816216121/51200000000000000000000000000000000000000,
  (some (206550467/200000000)), (some (200000000/206550467)),
  (some (4608267871141935195729477239582171647/4608000000000000000000000000000000000)), 0,
  Option.none⟩, [("energy", ⟨391/40, 13/40, 1, 1⟩), ("food", ⟨51/5, 1, 1, 1⟩), ("metals",
  ⟨181/20, 29/20, 1, 1⟩)],
  ⟨53849088267871141935195729477239582171647/92160000000000000000000000000000000000000,
  467392511732128858064804270522760417828353/1536000000000000000000000000000000000000000,
  44652992511732128858064804270522760417828353/1280000000000000000000000000000000000000000⟩,
  ⟨1621/4000, 1, 14999820037/18750000000⟩, ⟨50, 50, 50, 50, 5, "Democracy"⟩, ⟨1, 1, 3/5⟩, ⟨3/10,
  7/10, 9/10, 1/5⟩, "NonAligned", [], [], ⟨16/25, 2071/8000, 47/200, 49/200, 16/25, 57/200,
  57131/80000, (-10 : ℤ)⟩, false, false, 0, 1⟩)], ⟨2302, 72547/60000, 4/5, 10021/10000, 0,
  [128207/5000, 3304/125, 20827/625, 163017/5000], 10000, [("energy", 284167/216667), ("food",
  1), ("metals", 921667/966667)], [("energy", 6047/20), ("food", 100), ("metals", 197/2)]⟩,
  [("A", [("B", ⟨1973/4000, 1156053/2000000, 12407/100000, 7/100, false, 0, 0, 0, 0⟩)]), ("B",
  [("A", ⟨1973/4000, 1156053/2000000, 12407/100000, 7/100, false, 0, 0, 0, 0⟩)])], [("IMF",
  ⟨"FinanceOrg", ["A", "B"], 1311/2000, 0, 3/2500⟩)]⟩

/-- C4 scenario state W11. -/
def c4W11 : World :=
  ⟨0, [("A", ⟨"X", ⟨4608267871141935195729477239582171647/5120000000000000000000000000000000000,
  59328267871141935195729477239582171647/19200000000000000000000000000000000000,
  616173562679189051673701080302448161782483/6144000000000000000000000000000000,
  140228453983141935195729477239582171647/153600000000000000000000000000000000000, 3933/2500000,
  50690946582561287153024249635403888117/230400000000000000000000000000000000000,
  1202098723070937380607712988232578191063361/3686400000000000000000000000000000000000000, 1/10,
  1/50, 17/2000,
  40843078141930971639750356774416787307361/3686400000000000000000000000000000000000000, 0, 0,
  282252774431900345237699793547552159327033536413302889985194851941599883388670550033/1659072872828048706680362370419636495670543642152285733022985085357085360078125000000,
  0, 4608267871141935195729477239582171647/460800000000000000000000000000000, 1/10, 1/50,
  1237200051065593599964423574114791275187/122880000000000000000000000000000000000000,
  367703131344909693843419797343816216121/51200000000000000000000000000000000000000,
  (some (206550467/200000000)), (some (200000000/206550467)),
  (some (4608267871141935195729477239582171647/5120000000000000000000000000000000000)), 9/19,
  (some (2))⟩, [("energy", ⟨391/40, 13/40, 1, 1⟩), ("food", ⟨51/5, 1, 1, 1⟩), ("metals",
  ⟨181/20, 29/20, 1, 1⟩)],
  ⟨38803968267871141935195729477239582171647/92160000000000000000000000000000000000000,
  713605631732128858064804270522760417828353/1536000000000000000000000000000000000000000,
  44899205631732128858064804270522760417828353/1280000000000000000000000000000000000000000⟩,
  ⟨1621/4000, 1, 14999820037/18750000000⟩, ⟨50, 50, 50, 50, 5, "Democracy"⟩, ⟨1, 1, 3/5⟩, ⟨3/10,
  11/20, 9/10, 1/5⟩, "NonAligned", [], [], ⟨16/25, 2071/8000, 47/200, 49/200, 16/25, 57/200,
  57131/80000, (-10 : ℤ)⟩, false, true, 0, 1⟩), ("B", ⟨"X",
  ⟨4608267871141935195729477239582171647/4608000000000000000000000000000000000,
  59328267871141935195729477239582171647/19200000000000000000000000000000000000,
  616173562679189051673701080302448161782483/6144000000000000000000000000000000,
  140083467871141935195729477239582171647/92160000000000000000000000000000000000, 0,
  50690946582561287153024249635403888117/230400000000000000000000000000000000000,
  1202098723070937380607712988232578191063361/3686400000000000000000000000000000000000000, 1/10,
  1/50, 17/2000,
  40843078141930971639750356774416787307361/3686400000000000000000000000000000000000000, 0, 0,
  41807412145670224096718694415212734151931123518471863970507454478693784998674413/265451659652487793068857979267141839307286982744365717283677613657133657612500000,
  0, 4608267871141935195729477239582171647/460800000000000000000000000000000, 1/20, 1/50,
  1237200051065593599964423574114791275187/122880000000000000000000000000000000000000,
  367703131344909693843419797343816216121/51200000000000000000000000000000000000000,
  (some (206550467/200000000)), (some (200000000/206550467)),
  (some (4608267871141935195729477239582171647/4608000000000000000000000000000000000)), 10/19,
  (some (1))⟩, [("energy", ⟨391/40, 13/40, 1, 1⟩), ("food", ⟨51/5, 1, 1, 1⟩), ("metals",
  ⟨181/20, 29/20, 1, 1⟩)],
  ⟨53849088267871141935195729477239582171647/92160000000000000000000000000000000000000,
  467392511732128858064804270522760417828353/1536000000000000000000000000000000000000000,
  44652992511732128858064804270522760417828353/1280000000000000000000000000000000000000000⟩,
  ⟨1621/4000, 1, 14999820037/18750000000⟩, ⟨50, 50, 50, 50, 5, "Democracy"⟩, ⟨1, 1, 3/5⟩, ⟨3/10,
  7/10, 9/10, 1/5⟩, "NonAligned", [], [], ⟨16/25, 2071/8000, 47/200, 49/200, 16/25, 57/200,
  57131/80000, (-10 : ℤ)⟩, false, false, 0, 1⟩)], ⟨2302, 72547/60000, 4/5, 10021/10000, 0,
  [128207/5000, 3304/125, 20827/625, 163017/5000], 10000, [("energy", 284167/216667), ("food",
  1), ("metals", 921667/966667)], [("energy", 6047/20), ("food", 100), ("metals", 197/2)]⟩,
  [("A", [("B", ⟨1973/4000, 1156053/2000000, 12407/100000, 7/100, false, 0, 0, 0, 0⟩)]), ("B",
  [("A", ⟨1973/4000, 1156053/2000000, 12407/100000, 7/100, false, 0, 0, 0, 0⟩)])], [("IMF",
  ⟨"FinanceOrg", ["A", "B"], 1311/2000, 0, 3/2500⟩)]⟩

/-- C4 scenario action list ACT1. -/
def c4ACT1 : List (String × Action) :=
  [("A", ⟨"A", ⟨0, 0, 0, 0, "none"⟩, [], [], [], SecActionType.none, Option.none⟩), ("B", ⟨"B",
  ⟨0, 0, 0, 0, "none"⟩, [], [], [], SecActionType.none, Option.none⟩)]

/-- C4 scenario action list ACT2. -/
def c4ACT2 : List (String × Action) :=
  [("A", ⟨"A", ⟨0, 0, 0, 0, "none"⟩, [], [], [], SecActionType.none, Option.none⟩), ("B", ⟨"B",
  ⟨0, 0, 0, 0, "none"⟩, [], [], [], SecActionType.none, Option.none⟩)]

theorem alookup_nil {α : Type} (k : String) :
    alookup ([] : List (String × α)) k = Option.none := rfl

theorem alookup_cons {α : Type} (p : String × α) (xs : List (String × α))
    (k : String) :
    alookup (p :: xs) k = if p.1 = k then some p.2 else alookup xs k := by
  unfold alookup
  by_cases h : p.1 = k
  · rw [List.find?_cons_of_pos _ (by simpa using h), if_pos h]
    rfl
  · rw [List.find?_cons_of_neg _ (by simpa using h), if_neg h]

section C4Stages

attribute [local simp] max_def min_def world2 world2D agent2 agent1
  econ1 world1 rel2 c4_actions zact T0 alookup_nil alookup_cons aupdate aset
  List.filterMap_cons List.mergeSort List.enum
  clamp01 clampq update_agent update_rel effective_trade_intensity
  update_political_state update_political_states compute_debt_stress
  compute_protest_risk reserve_years_of reserve_stress compute_global_metrics
  update_member_rels finance_grants apply_org_measures refreshed_org
  update_one_institution update_institutions apply_political_constraints
  intent_map_sanctions intent_map_restrictions severity sanction_support
  desired_sanction_type sanction_keep resolve_sanction_target
  resolve_sanctions_actor resolve_sanctions update_trade_barriers build_blocks
  block_score update_coalitions resolve_foreign_policy
  apply_sanction_social_reaction apply_sanctions_effects geo_resource_stress
  auto_security_action apply_security_with apply_one_security_action
  apply_security_actions resource_index_agent ensure_war_start_rel
  to_war_agent of_war_agent to_war_rel of_war_rel update_active_conflicts
  update_conflict_pair war_pair_mid war_pair_resolve war_reset ensure_war_start
  war_exhausted resource_index apply_trade_barrier_effects
  normalize_domestic_levers apply_fuel_tax apply_social_spending
  apply_military_spending apply_rd_investment apply_climate_policy apply_action
  apply_actions apply_one_trade_deal reset_net_exports redistribute_residual
  apply_trade_deals update_relations_endogenous
  allocate_energy_reserves_and_caps metals_consumption primary_production
  update_resource_one update_resource_stocks update_food_stock
  update_global_resource_prices normalize_fractions carbon_decay
  carbon_pools_step co2_after CARBON_POOL_FRACTIONS CARBON_POOL_TIMESCALES
  CO2_PREINDUSTRIAL_GT climate_resilience update_global_climate
  update_climate_risks climate_damage_multiplier effective_damage_multiplier
  rate_partners agent_rate compute_effective_interest_rate rate_spread
  partner_stress_term rate_contagion update_tfp_endogenous
  update_capital_endogenous economy_gdp_update update_economy_output
  economy_output_all update_public_finances check_debt_crisis finances_all
  baseline_or_one migration_gdp_pc update_migration_flows update_population
  update_social_state check_regime_stability social_all
  compute_relative_metrics c4W1 c4W2 c4W3 c4W4 c4W5 c4W6 c4W7 c4W8 c4W9
  c4W10 c4W11 c4ACT1 c4ACT2

set_option maxRecDepth 100000 in
set_option maxHeartbeats 12000000 in
theorem c4_stage1 :
    update_institutions (fun _ => []) (update_political_states world2) = c4W1 := by
  norm_num +decide [String.reduceEq]

set_option maxRecDepth 100000 in
set_option maxHeartbeats 12000000 in
theorem c4_stage_actions :
    (c4_actions.map fun p => match alookup c4W1.agents p.1 with
      | some a => (p.1, apply_political_constraints p.2 a)
      | Option.none => p) = c4ACT1 := by
  norm_num +decide [String.reduceEq]

set_option maxRecDepth 100000 in
set_option maxHeartbeats 12000000 in
theorem c4_stage2 :
    resolve_foreign_policy c4W1 c4ACT1 = c4W2 := by
  norm_num +decide [String.reduceEq]

set_option maxRecDepth 100000 in
set_option maxHeartbeats 12000000 in
theorem c4_stage3 :
    apply_trade_barrier_effects (update_active_conflicts
      (apply_security_actions (fun _ => 0) (apply_sanctions_effects T0 c4W2)
        c4ACT1)) = c4W3 := by
  norm_num +decide [String.reduceEq]

set_option maxRecDepth 100000 in
set_option maxHeartbeats 12000000 in
theorem c4_stage4 :
    apply_actions T0 c4W3 c4ACT1 = (c4W4, c4ACT2) := by
  norm_num +decide [String.reduceEq]

set_option maxRecDepth 100000 in
set_option maxHeartbeats 12000000 in
theorem c4_stage5 :
    update_relations_endogenous (apply_trade_deals c4W4 c4ACT2) = c4W5 := by
  norm_num +decide [String.reduceEq]

set_option maxRecDepth 100000 in
set_option maxHeartbeats 12000000 in
theorem c4_stage6 :
    update_global_resource_prices (update_resource_stocks T0 c4W5
      (allocate_energy_reserves_and_caps c4W5)) = c4W6 := by
  norm_num +decide [String.reduceEq]

set_option maxRecDepth 100000 in
set_option maxHeartbeats 12000000 in
theorem c4_stage7 :
    update_climate_risks T0 (update_global_climate T0 c4W6) = c4W7 := by
  norm_num +decide [String.reduceEq]

set_option maxRecDepth 100000 in
set_option maxHeartbeats 12000000 in
theorem c4_stage8 :
    economy_output_all T0 c4W7 = c4W8 := by
  norm_num +decide [String.reduceEq]

set_option maxRecDepth 100000 in
set_option maxHeartbeats 12000000 in
theorem c4_stage9 :
    finances_all c4W8 = c4W9 := by
  norm_num +decide [String.reduceEq]

set_option maxRecDepth 100000 in
set_option maxHeartbeats 12000000 in
theorem c4_stage10 :
    social_all T0 c4ACT2 (update_migration_flows c4W9) = c4W10 := by
  norm_num +decide [String.reduceEq]

set_option maxRecDepth 100000 in
set_option maxHeartbeats 12000000 in
theorem c4_stage11 :
    compute_relative_metrics T0 c4W10 = c4W11 := by
  norm_num +decide [String.reduceEq]

end C4Stages

set_option maxRecDepth 100000 in
set_option maxHeartbeats 12000000 in
/-- C4: refuted on the code.  In the symmetric two-agent world `world2` —
identical agents, mirror-image relations, one FinanceOrg with both agents as
members — a single `step_world` call with zero actions from both agents and
extreme events disabled leaves the two agents with different gdp, trust_gov
and social_tension: the FinanceOrg liquidity loop hands its entire budget to
the first member in roster order and breaks, and the sequential debt-crisis
check then shocks exactly one of the two identical agents. -/
theorem step_world_two_identical_agents_diverge :
    ((alookup c4_post.agents "A").map c4_proj) ≠
    ((alookup c4_post.agents "B").map c4_proj) := by
  norm_num +decide [String.reduceEq, c4_post, step_world, c4_proj,
    alookup_nil, alookup_cons, c4_stage1,
    c4_stage_actions, c4_stage2, c4_stage3, c4_stage4, c4_stage5, c4_stage6,
    c4_stage7, c4_stage8, c4_stage9, c4_stage10, c4_stage11, c4W11]

end Step

end GIM
